import Mathlib

/-!
Verification development for the coinstr / smartvaults policy engine and
event dispatcher.

The Rust sources embedded here:
* `crates/smartvaults-core/src/policy/mod.rs` — the `Policy` type with
  `has_timelock`, `selectable_conditions`, `satisfiable_item_by_path`,
  `get_policy_path_from_signer`, `template_match` and `spend`.
* `crates/coinstr-sdk/src/client/sync.rs` — `Coinstr::handle_event`, the
  event dispatcher.

External library behaviour that the embedded functions call into (the bdk
`SatisfiableItem` tree, rust `BTreeMap`, the bitcoin crate's timelock
predicates, serde JSON serialization, the sdk's database) is modelled by
explicit Lean structures and functions; each such model is documented at
its definition.
-/

namespace Coinstr

/-! ## String helpers

Rust `str::contains` (substring test) and the `Ord` instance on `String`
used by `BTreeMap<String, _>` (lexicographic comparison). -/

/-- Lexicographic order on character lists. -/
def charListLt : List Char → List Char → Bool
  | [], [] => false
  | [], _ :: _ => true
  | _ :: _, [] => false
  | c1 :: r1, c2 :: r2 =>
    if c1 < c2 then true else if c2 < c1 then false else charListLt r1 r2

/-- Lexicographic order on strings: Rust `String: Ord`. -/
def strLt (a b : String) : Bool := charListLt a.toList b.toList

/-- Whether `sub` occurs at the start of the second list. -/
def startsWithChars : List Char → List Char → Bool
  | [], _ => true
  | _ :: _, [] => false
  | a :: as, b :: bs => a = b && startsWithChars as bs

/-- Whether `sub` occurs as a contiguous sublist. -/
def hasSubChars (sub : List Char) : List Char → Bool
  | [] => startsWithChars sub []
  | b :: bs => startsWithChars sub (b :: bs) || hasSubChars sub bs

/-- Rust `s.contains(sub)`: substring test. -/
def strContains (s sub : String) : Bool := hasSubChars sub.toList s.toList

/-! ## Sorted association lists: the model of Rust `BTreeMap<String, α>`

A `BTreeMap` iterates in strictly increasing key order and two maps are
equal iff they hold the same key/value pairs, so it is modelled as an
association list kept sorted by `strLt`, insertion overwriting an equal
key. -/

/-- `BTreeMap::insert`, keeping the list sorted by `strLt`. -/
def smapInsert {α : Type} (k : String) (v : α) : List (String × α) → List (String × α)
  | [] => [(k, v)]
  | (k2, v2) :: rest =>
    if strLt k k2 then (k, v) :: (k2, v2) :: rest
    else if k = k2 then (k, v) :: rest
    else (k2, v2) :: smapInsert k v rest

/-- `BTreeMap::get`. -/
def smapLookup {α : Type} (k : String) : List (String × α) → Option α
  | [] => none
  | (k2, v) :: rest => if k = k2 then some v else smapLookup k rest

/-- `BTreeMap::contains_key`. -/
def smapContainsKey {α : Type} (k : String) (m : List (String × α)) : Bool :=
  (smapLookup k m).isSome

/-- Collecting an iterator of pairs into a `BTreeMap`. -/
def smapOfList {α : Type} (l : List (String × α)) : List (String × α) :=
  l.foldl (fun m kv => smapInsert kv.1 kv.2 m) []

/-! ## The bdk `SatisfiableItem` tree

`bdk::descriptor::policy::SatisfiableItem` with one constructor per Rust
variant.  A `Thresh` node's items are bdk `Policy` values, each a pair of
an `id` string (in bdk a checksum computed deterministically from the
item, here carried as data) and a nested item; `SubPolicies` is that list
of children.  Key material (`PkOrF`) and hashes are carried as the strings
they serialize to. -/

mutual

inductive SatisfiableItem : Type where
  | ecdsaSignature (key : String)
  | schnorrSignature (key : String)
  | sha256Preimage (h : String)
  | hash256Preimage (h : String)
  | ripemd160Preimage (h : String)
  | hash160Preimage (h : String)
  | absoluteTimelock (value : Nat)
  | relativeTimelock (value : Nat)
  | multisig (keys : List String) (threshold : Nat)
  | thresh (items : SubPolicies) (threshold : Nat)

inductive SubPolicies : Type where
  | nil : SubPolicies
  | cons (id : String) (item : SatisfiableItem) (rest : SubPolicies) : SubPolicies

end

/-- `items.len()` for a `Thresh` node's children. -/
def SubPolicies.length : SubPolicies → Nat
  | .nil => 0
  | .cons _ _ rest => 1 + rest.length

/-- `items.iter().map(|i| i.id.clone()).collect()`. -/
def SubPolicies.ids : SubPolicies → List String
  | .nil => []
  | .cons i _ rest => i :: rest.ids

/-- The children as a plain list of (id, item) pairs. -/
def SubPolicies.toList : SubPolicies → List (String × SatisfiableItem)
  | .nil => []
  | .cons i it rest => (i, it) :: rest.toList

/-! ## serde JSON serialization of a `SatisfiableItem`

`get_policy_path_from_signer` serializes a sub-tree with
`serde_json::json!(item).to_string()` and tests whether the signer's
fingerprint occurs in that text.  The model builds a JSON-like string in
which every key / hash string of the tree occurs verbatim; braces are the
characters 0x7b / 0x7d. -/

mutual

def jsonItem : SatisfiableItem → String
  | .ecdsaSignature k =>
      "\x7b\x22type\x22:\x22ECDSASIGNATURE\x22,\x22key\x22:\x22" ++ k ++ "\x22\x7d"
  | .schnorrSignature k =>
      "\x7b\x22type\x22:\x22SCHNORRSIGNATURE\x22,\x22key\x22:\x22" ++ k ++ "\x22\x7d"
  | .sha256Preimage h =>
      "\x7b\x22type\x22:\x22SHA256PREIMAGE\x22,\x22hash\x22:\x22" ++ h ++ "\x22\x7d"
  | .hash256Preimage h =>
      "\x7b\x22type\x22:\x22HASH256PREIMAGE\x22,\x22hash\x22:\x22" ++ h ++ "\x22\x7d"
  | .ripemd160Preimage h =>
      "\x7b\x22type\x22:\x22RIPEMD160PREIMAGE\x22,\x22hash\x22:\x22" ++ h ++ "\x22\x7d"
  | .hash160Preimage h =>
      "\x7b\x22type\x22:\x22HASH160PREIMAGE\x22,\x22hash\x22:\x22" ++ h ++ "\x22\x7d"
  | .absoluteTimelock v =>
      "\x7b\x22type\x22:\x22ABSOLUTETIMELOCK\x22,\x22value\x22:" ++ toString v ++ "\x7d"
  | .relativeTimelock v =>
      "\x7b\x22type\x22:\x22RELATIVETIMELOCK\x22,\x22value\x22:" ++ toString v ++ "\x7d"
  | .multisig keys t =>
      "\x7b\x22type\x22:\x22MULTISIG\x22,\x22keys\x22:[" ++ String.intercalate "," (keys.map (fun k => "\x22" ++ k ++ "\x22")) ++ "],\x22threshold\x22:" ++ toString t ++ "\x7d"
  | .thresh items t =>
      "\x7b\x22type\x22:\x22THRESH\x22,\x22items\x22:[" ++ jsonSubPolicies items ++ "],\x22threshold\x22:" ++ toString t ++ "\x7d"

def jsonSubPolicies : SubPolicies → String
  | .nil => ""
  | .cons i it rest =>
      "\x7b\x22id\x22:\x22" ++ i ++ "\x22,\x22item\x22:" ++ jsonItem it ++ "\x7d," ++ jsonSubPolicies rest

end

/-! ## The `Policy` type

`smartvaults_core::policy::Policy` holds a name, a description and a
taproot descriptor.  The bdk wallet machinery derives from the descriptor
(for a network) a spending policy whose root is a bdk `Policy` node: an id
plus a `SatisfiableItem`; a model `Policy` carries that parsed root
directly (`rootId` is `item.id()` of the root, which bdk computes
deterministically from the item).  The descriptor text is kept as the
string the timelock checks inspect. -/

structure Policy where
  name : String
  description : String
  descriptor : String
  rootId : String
  rootItem : SatisfiableItem

/-- `Policy::has_absolute_timelock`: the descriptor string contains `after`. -/
def Policy.has_absolute_timelock (p : Policy) : Bool :=
  strContains p.descriptor "after"

/-- `Policy::has_relative_timelock`: the descriptor string contains `older`. -/
def Policy.has_relative_timelock (p : Policy) : Bool :=
  strContains p.descriptor "older"

/-- `Policy::has_timelock`. -/
def Policy.has_timelock (p : Policy) : Bool :=
  p.has_absolute_timelock || p.has_relative_timelock

/-- `SelectableCondition { path, thresh, sub_paths }`. -/
structure SelectableCondition where
  path : String
  thresh : Nat
  sub_paths : List String
deriving DecidableEq, Repr

/-- `PolicyPathSelector`. -/
inductive PolicyPathSelector : Type where
  | Complete (path : List (String × List Nat))
  | Partial (selected_path : List (String × List Nat))
      (missing_to_select : List (String × List String))
deriving DecidableEq, Repr

/-! ## `Policy::selectable_conditions`

The inner Rust helper pushes onto a `&mut Vec` accumulator: the condition
of a `Thresh` node whose threshold is strictly below its arity, then
recurses into every child with the child's id as `prev_id`. -/

mutual

def selectable_conditions_rec : SatisfiableItem → String → List SelectableCondition → List SelectableCondition
  | .thresh items threshold, prev_id, result =>
      selectable_conditions_recList items
        (if threshold < items.length then
          result ++ [{ path := prev_id, thresh := threshold, sub_paths := items.ids }]
        else result)
  | _, _, result => result

def selectable_conditions_recList : SubPolicies → List SelectableCondition → List SelectableCondition
  | .nil, result => result
  | .cons id item rest, result =>
      selectable_conditions_recList rest (selectable_conditions_rec item id result)

end

/-- `Policy::selectable_conditions` (the root call passes the root item's
own id, `item.id()`). -/
def Policy.selectable_conditions (p : Policy) : Option (List SelectableCondition) :=
  if p.has_timelock then some (selectable_conditions_rec p.rootItem p.rootId [])
  else none

/-! Spec-side characterization of the selectable conditions, following the
spec's words: walk the tree and collect, for every `Thresh { threshold,
items }` node with `threshold < |items|`, an entry whose `path` is the
node's id (the root's own id for the root), whose `thresh` is the
threshold and whose `sub_paths` are the children's ids. -/

mutual

def specSelectable : String → SatisfiableItem → List SelectableCondition
  | id, .thresh items t =>
      (if t < items.length then [{ path := id, thresh := t, sub_paths := items.ids }] else [])
        ++ specSelectableList items
  | _, _ => []

def specSelectableList : SubPolicies → List SelectableCondition
  | .nil => []
  | .cons i it rest => specSelectable i it ++ specSelectableList rest

end

/-! ## `Policy::satisfiable_item_by_path`

The inner Rust helper `check(item, prev_item, path)` compares `item.id()`
with the path; in the model each node's id travels next to its item, so
`check` receives it explicitly.  Only `SchnorrSignature` and `Thresh`
nodes can be found; every other variant falls through to `None`. -/

mutual

def checkPath (id : String) (item : SatisfiableItem) (prev_item : Option SatisfiableItem)
    (path : String) : Option SatisfiableItem :=
  match item with
  | .schnorrSignature _ => if id = path then prev_item else none
  | .thresh items _ =>
      if id = path then prev_item else checkPathList items path
  | _ => none

def checkPathList : SubPolicies → String → Option SatisfiableItem
  | .nil, _ => none
  | .cons id item rest, path =>
      match checkPath id item (some item) path with
      | some i => some i
      | none => checkPathList rest path

end

/-- `Policy::satisfiable_item_by_path` (root call passes `None` as
`prev_item`). -/
def Policy.satisfiable_item_by_path (p : Policy) (path : String) : Option SatisfiableItem :=
  checkPath p.rootId p.rootItem none path

/-! ## `Policy::get_policy_path_from_signer` -/

/-- A signer, reduced to the one attribute the policy-path search uses:
`signer.fingerprint().to_string()`. -/
structure Signer where
  fingerprint : String

/-- The inner loop over one condition's `sub_paths.iter().enumerate()`:
when the sub-tree at `sub_path` is found and its JSON serialization
contains the fingerprint, `map.insert(path, (thresh, vec![index]))`. -/
def scanSubPaths (p : Policy) (fp : String) (path : String) (thr : Nat) :
    List (Nat × String) → List (String × (Nat × List Nat)) → List (String × (Nat × List Nat))
  | [], m => m
  | (index, sub_path) :: rest, m =>
      scanSubPaths p fp path thr rest
        (match p.satisfiable_item_by_path sub_path with
         | some item =>
             if strContains (jsonItem item) fp then smapInsert path (thr, [index]) m else m
         | none => m)

/-- The outer loop of `get_policy_path_from_signer` over the selectable
conditions, building the `map` of matches. -/
def buildSignerMap (p : Policy) (fp : String) :
    List SelectableCondition → List (String × (Nat × List Nat)) → List (String × (Nat × List Nat))
  | [], m => m
  | c :: cs, m => buildSignerMap p fp cs (scanSubPaths p fp c.path c.thresh c.sub_paths.enum m)

/-- `Policy::get_policy_path_from_signer`. -/
def Policy.get_policy_path_from_signer (p : Policy) (signer : Signer) :
    Option PolicyPathSelector :=
  match p.selectable_conditions with
  | none => none
  | some selectable_conditions =>
    let map := buildSignerMap p signer.fingerprint selectable_conditions []
    if map.isEmpty then none
    else if selectable_conditions.length = map.length then
      let not_matching_thresh := map.filter (fun e => ¬ (e.2.1 = e.2.2.length))
      if not_matching_thresh.isEmpty then
        some (.Complete (map.map (fun e => (e.1, e.2.2))))
      else
        let missing_to_select := smapOfList (selectable_conditions.filterMap (fun c =>
          match smapLookup c.path not_matching_thresh with
          | none => none
          | some tv => some (c.path, tv.2.foldl (fun sps idx => sps.eraseIdx idx) c.sub_paths)))
        some (.Partial (map.map (fun e => (e.1, e.2.2))) missing_to_select)
    else
      let internal_key_path : List (String × List Nat) :=
        match selectable_conditions.head? with
        | some c => smapInsert c.path [0] []
        | none => []
      let selected_path := map.map (fun e => (e.1, e.2.2))
      if internal_key_path = selected_path then
        some (.Complete selected_path)
      else
        some (.Partial selected_path
          (smapOfList ((selectable_conditions.filter
            (fun c => ¬ smapContainsKey c.path selected_path)).map
            (fun c => (c.path, c.sub_paths)))))

/-! ## `Policy::template_match` -/

/-- `PolicyTemplateType`. -/
inductive PolicyTemplateType : Type where
  | Multisig
  | Hold
  | Recovery
  | Decaying
deriving DecidableEq, Repr

/-- `matches!(i.item, SatisfiableItem::SchnorrSignature(_))`. -/
def isSchnorr : SatisfiableItem → Bool
  | .schnorrSignature _ => true
  | _ => false

/-- `matches!(i.item, SatisfiableItem::AbsoluteTimelock { .. })`. -/
def isAbsoluteTl : SatisfiableItem → Bool
  | .absoluteTimelock _ => true
  | _ => false

/-- `matches!(i.item, SatisfiableItem::RelativeTimelock { .. })`. -/
def isRelativeTl : SatisfiableItem → Bool
  | .relativeTimelock _ => true
  | _ => false

/-- The `RelativeTimelock { .. } | AbsoluteTimelock { .. }` pattern. -/
def isTimelockItem (i : SatisfiableItem) : Bool := isRelativeTl i || isAbsoluteTl i

/-- `items.iter().filter(..).count()` over a `Thresh` node's children. -/
def SubPolicies.countP (f : SatisfiableItem → Bool) : SubPolicies → Nat
  | .nil => 0
  | .cons _ item rest => (if f item then 1 else 0) + rest.countP f

/-- The Hold / Recovery arm of `template_match`: fires only on
`Thresh { threshold: 2, items: [x, y] }`; otherwise control falls through
to the decaying check. -/
def templateHoldRecovery : SatisfiableItem → Option PolicyTemplateType
  | .thresh (.cons _ x (.cons _ y .nil)) 2 =>
      match x with
      | .schnorrSignature _ => if isTimelockItem y then some .Hold else none
      | .multisig _ _ => if isTimelockItem y then some .Recovery else none
      | _ => none
  | _ => none

/-- The Decaying arm of `template_match`. -/
def templateDecaying : SatisfiableItem → Option PolicyTemplateType
  | .thresh items threshold =>
      if threshold < items.length then
        let keys_count := items.countP isSchnorr
        let absolute_timelock_count := items.countP isAbsoluteTl
        let relative_timelock_count := items.countP isRelativeTl
        if threshold ≤ keys_count ∧
            absolute_timelock_count + relative_timelock_count = items.length - keys_count then
          some .Decaying
        else none
      else none
  | _ => none

/-- `template_match` on `items[1].item` after the root shape and the
Schnorr internal key were checked. -/
def templateMatchSecond : SatisfiableItem → Option PolicyTemplateType
  | .schnorrSignature _ => some .Multisig
  | .multisig _ _ => some .Multisig
  | .thresh items t =>
      match templateHoldRecovery (.thresh items t) with
      | some r => some r
      | none => templateDecaying (.thresh items t)
  | _ => none

/-- `Policy::template_match`: the root must be
`Thresh { threshold: 1, items: [a, b] }` with `a` a Schnorr signature. -/
def Policy.template_match (p : Policy) : Option PolicyTemplateType :=
  match p.rootItem with
  | .thresh (.cons _ a (.cons _ b .nil)) 1 =>
      match a with
      | .schnorrSignature _ => templateMatchSecond b
      | _ => none
  | _ => none

/-! ## `Policy::spend`

The bdk wallet, the transaction builder and the bitcoin crate's timelock
predicates are external to the repository; the wallet model carries the
data `spend` reads from them: the unspent outputs, the latest checkpoint
height, the outcome of `TxBuilder::finish()` (an oracle field, since the
PSBT construction itself is bdk code), and the `sent_and_received`
totals.  Outpoints are abstract (`Nat`). -/

/-- `Amount`. -/
inductive Amount : Type where
  | Max
  | Custom (amount : Nat)
deriving DecidableEq

/-- `bdk::chain::ConfirmationTime`. -/
inductive ConfirmationTime : Type where
  | Confirmed (height : Nat)
  | Unconfirmed
deriving DecidableEq, Repr

/-- `bdk::LocalUtxo`, reduced to the fields `spend` reads. -/
structure LocalUtxo where
  outpoint : Nat
  confirmation_time : ConfirmationTime
deriving DecidableEq, Repr

/-- A transaction input: previous output and raw `u32` sequence. -/
structure TxIn where
  previous_output : Nat
  sequence : Nat
deriving DecidableEq, Repr

/-- `absolute::LockTime` of a transaction. -/
inductive LockTime : Type where
  | Blocks (n : Nat)
  | Seconds (n : Nat)
deriving DecidableEq, Repr

/-- The unsigned transaction inside a PSBT. -/
structure Transaction where
  lock_time : LockTime
  input : List TxIn
deriving DecidableEq, Repr

/-- A PSBT: its unsigned transaction, plus the result of `psbt.fee()`
(`none` models the `Err` case). -/
structure Psbt where
  unsigned_tx : Transaction
  fee : Option Nat
deriving DecidableEq, Repr

/-- The wallet state `spend` consumes. `built_psbt` is the oracle for
`builder.finish()`: `none` models a bdk build error. -/
structure Wallet where
  utxos : List LocalUtxo
  checkpoint : Option Nat
  built_psbt : Option Psbt
  sent : Nat
  received : Nat

/-- `smartvaults_core::policy::Error`, reduced to the variants `spend`
produces (`Bdk` and `Psbt` stand for the propagated library errors). -/
inductive Error : Type where
  | NoUtxosSelected
  | NoUtxosAvailable (msg : String)
  | CheckpointNotAvailable
  | AbsoluteTimelockNotSatisfied
  | RelativeTimelockNotSatisfied
  | Bdk
  | Psbt
deriving DecidableEq, Repr

/-- `Proposal::spending`. -/
inductive Proposal : Type where
  | Spending (descriptor : String) (to_address : String) (amount : Nat)
      (description : String) (psbt : Psbt)
deriving DecidableEq, Repr

/-- `Sequence::is_relative_lock_time()`: bit 31 (the disable flag) clear. -/
def seqIsRelativeLockTime (s : Nat) : Bool := s < 2 ^ 31

/-- `Sequence::is_height_locked()`: relative lock with bit 22 (the type
flag) clear. -/
def seqIsHeightLocked (s : Nat) : Bool :=
  seqIsRelativeLockTime s && decide ((s / 2 ^ 22) % 2 = 0)

/-- `Sequence::is_time_locked()`: relative lock with bit 22 set. -/
def seqIsTimeLocked (s : Nat) : Bool :=
  seqIsRelativeLockTime s && decide ((s / 2 ^ 22) % 2 = 1)

/-- `Transaction::is_lock_time_enabled()`: some input sequence differs
from `Sequence::MAX = 0xFFFFFFFF`. -/
def txIsLockTimeEnabled (tx : Transaction) : Bool :=
  tx.input.any (fun i => i.sequence != 0xFFFFFFFF)

/-- `Transaction::is_absolute_timelock_satisfied(height, time)` from the
bitcoin crate: trivially satisfied when no input enables the lock time,
otherwise the lock value must not exceed the height (block locks) or the
time (second locks). -/
def is_absolute_timelock_satisfied (tx : Transaction) (height time : Nat) : Bool :=
  if txIsLockTimeEnabled tx then
    match tx.lock_time with
    | .Blocks n => n ≤ height
    | .Seconds n => n ≤ time
  else true

/-- The relative-timelock loop of `spend` over the transaction inputs:
the first locked input whose wallet UTXO is unconfirmed, or confirmed
with `current_height.saturating_sub(height) < sequence`, triggers the
error. -/
def relativeViolation (wallet_utxos : List LocalUtxo) (current_height : Nat) :
    List TxIn → Bool
  | [] => false
  | txin :: rest =>
      if seqIsHeightLocked txin.sequence || seqIsTimeLocked txin.sequence then
        match wallet_utxos.find? (fun u => u.outpoint == txin.previous_output) with
        | some utxo =>
          match utxo.confirmation_time with
          | .Confirmed height =>
              if current_height - height < txin.sequence then true
              else relativeViolation wallet_utxos current_height rest
          | .Unconfirmed => true
        | none => relativeViolation wallet_utxos current_height rest
      else relativeViolation wallet_utxos current_height rest

/-- The PSBT-building block of `spend`: rejects an explicitly empty UTXO
selection, then asks the builder oracle. -/
def psbtBuildStep (utxos : Option (List Nat)) (wallet : Wallet) : Except Error Psbt :=
  match utxos with
  | some us =>
      if us.isEmpty then .error Error.NoUtxosSelected
      else match wallet.built_psbt with
           | some psbt => .ok psbt
           | none => .error Error.Bdk
  | none =>
      match wallet.built_psbt with
      | some psbt => .ok psbt
      | none => .error Error.Bdk

/-- The tail of `spend`: compute the final amount (for `Max`,
`sent − received − fee`, saturating) and wrap the spending proposal. -/
def finalizeSpend (p : Policy) (wallet : Wallet) (address : String) (amount : Amount)
    (description : String) (psbt : Psbt) : Except Error Proposal :=
  match amount with
  | .Max =>
      match psbt.fee with
      | none => .error Error.Psbt
      | some fee =>
          .ok (.Spending p.descriptor address (wallet.sent - wallet.received - fee)
            description psbt)
  | .Custom x => .ok (.Spending p.descriptor address x description psbt)

/-- `Policy::spend`. -/
def Policy.spend (p : Policy) (wallet : Wallet) (address : String) (amount : Amount)
    (description : String) (utxos : Option (List Nat)) (frozen_utxos : Option (List Nat))
    (timestamp : Nat) : Except Error Proposal :=
  let wallet_utxos := wallet.utxos
  if wallet_utxos.isEmpty then
    .error (.NoUtxosAvailable "wallet not contains any UTXO")
  else
    match wallet.checkpoint with
    | none => .error Error.CheckpointNotAvailable
    | some current_height =>
      let frozen_covers : Bool :=
        match frozen_utxos with
        | some fz => (wallet.utxos.filter (fun u => !(fz.contains u.outpoint))).length == 0
        | none => false
      if frozen_covers then
        .error (.NoUtxosAvailable "frozen by other proposals")
      else
        match psbtBuildStep utxos wallet with
        | .error e => .error e
        | .ok psbt =>
          if p.has_timelock then
            if !(is_absolute_timelock_satisfied psbt.unsigned_tx current_height timestamp) then
              .error Error.AbsoluteTimelockNotSatisfied
            else if relativeViolation wallet_utxos current_height psbt.unsigned_tx.input then
              .error Error.RelativeTimelockNotSatisfied
            else finalizeSpend p wallet address amount description psbt
          else finalizeSpend p wallet address amount description psbt

/-! ## The event dispatcher: `Coinstr::handle_event` (sync.rs)

Event ids, public keys, decrypted payloads and secret keys are abstract
(`Nat`).  The decryption and parsing primitives are deterministic
functions collected in an `Env` (they are pure in the Rust code too:
same key and ciphertext, same result); `none` models a failed
decryption / parse, which aborts the handler for that event with an
error after the store writes already made. -/

/-- The event kinds the dispatcher distinguishes (domain kinds plus the
standard `Metadata`, `ContactList`, `EventDeletion`, `NostrConnect`;
`other` covers every remaining kind). -/
inductive NKind : Type where
  | sharedKey
  | policy
  | proposal
  | approvedProposal
  | completedProposal
  | signers
  | sharedSigners
  | eventDeletion
  | contactList
  | metadata
  | nostrConnect
  | other
deriving DecidableEq, Repr

/-- An event tag: `e` (event reference), `p` (public key), contact entry,
or anything else. -/
inductive NTag : Type where
  | event (id : Nat)
  | pubKey (pk : Nat)
  | contactEntry (pk : Nat)
  | other
deriving DecidableEq, Repr

/-- A relay event. -/
structure NEvent where
  id : Nat
  pubkey : Nat
  created_at : Nat
  kind : NKind
  tags : List NTag
  content : String
deriving DecidableEq, Repr

/-- `util::extract_first_event_id`: the first `e` tag. -/
def extract_first_event_id (ev : NEvent) : Option Nat :=
  ev.tags.findSome? (fun t => match t with | .event i => some i | _ => none)

/-- The ids of all `e` tags, in order (`extract_tags_by_kind(.., TagKind::E)`). -/
def eventTagIds (ev : NEvent) : List Nat :=
  ev.tags.filterMap (fun t => match t with | .event i => some i | _ => none)

/-- `util::extract_first_public_key`: the first `p` tag. -/
def extract_first_public_key (ev : NEvent) : Option Nat :=
  ev.tags.findSome? (fun t => match t with | .pubKey pk => some pk | _ => none)

/-- `Notification` (types/notification.rs, plus the completed-proposal
variant sync.rs emits). -/
inductive Notification : Type where
  | NewPolicy (id : Nat)
  | NewProposal (id : Nat)
  | NewApproval (proposal_id : Nat) (public_key : Nat)
  | NewCompletedProposal (id : Nat)
  | NewSharedSigner (shared_signer_id : Nat) (owner_public_key : Nat)
deriving DecidableEq, Repr

/-- A nostr-connect request after NIP-46 parsing. -/
inductive NCRequest : Type where
  | disconnect
  | getPublicKey
  | otherRequest (payload : Nat)
deriving DecidableEq, Repr

/-- Map insertion over `Nat` keys, sorted, overwriting an equal key
(models the keyed tables of the sdk database: one row per id). -/
def nmapInsert {α : Type} (k : Nat) (v : α) : List (Nat × α) → List (Nat × α)
  | [] => [(k, v)]
  | (k2, v2) :: rest =>
    if k < k2 then (k, v) :: (k2, v2) :: rest
    else if k = k2 then (k, v) :: rest
    else (k2, v2) :: nmapInsert k v rest

/-- Row lookup by id. -/
def nmapLookup {α : Type} (k : Nat) : List (Nat × α) → Option α
  | [] => none
  | (k2, v) :: rest => if k = k2 then some v else nmapLookup k rest

/-- Row deletion by id. -/
def nmapErase {α : Type} (k : Nat) (m : List (Nat × α)) : List (Nat × α) :=
  m.filter (fun e => e.1 != k)

/-- Sorted insertion into a set of ids. -/
def nsetInsert (k : Nat) : List Nat → List Nat
  | [] => [k]
  | k2 :: rest =>
    if k < k2 then k :: k2 :: rest
    else if k = k2 then k2 :: rest
    else k2 :: nsetInsert k rest

/-- The store (spec §4.4 / §6).  Modelled from the spec: the sdk database
itself is not among the sources, only the dispatcher that drives it; per
the spec the tables are keyed by event id (event idempotence by id), the
pending queue is FIFO with one entry per event id, and deletion marks ids
deleted. -/
structure DbState where
  events : List (Nat × NEvent)
  deleted : List Nat
  sharedKeys : List (Nat × Nat)
  policies : List (Nat × (Nat × List Nat))
  proposals : List (Nat × (Nat × Nat))
  approvals : List (Nat × (Nat × Nat × Nat × Nat))
  completedProposals : List (Nat × (Nat × Nat))
  signers : List (Nat × Nat)
  mySharedSigners : List (Nat × (Nat × Nat))
  sharedSigners : List (Nat × (Nat × Nat))
  pending : List NEvent
  notifications : List (Nat × Notification)
  contacts : List Nat
  profiles : List (Nat × Nat)
  sessions : List (Nat × Bool)
  ncRequests : List (Nat × (Nat × Nat × Bool))
  scheduledSync : List Nat
deriving DecidableEq, Repr

/-- The deterministic environment: own key pair and the decryption /
parsing primitives the dispatcher calls. -/
structure Env where
  selfPk : Nat
  now : Nat
  decryptSharedKey : NEvent → Option Nat
  decryptPolicy : Nat → String → Option Nat
  decryptProposal : Nat → String → Option Nat
  decryptApproved : Nat → String → Option Nat
  decryptCompleted : Nat → String → Option Nat
  decryptSigner : String → Option Nat
  decryptSharedSigner : Nat → String → Option Nat
  parseProfile : String → Option Nat
  decryptNip46 : Nat → String → Option NCRequest

/-- `save_event`: the raw-event log, idempotent by id. -/
def saveEvent (ev : NEvent) (s : DbState) : DbState :=
  { s with events := nmapInsert ev.id ev s.events }

/-- `save_pending_event`: FIFO append, idempotent by id (spec §6). -/
def pushPending (l : List NEvent) (ev : NEvent) : List NEvent :=
  if l.any (fun e => e.id == ev.id) then l else l ++ [ev]

/-- `delete_generic_event_id` (spec §4.4): removes whichever entity the
event id produced, idempotent, no-op when unknown; the id is recorded as
deleted (`event_was_deleted`). -/
def deleteGenericEventId (s : DbState) (id : Nat) : DbState :=
  { s with
    deleted := nsetInsert id s.deleted
    sharedKeys := nmapErase id s.sharedKeys
    policies := nmapErase id s.policies
    proposals := nmapErase id s.proposals
    approvals := nmapErase id s.approvals
    completedProposals := nmapErase id s.completedProposals
    signers := nmapErase id s.signers
    mySharedSigners := nmapErase id s.mySharedSigners
    sharedSigners := nmapErase id s.sharedSigners
    notifications := nmapErase id s.notifications }

/-- The `EventDeletion` loop body for one tag: delete only when the
deletion's author equals the recorded author of the tagged event. -/
def deletionStep (ev : NEvent) (s : DbState) (t : NTag) : DbState :=
  match t with
  | .event tid =>
      match nmapLookup tid s.events with
      | some orig => if orig.pubkey = ev.pubkey then deleteGenericEventId s tid else s
      | none => s
  | _ => s

/-- `Coinstr::handle_event`: one inbound event against the store.
Returns the new store and the notification message the caller forwards
to the sync channel (`none` covers both `Ok(None)` and a handler error,
neither of which yields a message). -/
def handle_event (env : Env) (s : DbState) (ev : NEvent) : DbState × Option Notification :=
  if s.deleted.contains ev.id then (s, none)
  else
    let s := if ev.kind = NKind.nostrConnect then s else saveEvent ev s
    match ev.kind with
    | .sharedKey =>
        match extract_first_event_id ev with
        | none => (s, none)
        | some policy_id =>
            if (nmapLookup policy_id s.sharedKeys).isSome then (s, none)
            else
              match env.decryptSharedKey ev with
              | none => (s, none)
              | some sk => ({ s with sharedKeys := nmapInsert policy_id sk s.sharedKeys }, none)
    | .policy =>
        if (nmapLookup ev.id s.policies).isSome then (s, none)
        else
          match nmapLookup ev.id s.sharedKeys with
          | some sk =>
              match env.decryptPolicy sk ev.content with
              | none => (s, none)
              | some pol =>
                  let pks := ev.tags.filterMap
                    (fun t => match t with | .pubKey pk => some pk | _ => none)
                  if pks.isEmpty then (s, none)
                  else
                    ({ s with
                        policies := nmapInsert ev.id (pol, pks) s.policies
                        notifications :=
                          nmapInsert ev.id (Notification.NewPolicy ev.id) s.notifications },
                      some (Notification.NewPolicy ev.id))
          | none => ({ s with pending := pushPending s.pending ev }, none)
    | .proposal =>
        if (nmapLookup ev.id s.proposals).isSome then (s, none)
        else
          match extract_first_event_id ev with
          | none => (s, none)
          | some policy_id =>
              match nmapLookup policy_id s.sharedKeys with
              | some sk =>
                  match env.decryptProposal sk ev.content with
                  | none => (s, none)
                  | some prop =>
                      ({ s with
                          proposals := nmapInsert ev.id (policy_id, prop) s.proposals
                          notifications :=
                            nmapInsert ev.id (Notification.NewProposal ev.id) s.notifications },
                        some (Notification.NewProposal ev.id))
              | none => ({ s with pending := pushPending s.pending ev }, none)
    | .approvedProposal =>
        if (nmapLookup ev.id s.approvals).isSome then (s, none)
        else
          match extract_first_event_id ev with
          | none => (s, none)
          | some proposal_id =>
              match (eventTagIds ev).get? 1 with
              | none => (s, none)
              | some policy_id =>
                  match nmapLookup policy_id s.sharedKeys with
                  | some sk =>
                      match env.decryptApproved sk ev.content with
                      | none => (s, none)
                      | some ap =>
                          ({ s with
                              approvals := nmapInsert ev.id
                                (proposal_id, ev.pubkey, ap, ev.created_at) s.approvals
                              notifications := nmapInsert ev.id
                                (Notification.NewApproval proposal_id ev.pubkey) s.notifications },
                            some (Notification.NewApproval proposal_id ev.pubkey))
                  | none => ({ s with pending := pushPending s.pending ev }, none)
    | .completedProposal =>
        if (nmapLookup ev.id s.completedProposals).isSome then (s, none)
        else
          match extract_first_event_id ev with
          | none => (s, none)
          | some proposal_id =>
              let s := { s with proposals := nmapErase proposal_id s.proposals }
              match (eventTagIds ev).get? 1 with
              | none => (s, none)
              | some policy_id =>
                  let s :=
                    if env.now ≤ ev.created_at + 600 then
                      { s with scheduledSync := nsetInsert policy_id s.scheduledSync }
                    else s
                  match nmapLookup policy_id s.sharedKeys with
                  | some sk =>
                      match env.decryptCompleted sk ev.content with
                      | none => (s, none)
                      | some cp =>
                          ({ s with
                              completedProposals := nmapInsert ev.id (policy_id, cp)
                                s.completedProposals
                              notifications := nmapInsert ev.id
                                (Notification.NewCompletedProposal ev.id) s.notifications },
                            some (Notification.NewCompletedProposal ev.id))
                  | none => ({ s with pending := pushPending s.pending ev }, none)
    | .signers =>
        match env.decryptSigner ev.content with
        | none => (s, none)
        | some sg => ({ s with signers := nmapInsert ev.id sg s.signers }, none)
    | .sharedSigners =>
        match extract_first_public_key ev with
        | none => (s, none)
        | some public_key =>
            if ev.pubkey = env.selfPk then
              match extract_first_event_id ev with
              | none => (s, none)
              | some signer_id =>
                  ({ s with
                      mySharedSigners :=
                        nmapInsert ev.id (signer_id, public_key) s.mySharedSigners },
                    none)
            else
              match env.decryptSharedSigner ev.pubkey ev.content with
              | none => (s, none)
              | some ss =>
                  ({ s with
                      sharedSigners := nmapInsert ev.id (ev.pubkey, ss) s.sharedSigners
                      notifications := nmapInsert ev.id
                        (Notification.NewSharedSigner ev.id ev.pubkey) s.notifications },
                    some (Notification.NewSharedSigner ev.id ev.pubkey))
    | .eventDeletion => (ev.tags.foldl (deletionStep ev) s, none)
    | .contactList =>
        let pks := ev.tags.filterMap
          (fun t => match t with | .contactEntry pk => some pk | _ => none)
        ({ s with contacts := pks.foldl (fun acc pk => nsetInsert pk acc) [] }, none)
    | .metadata =>
        match env.parseProfile ev.content with
        | none => (s, none)
        | some pr => ({ s with profiles := nmapInsert ev.pubkey pr s.profiles }, none)
    | .nostrConnect =>
        match nmapLookup ev.pubkey s.sessions with
        | none => (s, none)
        | some preAuth =>
            match env.decryptNip46 ev.pubkey ev.content with
            | none => (s, none)
            | some req =>
                match req with
                | .disconnect => ({ s with sessions := nmapErase ev.pubkey s.sessions }, none)
                | .getPublicKey => (s, none)
                | .otherRequest payload =>
                    ({ s with
                        ncRequests :=
                          nmapInsert ev.id (ev.pubkey, payload, preAuth) s.ncRequests },
                      none)
    | .other => (s, none)

/-! ## Abstractions over the signer-map construction, used to state its
properties -/

/-- Whether the sub-tree found at `sub_path` has a JSON serialization
containing the fingerprint — the per-sub-path test of the loop in
`get_policy_path_from_signer`. -/
def matchesAt (p : Policy) (fp : String) (sub_path : String) : Bool :=
  match p.satisfiable_item_by_path sub_path with
  | some item => strContains (jsonItem item) fp
  | none => false

/-- The last matching entry of one condition's enumerated sub-paths:
because each later match overwrites the map entry, this is what the
final map holds. -/
def lastMatch (p : Policy) (fp : String) (c : SelectableCondition) : Option (Nat × String) :=
  (c.sub_paths.enum.filter (fun is => matchesAt p fp is.2)).getLast?

/-- The effect of one condition on the match map. -/
def condStep (p : Policy) (fp : String) (m : List (String × (Nat × List Nat)))
    (c : SelectableCondition) : List (String × (Nat × List Nat)) :=
  match lastMatch p fp c with
  | none => m
  | some is => smapInsert c.path (c.thresh, [is.1]) m

/-- The path map inside a selector (`Complete.path` /
`Partial.selected_path`). -/
def selectorPaths : PolicyPathSelector → List (String × List Nat)
  | .Complete path => path
  | .Partial selected_path _ => selected_path

/-! ## Concrete policies used as evaluation inputs

Small satisfiable-item trees with explicit node ids and key strings; the
descriptor strings contain `older`, so the policies have a (relative)
timelock and selectable conditions. -/

/-- Root `thresh(2, [b, e])` with two selectable inner 1-of-2 threshold
nodes; the root itself is not selectable (threshold = arity). -/
def pC1 : Policy :=
  { name := "", description := "", descriptor := "tr(key,thresh(older))", rootId := "r",
    rootItem := .thresh (.cons "b" (.thresh (.cons "c" (.schnorrSignature "aaa1")
        (.cons "d" (.schnorrSignature "bbb2") .nil)) 1)
      (.cons "e" (.thresh (.cons "f" (.schnorrSignature "ccc3")
        (.cons "g" (.schnorrSignature "ddd4") .nil)) 1) .nil)) 2 }

/-- Root `thresh(1, [a, b])` with a Schnorr internal key `a` and a
selectable inner 1-of-2 threshold node `b`: both the root and `b` are
selectable conditions. -/
def pC5 : Policy :=
  { name := "", description := "", descriptor := "tr(key,thresh(older))", rootId := "r",
    rootItem := .thresh (.cons "a" (.schnorrSignature "aaa1")
      (.cons "b" (.thresh (.cons "c" (.schnorrSignature "bbb2")
        (.cons "d" (.schnorrSignature "ccc3") .nil)) 1) .nil)) 1 }

/-- A decaying 2-of-4 policy: `tr(key, thresh(2, pk, pk, pk, older(2)))`. -/
def pDecay : Policy :=
  { name := "", description := "", descriptor := "tr(key,thresh(2,older(2)))", rootId := "r",
    rootItem := .thresh (.cons "a" (.schnorrSignature "k0")
      (.cons "b" (.thresh (.cons "x" (.schnorrSignature "k1")
        (.cons "y" (.schnorrSignature "k2")
        (.cons "z" (.schnorrSignature "k3")
        (.cons "t" (.relativeTimelock 2) .nil)))) 2) .nil)) 1 }

/-! ## Concrete wallets and PSBTs used as evaluation inputs -/

/-- An unconfirmed UTXO at outpoint 1. -/
def uUnconf : LocalUtxo := { outpoint := 1, confirmation_time := .Unconfirmed }

/-- A UTXO at outpoint 1 confirmed at height 100. -/
def uConf : LocalUtxo := { outpoint := 1, confirmation_time := .Confirmed 100 }

/-- An empty wallet. -/
def wEmpty : Wallet :=
  { utxos := [], checkpoint := none, built_psbt := none, sent := 0, received := 0 }

/-- One UTXO, no checkpoint. -/
def wNoCheckpoint : Wallet :=
  { utxos := [uUnconf], checkpoint := none, built_psbt := none, sent := 0, received := 0 }

/-- One UTXO, checkpoint at height 10. -/
def wOne : Wallet :=
  { utxos := [uUnconf], checkpoint := some 10, built_psbt := none, sent := 0, received := 0 }

/-- A PSBT whose transaction is locked until block 200 (an enabled
absolute lock: the input sequence is below `Sequence::MAX`). -/
def psbtAbs : Psbt :=
  { unsigned_tx :=
      { lock_time := .Blocks 200
        input := [{ previous_output := 1, sequence := 5 }] }
    fee := some 0 }

/-- A PSBT with a satisfied absolute lock and one height-locked input
requiring 10 confirmations. -/
def psbtRel : Psbt :=
  { unsigned_tx :=
      { lock_time := .Blocks 0
        input := [{ previous_output := 1, sequence := 10 }] }
    fee := some 0 }

/-- Wallet at checkpoint 105 whose builder yields `psbtAbs`. -/
def wAbs : Wallet :=
  { utxos := [uConf], checkpoint := some 105, built_psbt := some psbtAbs,
    sent := 0, received := 0 }

/-- Wallet at checkpoint 105 whose builder yields `psbtRel`. -/
def wRel : Wallet :=
  { utxos := [uConf], checkpoint := some 105, built_psbt := some psbtRel,
    sent := 0, received := 0 }

/-! ## Concrete dispatcher inputs -/

/-- The empty store. -/
def dbEmpty : DbState :=
  { events := [], deleted := [], sharedKeys := [], policies := [], proposals := [],
    approvals := [], completedProposals := [], signers := [], mySharedSigners := [],
    sharedSigners := [], pending := [], notifications := [], contacts := [],
    profiles := [], sessions := [], ncRequests := [], scheduledSync := [] }

/-- A deterministic environment: self key 1, peer shared-signer payloads
decrypting to 7, everything else failing to decrypt. -/
def envC8 : Env :=
  { selfPk := 1
    now := 0
    decryptSharedKey := fun _ => none
    decryptPolicy := fun _ _ => none
    decryptProposal := fun _ _ => none
    decryptApproved := fun _ _ => none
    decryptCompleted := fun _ _ => none
    decryptSigner := fun _ => none
    decryptSharedSigner := fun _ _ => some 7
    parseProfile := fun _ => none
    decryptNip46 := fun _ _ => none }

/-- A peer-authored shared-signer event. -/
def evSS : NEvent :=
  { id := 5, pubkey := 2, created_at := 0, kind := .sharedSigners,
    tags := [.pubKey 3], content := "payload" }

/-- An original event authored by key 9. -/
def evOrig : NEvent :=
  { id := 3, pubkey := 9, created_at := 0, kind := .policy, tags := [], content := "" }

/-- A deletion event authored by key 2 that e-tags `evOrig`. -/
def evDel : NEvent :=
  { id := 4, pubkey := 2, created_at := 0, kind := .eventDeletion,
    tags := [.event 3], content := "" }

/-- A store holding only `evOrig` in the raw-event log. -/
def sC9 : DbState := { dbEmpty with events := [(3, evOrig)] }

/-- The e-tag ids an `EventDeletion` event actually deletes: those whose
recorded original author equals the deletion's author — the per-tag test
of the deletion loop, taken against the raw-event log, which the loop
never modifies. -/
def matchedTids (ev : NEvent) (E : List (Nat × NEvent)) (tags : List NTag) : List Nat :=
  tags.filterMap (fun t => match t with
    | .event tid =>
        match nmapLookup tid E with
        | some orig => if orig.pubkey = ev.pubkey then some tid else none
        | none => none
    | _ => none)

/-! # Theorems -/

/-! ## The selectable-conditions walk agrees with its structural
characterization -/

mutual

theorem selectable_conditions_rec_eq : ∀ (item : SatisfiableItem) (id : String)
    (acc : List SelectableCondition),
    selectable_conditions_rec item id acc = acc ++ specSelectable id item
  | .thresh items t, id, acc => by
      rw [selectable_conditions_rec, specSelectable,
        selectable_conditions_recList_eq items]
      by_cases h : t < items.length <;> simp [h]
  | .ecdsaSignature _, _, acc => by simp [selectable_conditions_rec, specSelectable]
  | .schnorrSignature _, _, acc => by simp [selectable_conditions_rec, specSelectable]
  | .sha256Preimage _, _, acc => by simp [selectable_conditions_rec, specSelectable]
  | .hash256Preimage _, _, acc => by simp [selectable_conditions_rec, specSelectable]
  | .ripemd160Preimage _, _, acc => by simp [selectable_conditions_rec, specSelectable]
  | .hash160Preimage _, _, acc => by simp [selectable_conditions_rec, specSelectable]
  | .absoluteTimelock _, _, acc => by simp [selectable_conditions_rec, specSelectable]
  | .relativeTimelock _, _, acc => by simp [selectable_conditions_rec, specSelectable]
  | .multisig _ _, _, acc => by simp [selectable_conditions_rec, specSelectable]

theorem selectable_conditions_recList_eq : ∀ (l : SubPolicies)
    (acc : List SelectableCondition),
    selectable_conditions_recList l acc = acc ++ specSelectableList l
  | .nil, acc => by simp [selectable_conditions_recList, specSelectableList]
  | .cons i it rest, acc => by
      rw [selectable_conditions_recList, specSelectableList,
        selectable_conditions_rec_eq it, selectable_conditions_recList_eq rest,
        List.append_assoc]

end

/-- C2: `selectable_conditions` returns `none` iff the policy has no
timelock (`has_timelock` being the textual `after` / `older` test on the
descriptor), and when it returns `some`, the list is exactly one entry
per `Thresh` node with threshold strictly below its arity, carrying the
node's id as `path` (the root's own id for the root), its threshold, and
the children's ids as `sub_paths` — the structural collection
`specSelectable`. -/
theorem c2_selectable_conditions (p : Policy) :
    (p.selectable_conditions = none ↔ p.has_timelock = false) ∧
    (∀ l, p.selectable_conditions = some l → l = specSelectable p.rootId p.rootItem) := by
  constructor
  · unfold Policy.selectable_conditions
    by_cases h : p.has_timelock <;> simp [h]
  · intro l hl
    unfold Policy.selectable_conditions at hl
    by_cases h : p.has_timelock <;> simp [h] at hl
    rw [← hl, selectable_conditions_rec_eq]
    simp

/-- Witness for C2 at the concrete policy `pC1`. -/
theorem c2_witness :
    pC1.selectable_conditions =
      some [{ path := "b", thresh := 1, sub_paths := ["c", "d"] },
            { path := "e", thresh := 1, sub_paths := ["f", "g"] }] ∧
    [{ path := "b", thresh := 1, sub_paths := ["c", "d"] },
     { path := "e", thresh := 1, sub_paths := ["f", "g"] }] =
      specSelectable pC1.rootId pC1.rootItem :=
  ⟨by decide, (c2_selectable_conditions pC1).2 _ (by decide)⟩

/-- C7: `template_match` is total on the model: it returns `none` or one
of the four template types; no error path exists once the policy's
satisfiable item is available. -/
theorem c7_template_match_total (p : Policy) :
    p.template_match = none ∨ p.template_match = some PolicyTemplateType.Multisig ∨
    p.template_match = some PolicyTemplateType.Hold ∨
    p.template_match = some PolicyTemplateType.Recovery ∨
    p.template_match = some PolicyTemplateType.Decaying := by
  rcases h : p.template_match with _ | t
  · exact Or.inl rfl
  · rcases t <;> simp

/-! ## Template classification -/

/-- The Hold / Recovery arm never fires when the inner threshold is
strictly below the arity (it requires `threshold = 2` with exactly two
items). -/
theorem templateHoldRecovery_none_of_lt (items : SubPolicies) (t : Nat)
    (h : t < items.length) : templateHoldRecovery (.thresh items t) = none := by
  cases items with
  | nil => rfl
  | cons i1 x rest =>
    cases rest with
    | nil =>
      have ht : t = 0 := by
        simp [SubPolicies.length] at h
        omega
      subst ht; rfl
    | cons i2 y rest2 =>
      cases rest2 with
      | nil =>
        have ht : t = 0 ∨ t = 1 := by
          simp [SubPolicies.length] at h
          omega
        rcases ht with rfl | rfl <;> rfl
      | cons i3 z rest3 => rfl

/-- C6: with root `Thresh { threshold: 1, items: [a, b] }`, `a` a Schnorr
signature and `b = Thresh { threshold: t, items }` with `t < |items|`,
`t ≤ k` for `k` the number of Schnorr items and the timelock items
(absolute plus relative) numbering `|items| − k`, `template_match`
classifies the policy as `Decaying`. -/
theorem c6_decaying_template (p : Policy) (ia ib ka : String)
    (items : SubPolicies) (t : Nat)
    (hroot : p.rootItem =
      .thresh (.cons ia (.schnorrSignature ka) (.cons ib (.thresh items t) .nil)) 1)
    (hlt : t < items.length)
    (hk : t ≤ items.countP isSchnorr)
    (htl : items.countP isAbsoluteTl + items.countP isRelativeTl =
      items.length - items.countP isSchnorr) :
    p.template_match = some PolicyTemplateType.Decaying := by
  unfold Policy.template_match
  rw [hroot]
  show templateMatchSecond (.thresh items t) = some PolicyTemplateType.Decaying
  have h1 : templateMatchSecond (.thresh items t) =
      match templateHoldRecovery (.thresh items t) with
      | some r => some r
      | none => templateDecaying (.thresh items t) := rfl
  rw [h1, templateHoldRecovery_none_of_lt items t hlt]
  show templateDecaying (.thresh items t) = some PolicyTemplateType.Decaying
  unfold templateDecaying
  simp [hlt, hk, htl]

/-- Witness for C6 at the concrete decaying 2-of-4 policy `pDecay`. -/
theorem c6_witness : pDecay.template_match = some PolicyTemplateType.Decaying :=
  c6_decaying_template pDecay "a" "b" "k0"
    (.cons "x" (.schnorrSignature "k1") (.cons "y" (.schnorrSignature "k2")
      (.cons "z" (.schnorrSignature "k3") (.cons "t" (.relativeTimelock 2) .nil)))) 2
    rfl (by decide) (by decide) (by decide)

/-! ## `spend` preconditions and timelock gating -/

/-- C3: the three `spend` preconditions fail in order — empty wallet
first (`NoUtxosAvailable("wallet not contains any UTXO")`), missing
checkpoint second (`CheckpointNotAvailable`), fully frozen UTXO set third
(`NoUtxosAvailable("frozen by other proposals")`) — and each failure is
an error, so no proposal is produced. -/
theorem c3_spend_preconditions (p : Policy) (wallet : Wallet) (address : String)
    (amount : Amount) (description : String) (utxos : Option (List Nat))
    (frozen_utxos : Option (List Nat)) (timestamp : Nat) :
    (wallet.utxos = [] →
      p.spend wallet address amount description utxos frozen_utxos timestamp =
        .error (.NoUtxosAvailable "wallet not contains any UTXO")) ∧
    (wallet.utxos ≠ [] → wallet.checkpoint = none →
      p.spend wallet address amount description utxos frozen_utxos timestamp =
        .error Error.CheckpointNotAvailable) ∧
    (∀ h fz, wallet.utxos ≠ [] → wallet.checkpoint = some h → frozen_utxos = some fz →
      (∀ u ∈ wallet.utxos, u.outpoint ∈ fz) →
      p.spend wallet address amount description utxos frozen_utxos timestamp =
        .error (.NoUtxosAvailable "frozen by other proposals")) := by
  refine ⟨fun he => ?_, fun hne hcp => ?_, fun h fz hne hcp hfz hcov => ?_⟩
  · unfold Policy.spend
    simp [he]
  · unfold Policy.spend
    simp [List.isEmpty_iff, hne, hcp]
  · unfold Policy.spend
    have hfe : (wallet.utxos.filter (fun u => !(fz.contains u.outpoint))) = [] := by
      refine List.filter_eq_nil_iff.2 (fun u hu => ?_)
      simpa using hcov u hu
    simp [List.isEmpty_iff, hne, hcp, hfz, hfe]
    intro x hx hnot
    exact absurd (hcov x hx) hnot

/-- Witness for C3: the three precondition failures on concrete wallets
(empty; non-empty without checkpoint; non-empty, checkpointed, fully
frozen). -/
theorem c3_witness :
    pC1.spend wEmpty "addr" Amount.Max "" none none 0 =
      .error (.NoUtxosAvailable "wallet not contains any UTXO") ∧
    pC1.spend wNoCheckpoint "addr" Amount.Max "" none none 0 =
      .error Error.CheckpointNotAvailable ∧
    pC1.spend wOne "addr" Amount.Max "" none (some [1]) 0 =
      .error (.NoUtxosAvailable "frozen by other proposals") :=
  ⟨(c3_spend_preconditions pC1 wEmpty "addr" Amount.Max "" none none 0).1 rfl,
   (c3_spend_preconditions pC1 wNoCheckpoint "addr" Amount.Max "" none none 0).2.1
     (by decide) rfl,
   (c3_spend_preconditions pC1 wOne "addr" Amount.Max "" none (some [1]) 0).2.2 10 [1]
     (by decide) rfl rfl (by decide)⟩

/-- The relative-timelock loop reports a violation exactly when some
input has a height- or time-locked sequence whose wallet UTXO is
unconfirmed, or confirmed with strictly fewer blocks elapsed than the
sequence value. -/
theorem relativeViolation_iff (wu : List LocalUtxo) (ch : Nat) (l : List TxIn) :
    relativeViolation wu ch l = true ↔
      ∃ txin ∈ l,
        (seqIsHeightLocked txin.sequence || seqIsTimeLocked txin.sequence) = true ∧
        ∃ u, wu.find? (fun w => w.outpoint == txin.previous_output) = some u ∧
          (u.confirmation_time = ConfirmationTime.Unconfirmed ∨
            ∃ hgt, u.confirmation_time = ConfirmationTime.Confirmed hgt ∧
              ch - hgt < txin.sequence) := by
  induction l with
  | nil => simp [relativeViolation]
  | cons txin rest ih =>
    rw [relativeViolation]
    by_cases hlock : (seqIsHeightLocked txin.sequence || seqIsTimeLocked txin.sequence) = true
    · rw [if_pos hlock]
      rcases hfind : wu.find? (fun w => w.outpoint == txin.previous_output) with _ | u
      · rw [hfind]
        dsimp only
        rw [ih]
        constructor
        · rintro ⟨ti, hti, hrest⟩
          exact ⟨ti, List.mem_cons_of_mem _ hti, hrest⟩
        · rintro ⟨ti, hti, hl, u, hu, hc⟩
          rcases List.mem_cons.1 hti with rfl | hti2
          · rw [hfind] at hu; cases hu
          · exact ⟨ti, hti2, hl, u, hu, hc⟩
      · rw [hfind]
        dsimp only
        rcases hconf : u.confirmation_time with hgt | _
        · dsimp only
          by_cases hlt : ch - hgt < txin.sequence
          · rw [if_pos hlt]
            simp only [true_iff]
            exact ⟨txin, List.mem_cons_self _ _, hlock, u, hfind,
              Or.inr ⟨hgt, hconf, hlt⟩⟩
          · rw [if_neg hlt, ih]
            constructor
            · rintro ⟨ti, hti, hrest⟩
              exact ⟨ti, List.mem_cons_of_mem _ hti, hrest⟩
            · rintro ⟨ti, hti, hl, u2, hu2, hc⟩
              rcases List.mem_cons.1 hti with rfl | hti2
              · rw [hfind] at hu2
                cases hu2
                rcases hc with hc | ⟨hg2, hg2e, hg2lt⟩
                · rw [hconf] at hc; cases hc
                · rw [hconf] at hg2e
                  cases hg2e
                  exact absurd hg2lt hlt
              · exact ⟨ti, hti2, hl, u2, hu2, hc⟩
        · simp only [true_iff]
          exact ⟨txin, List.mem_cons_self _ _, hlock, u, hfind, Or.inl hconf⟩
    · rw [if_neg hlock, ih]
      constructor
      · rintro ⟨ti, hti, hrest⟩
        exact ⟨ti, List.mem_cons_of_mem _ hti, hrest⟩
      · rintro ⟨ti, hti, hl, hrest⟩
        rcases List.mem_cons.1 hti with rfl | hti2
        · exact absurd hl hlock
        · exact ⟨ti, hti2, hl, hrest⟩

/-- C4: with a timelocked policy and the earlier preconditions satisfied
(non-empty wallet, checkpoint present, not fully frozen, PSBT built),
`spend` fails with `AbsoluteTimelockNotSatisfied` when the transaction's
absolute timelock is unsatisfied at the checkpoint height and current
time, and otherwise fails with `RelativeTimelockNotSatisfied` when some
input has a height- or time-locked sequence whose wallet UTXO is
unconfirmed or has strictly fewer confirmations than the sequence value;
in both cases no proposal is produced. -/
theorem c4_spend_timelock_gating (p : Policy) (wallet : Wallet) (address : String)
    (amount : Amount) (description : String) (utxos : Option (List Nat))
    (frozen_utxos : Option (List Nat)) (timestamp current_height : Nat) (psbt : Psbt)
    (htl : p.has_timelock = true)
    (hne : wallet.utxos ≠ [])
    (hcp : wallet.checkpoint = some current_height)
    (hfz : ∀ fz, frozen_utxos = some fz → ∃ u ∈ wallet.utxos, u.outpoint ∉ fz)
    (hb : psbtBuildStep utxos wallet = .ok psbt) :
    (is_absolute_timelock_satisfied psbt.unsigned_tx current_height timestamp = false →
      p.spend wallet address amount description utxos frozen_utxos timestamp =
        .error Error.AbsoluteTimelockNotSatisfied) ∧
    (is_absolute_timelock_satisfied psbt.unsigned_tx current_height timestamp = true →
      (∃ txin ∈ psbt.unsigned_tx.input,
        (seqIsHeightLocked txin.sequence || seqIsTimeLocked txin.sequence) = true ∧
        ∃ u, wallet.utxos.find? (fun w => w.outpoint == txin.previous_output) = some u ∧
          (u.confirmation_time = ConfirmationTime.Unconfirmed ∨
            ∃ hgt, u.confirmation_time = ConfirmationTime.Confirmed hgt ∧
              current_height - hgt < txin.sequence)) →
      p.spend wallet address amount description utxos frozen_utxos timestamp =
        .error Error.RelativeTimelockNotSatisfied) := by
  revert hfz
  cases frozen_utxos with
  | none =>
    intro _
    constructor
    · intro habs
      unfold Policy.spend
      simp [List.isEmpty_iff, hne, hcp, hb, htl, habs]
    · intro habs hrel
      unfold Policy.spend
      simp [List.isEmpty_iff, hne, hcp, hb, htl, habs,
        (relativeViolation_iff wallet.utxos current_height psbt.unsigned_tx.input).2 hrel]
  | some fz =>
    intro hfz
    rcases hfz fz rfl with ⟨u, hu, hnotin⟩
    have hm : u ∈ wallet.utxos.filter (fun u => !(fz.contains u.outpoint)) := by
      refine List.mem_filter.2 ⟨hu, ?_⟩
      simpa using hnotin
    have hne0 : (wallet.utxos.filter (fun u => !(fz.contains u.outpoint))).length ≠ 0 := by
      intro h0
      rw [List.length_eq_zero.1 h0] at hm
      cases hm
    constructor
    · intro habs
      unfold Policy.spend
      simp [List.isEmpty_iff, hne, hcp, hb, htl, habs, hne0]
      exact ⟨u, hu, hnotin⟩
    · intro habs hrel
      unfold Policy.spend
      simp [List.isEmpty_iff, hne, hcp, hb, htl, habs, hne0,
        (relativeViolation_iff wallet.utxos current_height psbt.unsigned_tx.input).2 hrel]
      exact ⟨u, hu, hnotin⟩

/-- Witness for C4: the absolute failure at checkpoint 105 against a
block-200 lock, and the relative failure for a 10-block sequence on a
UTXO with 5 blocks elapsed. -/
theorem c4_witness :
    pC1.spend wAbs "addr" (Amount.Custom 5) "" none none 7 =
      .error Error.AbsoluteTimelockNotSatisfied ∧
    pC1.spend wRel "addr" (Amount.Custom 5) "" none none 7 =
      .error Error.RelativeTimelockNotSatisfied :=
  ⟨(c4_spend_timelock_gating pC1 wAbs "addr" (Amount.Custom 5) "" none none 7 105
      psbtAbs (by decide) (by decide) rfl (fun fz h => by cases h) rfl).1 (by decide),
   (c4_spend_timelock_gating pC1 wRel "addr" (Amount.Custom 5) "" none none 7 105
      psbtRel (by decide) (by decide) rfl (fun fz h => by cases h) rfl).2 (by decide)
     ⟨{ previous_output := 1, sequence := 10 }, by decide, by decide, uConf, by decide,
       Or.inr ⟨100, rfl, by decide⟩⟩⟩

/-! ## The policy-path selector -/

/-- C1 counterexample: for the policy `pC1` (two selectable conditions
`b` and `e`) and a signer matching only condition `e`, the code returns
`Partial` whose `selected_path` is exactly the found map
`{e → [1]}`-style — here `{e → [0]}` — without the internal-key entry
`{b → [0]}` the claim adds, and the claim's predicted selector (found
matches plus the internal-key entry for the first condition) differs
from the value returned. -/
theorem c1_counterexample :
    pC1.get_policy_path_from_signer { fingerprint := "ccc3" } =
      some (.Partial [("e", [0])] [("b", ["c", "d"])]) ∧
    pC1.get_policy_path_from_signer { fingerprint := "ccc3" } ≠
      some (.Partial (smapInsert "b" [0] [("e", [0])]) [("b", ["c", "d"])]) := by
  constructor
  · decide
  · decide

/-- C1 amended: when the signer matches some but not all selectable
conditions, `get_policy_path_from_signer` returns `Partial` whose
`selected_path` is exactly the found matches (the internal-key-path map
`{first.path → [0]}` is only compared against the found map, never
merged into it) and whose `missing_to_select` maps each unmatched
condition to its full `sub_paths`; except that when the internal-key-path
map equals the found map the result is `Complete` with that map. -/
theorem c1_amended (p : Policy) (signer : Signer) (sc : List SelectableCondition)
    (hsc : p.selectable_conditions = some sc)
    (hne : buildSignerMap p signer.fingerprint sc [] ≠ [])
    (hlen : sc.length ≠ (buildSignerMap p signer.fingerprint sc []).length) :
    p.get_policy_path_from_signer signer =
      (let m := buildSignerMap p signer.fingerprint sc []
       let selected_path := m.map (fun e => (e.1, e.2.2))
       let internal_key_path : List (String × List Nat) :=
         match sc.head? with
         | some c => smapInsert c.path [0] []
         | none => []
       if internal_key_path = selected_path then some (.Complete selected_path)
       else
         some (.Partial selected_path
           (smapOfList ((sc.filter (fun c => ¬ smapContainsKey c.path selected_path)).map
             (fun c => (c.path, c.sub_paths)))))) := by
  unfold Policy.get_policy_path_from_signer
  rw [hsc]
  simp only [List.isEmpty_iff, hne, hlen]
  rw [if_neg (by simp [List.isEmpty_iff, hne]), if_neg (by simp [hlen])]

/-- Witness for C1 at the concrete policy `pC1` and fingerprint `ccc3`
(matches condition `e` only, so one condition is unmatched): the amended
description evaluates to the `Partial` selector the code returns. -/
theorem c1_witness :
    pC1.get_policy_path_from_signer { fingerprint := "ccc3" } =
      some (.Partial [("e", [0])] [("b", ["c", "d"])]) := by
  have h := c1_amended pC1 { fingerprint := "ccc3" }
    [{ path := "b", thresh := 1, sub_paths := ["c", "d"] },
     { path := "e", thresh := 1, sub_paths := ["f", "g"] }]
    (by decide) (by decide) (by decide)
  rw [h]
  decide

/-! ## Sorted string-map lemmas -/

theorem charListLt_irrefl (l : List Char) : charListLt l l = false := by
  induction l with
  | nil => rfl
  | cons c r ih => simp [charListLt, ih]

theorem strLt_irrefl (k : String) : strLt k k = false := charListLt_irrefl _

theorem smapInsert_overwrite {α : Type} (k : String) (v1 v2 : α) (m : List (String × α)) :
    smapInsert k v2 (smapInsert k v1 m) = smapInsert k v2 m := by
  induction m with
  | nil => simp [smapInsert, strLt_irrefl]
  | cons e rest ih =>
    rcases e with ⟨k2, v⟩
    by_cases h1 : strLt k k2
    · simp [smapInsert, h1, strLt_irrefl]
    · by_cases h2 : k = k2
      · simp [smapInsert, h1, h2, strLt_irrefl]
      · simp [smapInsert, h1, h2, ih]

theorem smapLookup_insert_self {α : Type} (k : String) (v : α) (m : List (String × α)) :
    smapLookup k (smapInsert k v m) = some v := by
  induction m with
  | nil => simp [smapInsert, smapLookup]
  | cons e rest ih =>
    rcases e with ⟨k2, v2⟩
    by_cases h1 : strLt k k2
    · simp [smapInsert, h1, smapLookup]
    · by_cases h2 : k = k2
      · simp [smapInsert, h1, h2, smapLookup, strLt_irrefl]
      · simp [smapInsert, h1, h2, smapLookup, ih]

theorem smapLookup_insert_ne {α : Type} (k k' : String) (v : α) (m : List (String × α))
    (h : k' ≠ k) : smapLookup k' (smapInsert k v m) = smapLookup k' m := by
  induction m with
  | nil => simp [smapInsert, smapLookup, h]
  | cons e rest ih =>
    rcases e with ⟨k2, v2⟩
    by_cases h1 : strLt k k2
    · simp [smapInsert, h1, smapLookup, h]
    · by_cases h2 : k = k2
      · subst h2
        simp [smapInsert, h1, smapLookup, h]
      · simp [smapInsert, h1, h2, smapLookup, ih]

theorem mem_smapInsert {α : Type} (e : String × α) (k : String) (v : α)
    (m : List (String × α)) : e ∈ smapInsert k v m → e = (k, v) ∨ e ∈ m := by
  induction m with
  | nil =>
    intro h
    simp only [smapInsert] at h
    exact Or.inl (List.mem_singleton.1 h)
  | cons e2 rest ih =>
    rcases e2 with ⟨k2, v2⟩
    intro h
    by_cases h1 : strLt k k2
    · simp only [smapInsert, if_pos h1] at h
      rcases List.mem_cons.1 h with h | h
      · exact Or.inl h
      · exact Or.inr h
    · by_cases h2 : k = k2
      · simp only [smapInsert, if_neg h1, if_pos h2] at h
        rcases List.mem_cons.1 h with h | h
        · exact Or.inl h
        · exact Or.inr (List.mem_cons_of_mem _ h)
      · simp only [smapInsert, if_neg h1, if_neg h2] at h
        rcases List.mem_cons.1 h with h | h
        · exact Or.inr (by simp [h])
        · rcases ih h with h | h
          · exact Or.inl h
          · exact Or.inr (List.mem_cons_of_mem _ h)

theorem smapLookup_isSome_insert {α : Type} (k k' : String) (v : α)
    (m : List (String × α)) :
    (smapLookup k' (smapInsert k v m)).isSome → k' = k ∨ (smapLookup k' m).isSome := by
  intro h
  by_cases hk : k' = k
  · exact Or.inl hk
  · rw [smapLookup_insert_ne k k' v m hk] at h
    exact Or.inr h

theorem smapLookup_mem {α : Type} (k : String) (v : α) (m : List (String × α)) :
    smapLookup k m = some v → (k, v) ∈ m := by
  induction m with
  | nil => intro h; cases h
  | cons e rest ih =>
    rcases e with ⟨k2, v2⟩
    by_cases h2 : k = k2
    · subst h2
      intro h
      simp only [smapLookup, if_pos rfl] at h
      cases h
      exact List.mem_cons_self _ _
    · intro h
      simp only [smapLookup, if_neg h2] at h
      exact List.mem_cons_of_mem _ (ih h)

theorem smapLookup_isSome_iff_mem_keys {α : Type} (k : String) (m : List (String × α)) :
    (smapLookup k m).isSome ↔ k ∈ m.map (fun e => e.1) := by
  induction m with
  | nil => simp [smapLookup]
  | cons e rest ih =>
    rcases e with ⟨k2, v2⟩
    by_cases h2 : k = k2
    · subst h2
      simp [smapLookup]
    · simp [smapLookup, h2, ih]

theorem smapLookup_map_val {α β : Type} (k : String) (f : α → β) (m : List (String × α)) :
    smapLookup k (m.map (fun e => (e.1, f e.2))) = (smapLookup k m).map f := by
  induction m with
  | nil => rfl
  | cons e rest ih =>
    rcases e with ⟨k2, v⟩
    by_cases h2 : k = k2
    · subst h2
      simp [smapLookup]
    · simp [smapLookup, h2, ih]

/-! ## The signer map as a fold of per-condition last matches -/

theorem scanSubPaths_eq (p : Policy) (fp path : String) (thr : Nat)
    (l : List (Nat × String)) (m : List (String × (Nat × List Nat))) :
    scanSubPaths p fp path thr l m =
      match (l.filter (fun is => matchesAt p fp is.2)).getLast? with
      | none => m
      | some is => smapInsert path (thr, [is.1]) m := by
  induction l generalizing m with
  | nil => rfl
  | cons is rest ih =>
    rcases is with ⟨i, sp⟩
    rw [scanSubPaths]
    have hstep : (match p.satisfiable_item_by_path sp with
        | some item =>
            if strContains (jsonItem item) fp then smapInsert path (thr, [i]) m else m
        | none => m) =
        if matchesAt p fp sp then smapInsert path (thr, [i]) m else m := by
      unfold matchesAt
      rcases p.satisfiable_item_by_path sp with _ | item
      · rfl
      · rfl
    rw [hstep]
    by_cases hm : matchesAt p fp sp
    · rw [if_pos hm, ih, List.filter_cons_of_pos (by simpa using hm)]
      rcases hrest : rest.filter (fun is => matchesAt p fp is.2) with _ | ⟨b, l2⟩
      · rw [hrest]
        rfl
      · rw [hrest, List.getLast?_cons_cons]
        rcases hlast : (b :: l2).getLast? with _ | js
        · exact absurd (List.getLast?_eq_none_iff.1 hlast) (by simp)
        · dsimp only
          exact smapInsert_overwrite path _ _ m
    · rw [if_neg hm, ih, List.filter_cons_of_neg (by simpa using hm)]

theorem buildSignerMap_eq_foldl (p : Policy) (fp : String) (sc : List SelectableCondition)
    (m : List (String × (Nat × List Nat))) :
    buildSignerMap p fp sc m = sc.foldl (condStep p fp) m := by
  induction sc generalizing m with
  | nil => rfl
  | cons c cs ih =>
    rw [buildSignerMap, List.foldl_cons, ih]
    congr 1
    rw [scanSubPaths_eq]
    rfl

theorem lookup_foldl_condStep (p : Policy) (fp : String) (sc : List SelectableCondition)
    (m0 : List (String × (Nat × List Nat))) (path : String) (v : Nat × List Nat) :
    smapLookup path (sc.foldl (condStep p fp) m0) = some v →
    smapLookup path m0 = some v ∨
      ∃ c ∈ sc, c.path = path ∧ ∃ is, lastMatch p fp c = some is ∧ v = (c.thresh, [is.1]) := by
  induction sc generalizing m0 with
  | nil => intro h; exact Or.inl h
  | cons c cs ih =>
    intro h
    rw [List.foldl_cons] at h
    rcases ih _ h with h0 | ⟨c2, hc2, hp2, rest⟩
    · unfold condStep at h0
      rcases hlm : lastMatch p fp c with _ | is
      · rw [hlm] at h0
        exact Or.inl h0
      · rw [hlm] at h0
        by_cases hp : path = c.path
        · subst hp
          rw [smapLookup_insert_self] at h0
          cases h0
          exact Or.inr ⟨c, List.mem_cons_self _ _, rfl, is, hlm, rfl⟩
        · rw [smapLookup_insert_ne _ _ _ _ hp] at h0
          exact Or.inl h0
    · exact Or.inr ⟨c2, List.mem_cons_of_mem _ hc2, hp2, rest⟩

theorem mem_foldl_condStep (p : Policy) (fp : String) (sc : List SelectableCondition)
    (m0 : List (String × (Nat × List Nat))) (e : String × (Nat × List Nat)) :
    e ∈ sc.foldl (condStep p fp) m0 →
    e ∈ m0 ∨ ∃ c ∈ sc, ∃ is, lastMatch p fp c = some is ∧ e = (c.path, (c.thresh, [is.1])) := by
  induction sc generalizing m0 with
  | nil => intro h; exact Or.inl h
  | cons c cs ih =>
    intro h
    rw [List.foldl_cons] at h
    rcases ih _ h with h0 | ⟨c2, hc2, rest⟩
    · unfold condStep at h0
      rcases hlm : lastMatch p fp c with _ | is
      · rw [hlm] at h0
        exact Or.inl h0
      · rw [hlm] at h0
        rcases mem_smapInsert _ _ _ _ h0 with h | h
        · exact Or.inr ⟨c, List.mem_cons_self _ _, is, hlm, h⟩
        · exact Or.inl h
    · exact Or.inr ⟨c2, List.mem_cons_of_mem _ hc2, rest⟩

theorem lookup_isSome_foldl_condStep (p : Policy) (fp : String)
    (sc : List SelectableCondition) (m0 : List (String × (Nat × List Nat))) (k : String) :
    (smapLookup k (sc.foldl (condStep p fp) m0)).isSome →
    (smapLookup k m0).isSome ∨ k ∈ sc.map (fun c => c.path) := by
  induction sc generalizing m0 with
  | nil => intro h; exact Or.inl h
  | cons c cs ih =>
    intro h
    rw [List.foldl_cons] at h
    rcases ih _ h with h0 | h0
    · unfold condStep at h0
      rcases hlm : lastMatch p fp c with _ | is
      · rw [hlm] at h0
        exact Or.inl h0
      · rw [hlm] at h0
        rcases smapLookup_isSome_insert _ _ _ _ h0 with h | h
        · exact Or.inr (by simp [h])
        · exact Or.inl h
    · exact Or.inr (List.mem_cons_of_mem _ h0)

/-! ## Order facts for the sorted-map invariant -/

theorem charListLt_trans : ∀ (a b c : List Char),
    charListLt a b = true → charListLt b c = true → charListLt a c = true
  | [], b, c => by
    intro hab hbc
    cases b with
    | nil => cases hab
    | cons y ys =>
      cases c with
      | nil => cases hbc
      | cons z zs => rfl
  | x :: xs, b, c => by
    intro hab hbc
    cases b with
    | nil => cases hab
    | cons y ys =>
      cases c with
      | nil => cases hbc
      | cons z zs =>
        rw [charListLt] at hab hbc ⊢
        by_cases hxy : x < y
        · by_cases hyz : y < z
          · simp [lt_trans hxy hyz]
          · by_cases hzy : z < y
            · rw [if_neg hyz, if_pos hzy] at hbc
              cases hbc
            · have hyz2 : y = z := le_antisymm (not_lt.1 hzy) (not_lt.1 hyz)
              subst hyz2
              simp [hxy]
        · by_cases hyx : y < x
          · rw [if_neg hxy, if_pos hyx] at hab
            cases hab
          · have hxy2 : x = y := le_antisymm (not_lt.1 hyx) (not_lt.1 hxy)
            subst hxy2
            rw [if_neg hxy, if_neg hyx] at hab
            by_cases hxz : x < z
            · simp [hxz]
            · by_cases hzx : z < x
              · rw [if_neg hxz, if_pos hzx] at hbc
                cases hbc
              · have hxz2 : x = z := le_antisymm (not_lt.1 hzx) (not_lt.1 hxz)
                subst hxz2
                rw [if_neg hxz, if_neg hzx] at hbc
                rw [if_neg hxz, if_neg hzx]
                exact charListLt_trans xs ys zs hab hbc

theorem charListLt_flip : ∀ (a b : List Char),
    charListLt a b = false → a ≠ b → charListLt b a = true
  | [], [] => by
    intro _ hne
    exact absurd rfl hne
  | [], _ :: _ => by
    intro h _
    cases h
  | _ :: _, [] => by
    intro _ _
    rfl
  | x :: xs, y :: ys => by
    intro h hne
    rw [charListLt] at h ⊢
    by_cases hxy : x < y
    · rw [if_pos hxy] at h
      cases h
    · by_cases hyx : y < x
      · simp [hyx]
      · have hxy2 : x = y := le_antisymm (not_lt.1 hyx) (not_lt.1 hxy)
        subst hxy2
        rw [if_neg hxy, if_neg hyx] at h
        rw [if_neg hxy, if_neg hyx]
        exact charListLt_flip xs ys h (fun he => hne (by rw [he]))

theorem strLt_trans (a b c : String) :
    strLt a b = true → strLt b c = true → strLt a c = true :=
  charListLt_trans _ _ _

theorem strLt_flip (a b : String) (h : strLt a b = false) (hne : a ≠ b) :
    strLt b a = true := by
  refine charListLt_flip _ _ h (fun he => hne ?_)
  have h1 : a.data = b.data := he
  cases a
  cases b
  simp only at h1
  rw [h1]

theorem pairwise_smapInsert {α : Type} (k : String) (v : α) (m : List (String × α))
    (h : m.Pairwise (fun a b => strLt a.1 b.1 = true)) :
    (smapInsert k v m).Pairwise (fun a b => strLt a.1 b.1 = true) := by
  induction m with
  | nil => simp [smapInsert]
  | cons e rest ih =>
    rcases e with ⟨k2, v2⟩
    rcases List.pairwise_cons.1 h with ⟨hk2, hrest⟩
    by_cases h1 : strLt k k2
    · rw [smapInsert, if_pos h1]
      refine List.pairwise_cons.2 ⟨?_, h⟩
      intro e2 he2
      rcases List.mem_cons.1 he2 with rfl | he2
      · exact h1
      · exact strLt_trans _ _ _ h1 (hk2 e2 he2)
    · by_cases h2 : k = k2
      · subst h2
        rw [smapInsert, if_neg h1, if_pos rfl]
        exact List.pairwise_cons.2 ⟨hk2, hrest⟩
      · rw [smapInsert, if_neg h1, if_neg h2]
        refine List.pairwise_cons.2 ⟨?_, ih hrest⟩
        intro e2 he2
        rcases mem_smapInsert _ _ _ _ he2 with rfl | he2
        · exact strLt_flip _ _ (by simpa using h1) h2
        · exact hk2 e2 he2

theorem smap_sorted_keys_nodup {α : Type} (m : List (String × α))
    (h : m.Pairwise (fun a b => strLt a.1 b.1 = true)) :
    (m.map (fun e => e.1)).Nodup := by
  have hp : (m.map (fun e => e.1)).Pairwise (fun a b => strLt a b = true) :=
    List.Pairwise.map _ (fun a b hab => hab) h
  refine hp.imp (fun hab => ?_)
  intro he
  rw [he, strLt_irrefl] at hab
  cases hab

theorem pairwise_foldl_condStep (p : Policy) (fp : String) (sc : List SelectableCondition)
    (m0 : List (String × (Nat × List Nat)))
    (h : m0.Pairwise (fun a b => strLt a.1 b.1 = true)) :
    (sc.foldl (condStep p fp) m0).Pairwise (fun a b => strLt a.1 b.1 = true) := by
  induction sc generalizing m0 with
  | nil => exact h
  | cons c cs ih =>
    rw [List.foldl_cons]
    refine ih _ ?_
    unfold condStep
    rcases lastMatch p fp c with _ | is
    · exact h
    · exact pairwise_smapInsert _ _ _ h

theorem buildSignerMap_keys_nodup (p : Policy) (fp : String)
    (sc : List SelectableCondition) :
    ((buildSignerMap p fp sc []).map (fun e => e.1)).Nodup := by
  refine smap_sorted_keys_nodup _ ?_
  rw [buildSignerMap_eq_foldl]
  exact pairwise_foldl_condStep p fp sc [] (by simp)

/-! ## `getLast?` of an index-sorted list is the maximal index -/

theorem fst_ge_of_mem_enumFrom {α : Type} :
    ∀ (l : List α) (n : Nat) (e : Nat × α), e ∈ l.enumFrom n → n ≤ e.1
  | [], _, _ => by
    intro h
    cases h
  | x :: xs, n, e => by
    intro h
    rcases List.mem_cons.1 h with rfl | h2
    · exact le_refl n
    · exact le_trans (Nat.le_succ n) (fst_ge_of_mem_enumFrom xs (n + 1) e h2)

theorem enumFrom_fst_pairwise {α : Type} :
    ∀ (l : List α) (n : Nat), (l.enumFrom n).Pairwise (fun a b => a.1 < b.1)
  | [], _ => by simp
  | x :: xs, n => by
    refine List.pairwise_cons.2 ⟨?_, enumFrom_fst_pairwise xs (n + 1)⟩
    intro e he
    have := fst_ge_of_mem_enumFrom xs (n + 1) e he
    omega

theorem enum_fst_pairwise {α : Type} (l : List α) :
    l.enum.Pairwise (fun a b => a.1 < b.1) :=
  enumFrom_fst_pairwise l 0

theorem getLast?_fst_max : ∀ (l : List (Nat × String)),
    l.Pairwise (fun a b => a.1 < b.1) → ∀ x, l.getLast? = some x →
    ∀ y ∈ l, y.1 ≤ x.1
  | [] => by
    intro _ x hx
    cases hx
  | [a] => by
    intro _ x hx y hy
    have hax : a = x := by simpa using hx
    subst hax
    have : y = a := List.mem_singleton.1 hy
    subst this
    exact le_refl _
  | a :: b :: t => by
    intro h x hx y hy
    rw [List.getLast?_cons_cons] at hx
    rcases List.mem_cons.1 hy with rfl | hy2
    · have hxmem : x ∈ b :: t := List.mem_of_mem_getLast? hx
      exact le_of_lt ((List.pairwise_cons.1 h).1 x hxmem)
    · exact getLast?_fst_max (b :: t) (List.pairwise_cons.1 h).2 x hx y hy2

/-! ## Shape of every selector `get_policy_path_from_signer` returns -/

/-- Whatever selector the function returns, its path map (`Complete.path`
or `Partial.selected_path`) is the value projection of the built signer
map. -/
theorem result_selected_path (p : Policy) (signer : Signer) (sc : List SelectableCondition)
    (pps : PolicyPathSelector) (hsc : p.selectable_conditions = some sc)
    (hres : p.get_policy_path_from_signer signer = some pps) :
    selectorPaths pps =
      (buildSignerMap p signer.fingerprint sc []).map (fun e => (e.1, e.2.2)) := by
  unfold Policy.get_policy_path_from_signer at hres
  rw [hsc] at hres
  dsimp only at hres
  by_cases hme : (buildSignerMap p signer.fingerprint sc []).isEmpty
  · rw [if_pos hme] at hres
    cases hres
  · rw [if_neg hme] at hres
    by_cases hlen : sc.length = (buildSignerMap p signer.fingerprint sc []).length
    · rw [if_pos hlen] at hres
      by_cases hnm : ((buildSignerMap p signer.fingerprint sc []).filter
          (fun e => ¬ (e.2.1 = e.2.2.length))).isEmpty
      · rw [if_pos (by simpa using hnm)] at hres
        cases hres
        rfl
      · rw [if_neg (by simpa using hnm)] at hres
        cases hres
        rfl
    · rw [if_neg hlen] at hres
      by_cases hint : (match sc.head? with
          | some c => smapInsert c.path [0] []
          | none => ([] : List (String × List Nat))) =
          (buildSignerMap p signer.fingerprint sc []).map (fun e => (e.1, e.2.2))
      · rw [if_pos hint] at hres
        cases hres
        rfl
      · rw [if_neg hint] at hres
        cases hres
        rfl

/-- C10: (1) with pairwise-distinct condition paths, the entry the match
map holds for a condition is `(thresh, [i])` where `i` is the condition's
last matching sub-path (each later match overwrote the earlier one);
(2) a last match is a matching enumerated sub-path of maximal index;
(3) every index list in the path map of any selector the function
returns — `selected_path` of a `Partial` or the path map of a
`Complete`, the synthetic internal-key case included — is a one-element
list. -/
theorem c10_single_index_last_match (p : Policy) (signer : Signer)
    (sc : List SelectableCondition) (pps : PolicyPathSelector) :
    ((sc.map (fun c => c.path)).Nodup →
      ∀ c ∈ sc, ∀ v, smapLookup c.path (buildSignerMap p signer.fingerprint sc []) = some v →
        ∃ i sp2, lastMatch p signer.fingerprint c = some (i, sp2) ∧ v = (c.thresh, [i])) ∧
    (∀ (c : SelectableCondition) (i : Nat) (sp2 : String),
      lastMatch p signer.fingerprint c = some (i, sp2) →
      (i, sp2) ∈ c.sub_paths.enum ∧ matchesAt p signer.fingerprint sp2 = true ∧
        ∀ j sp3, (j, sp3) ∈ c.sub_paths.enum → matchesAt p signer.fingerprint sp3 = true →
          j ≤ i) ∧
    (p.selectable_conditions = some sc →
      p.get_policy_path_from_signer signer = some pps →
      ∀ e ∈ selectorPaths pps, ∃ i, e.2 = [i]) := by
  refine ⟨?_, ?_, ?_⟩
  · intro hnd c hc v hv
    rw [buildSignerMap_eq_foldl] at hv
    rcases lookup_foldl_condStep p signer.fingerprint sc [] c.path v hv with h0 | h0
    · cases h0
    · rcases h0 with ⟨c2, hc2, hp2, is, hlm, hveq⟩
      have hcc : c2 = c := List.inj_on_of_nodup_map hnd hc2 hc hp2
      subst hcc
      exact ⟨is.1, is.2, by simpa using hlm, hveq⟩
  · intro c i sp2 hlm
    unfold lastMatch at hlm
    have hmem : (i, sp2) ∈ c.sub_paths.enum.filter
        (fun is => matchesAt p signer.fingerprint is.2) :=
      List.mem_of_mem_getLast? hlm
    rcases List.mem_filter.1 hmem with ⟨hmem2, hmat⟩
    refine ⟨hmem2, by simpa using hmat, ?_⟩
    intro j sp3 hj hmat3
    have hpw : (c.sub_paths.enum.filter
        (fun is => matchesAt p signer.fingerprint is.2)).Pairwise
        (fun a b => a.1 < b.1) :=
      (enum_fst_pairwise c.sub_paths).sublist (List.filter_sublist _)
    have hjmem : (j, sp3) ∈ c.sub_paths.enum.filter
        (fun is => matchesAt p signer.fingerprint is.2) :=
      List.mem_filter.2 ⟨hj, by simpa using hmat3⟩
    exact getLast?_fst_max _ hpw (i, sp2) hlm (j, sp3) hjmem
  · intro hsc hres e he
    rw [result_selected_path p signer sc pps hsc hres] at he
    rcases List.mem_map.1 he with ⟨e2, he2, hee⟩
    rw [buildSignerMap_eq_foldl] at he2
    rcases mem_foldl_condStep p signer.fingerprint sc [] e2 he2 with h0 | h0
    · cases h0
    · rcases h0 with ⟨c, _, is, _, he3⟩
      subst he3
      rw [← hee]
      exact ⟨is.1, rfl⟩

/-- Witness for C10 at the concrete policy `pC1` and fingerprint `ccc3`:
the recorded entry for condition `e` is its last matching index, and the
value lists of the returned `Partial.selected_path` are one-element. -/
theorem c10_witness :
    (∃ i sp2,
      lastMatch pC1 "ccc3" { path := "e", thresh := 1, sub_paths := ["f", "g"] } =
        some (i, sp2) ∧ ((1 : Nat), [0]) = (1, [i])) ∧
    (∃ i, (("e", [0]) : String × List Nat).2 = [i]) :=
  ⟨(c10_single_index_last_match pC1 { fingerprint := "ccc3" }
      [{ path := "b", thresh := 1, sub_paths := ["c", "d"] },
       { path := "e", thresh := 1, sub_paths := ["f", "g"] }]
      (.Partial [("e", [0])] [("b", ["c", "d"])])).1 (by decide)
      { path := "e", thresh := 1, sub_paths := ["f", "g"] } (by decide) (1, [0])
      (by decide),
   (c10_single_index_last_match pC1 { fingerprint := "ccc3" }
      [{ path := "b", thresh := 1, sub_paths := ["c", "d"] },
       { path := "e", thresh := 1, sub_paths := ["f", "g"] }]
      (.Partial [("e", [0])] [("b", ["c", "d"])])).2.2 (by decide) (by decide)
      ("e", [0]) (by decide)⟩

/-! ## Completeness of `Complete` selectors -/

/-- C5 counterexample: for `pC5` (selectable conditions `r` and `b`) and
a signer matching only the internal key, the internal-key case returns
`Complete {r → [0]}`, which does not resolve the selectable condition
`b`. -/
theorem c5_counterexample :
    pC5.selectable_conditions =
      some [{ path := "r", thresh := 1, sub_paths := ["a", "b"] },
            { path := "b", thresh := 1, sub_paths := ["c", "d"] }] ∧
    pC5.get_policy_path_from_signer { fingerprint := "aaa1" } =
      some (.Complete [("r", [0])]) ∧
    smapLookup "b" [(("r" : String), ([0] : List Nat))] = none := by
  exact ⟨by decide, by decide, by decide⟩

/-- C5 amended: every `Complete` selector returned by
`get_policy_path_from_signer` either resolves every selectable condition
with an index set of exactly `threshold` entries, or is the synthetic
internal-key selector, whose path map is exactly
`{first-condition.path → [0]}` and need not cover the other
conditions. -/
theorem c5_complete_resolves (p : Policy) (signer : Signer)
    (sc : List SelectableCondition) (pm : List (String × List Nat))
    (hsc : p.selectable_conditions = some sc)
    (hres : p.get_policy_path_from_signer signer = some (.Complete pm)) :
    (∀ c ∈ sc, ∃ sp, smapLookup c.path pm = some sp ∧ sp.length = c.thresh) ∨
    (∃ c0, sc.head? = some c0 ∧ pm = [(c0.path, [0])]) := by
  unfold Policy.get_policy_path_from_signer at hres
  rw [hsc] at hres
  dsimp only at hres
  by_cases hme : (buildSignerMap p signer.fingerprint sc []).isEmpty
  · rw [if_pos hme] at hres
    cases hres
  · rw [if_neg hme] at hres
    by_cases hlen : sc.length = (buildSignerMap p signer.fingerprint sc []).length
    · rw [if_pos hlen] at hres
      by_cases hnm : ((buildSignerMap p signer.fingerprint sc []).filter
          (fun e => ¬ (e.2.1 = e.2.2.length))).isEmpty
      · rw [if_pos (by simpa using hnm)] at hres
        cases hres
        left
        have hnodupk : ((buildSignerMap p signer.fingerprint sc []).map
            (fun e => e.1)).Nodup := buildSignerMap_keys_nodup p signer.fingerprint sc
        have hsub : ∀ k ∈ (buildSignerMap p signer.fingerprint sc []).map (fun e => e.1),
            k ∈ sc.map (fun c => c.path) := by
          intro k hk
          have hk2 : (smapLookup k (buildSignerMap p signer.fingerprint sc [])).isSome :=
            (smapLookup_isSome_iff_mem_keys k _).2 hk
          rw [buildSignerMap_eq_foldl] at hk2
          rcases lookup_isSome_foldl_condStep p signer.fingerprint sc [] k hk2 with h | h
          · simp [smapLookup] at h
          · exact h
        have hlenk : ((buildSignerMap p signer.fingerprint sc []).map
            (fun e => e.1)).length = (sc.map (fun c => c.path)).length := by
          simp [← hlen]
        have hfin : ((buildSignerMap p signer.fingerprint sc []).map
            (fun e => e.1)).toFinset = (sc.map (fun c => c.path)).toFinset := by
          apply Finset.eq_of_subset_of_card_le
          · intro k hk
            exact List.mem_toFinset.2 (hsub k (List.mem_toFinset.1 hk))
          · have h1 := List.toFinset_card_of_nodup hnodupk
            have h2 := (sc.map (fun c => c.path)).toFinset_card_le
            omega
        have hpathnd : (sc.map (fun c => c.path)).Nodup := by
          have h1 : (sc.map (fun c => c.path)).toFinset.card =
              (sc.map (fun c => c.path)).length := by
            rw [← hfin, List.toFinset_card_of_nodup hnodupk]
            omega
          rw [List.card_toFinset] at h1
          have h2 : (sc.map (fun c => c.path)).dedup = sc.map (fun c => c.path) :=
            (sc.map (fun c => c.path)).dedup_sublist.eq_of_length h1
          rw [← List.dedup_eq_self]
          exact h2
        intro c hc
        have hkmem : c.path ∈ (buildSignerMap p signer.fingerprint sc []).map
            (fun e => e.1) := by
          have h3 : c.path ∈ (sc.map (fun c => c.path)).toFinset :=
            List.mem_toFinset.2 (List.mem_map_of_mem _ hc)
          rw [← hfin] at h3
          exact List.mem_toFinset.1 h3
        have hsome : (smapLookup c.path (buildSignerMap p signer.fingerprint sc [])).isSome :=
          (smapLookup_isSome_iff_mem_keys _ _).2 hkmem
        rcases hlook : smapLookup c.path (buildSignerMap p signer.fingerprint sc [])
          with _ | v
        · rw [hlook] at hsome
          cases hsome
        · have hvm : (c.path, v) ∈ buildSignerMap p signer.fingerprint sc [] :=
            smapLookup_mem _ _ _ hlook
          have hnm2 : v.1 = v.2.length := by
            by_contra hcon
            have h4 : (c.path, v) ∈ (buildSignerMap p signer.fingerprint sc []).filter
                (fun e => ¬ (e.2.1 = e.2.2.length)) :=
              List.mem_filter.2 ⟨hvm, by simpa using hcon⟩
            rw [List.isEmpty_iff.1 hnm] at h4
            cases h4
          have hlook2 := hlook
          rw [buildSignerMap_eq_foldl] at hlook2
          rcases lookup_foldl_condStep p signer.fingerprint sc [] c.path v hlook2
            with h0 | ⟨c2, hc2, hp2, is, hlm, hveq⟩
          · cases h0
          · have hcc : c2 = c := List.inj_on_of_nodup_map hpathnd hc2 hc hp2
            rw [hcc] at hveq
            refine ⟨v.2, ?_, ?_⟩
            · have h5 := smapLookup_map_val c.path (fun t => t.2)
                (buildSignerMap p signer.fingerprint sc [])
              rw [h5, hlook]
              rfl
            · rw [← hnm2, hveq]
      · rw [if_neg (by simpa using hnm)] at hres
        cases hres
    · rw [if_neg hlen] at hres
      by_cases hint : (match sc.head? with
          | some c => smapInsert c.path [0] []
          | none => ([] : List (String × List Nat))) =
          (buildSignerMap p signer.fingerprint sc []).map (fun e => (e.1, e.2.2))
      · rw [if_pos hint] at hres
        right
        rcases hhead : sc.head? with _ | c0
        · have hsc0 : sc = [] := by
            cases sc with
            | nil => rfl
            | cons a t => cases hhead
          subst hsc0
          simp [buildSignerMap] at hme
        · refine ⟨c0, rfl, ?_⟩
          cases hres
          rw [← hint, hhead]
          rfl
      · rw [if_neg hint] at hres
        cases hres

/-- Witness for C5: the amended conclusion at the policy `pC5` and the
internal-key signer. -/
theorem c5_witness :
    (∀ c ∈ ([{ path := "r", thresh := 1, sub_paths := ["a", "b"] },
             { path := "b", thresh := 1, sub_paths := ["c", "d"] }] :
        List SelectableCondition),
      ∃ sp, smapLookup c.path [("r", [0])] = some sp ∧
        sp.length = c.thresh) ∨
    (∃ c0, ([{ path := "r", thresh := 1, sub_paths := ["a", "b"] },
             { path := "b", thresh := 1, sub_paths := ["c", "d"] }] :
        List SelectableCondition).head? = some c0 ∧
      [(("r" : String), ([0] : List Nat))] = [(c0.path, [0])]) :=
  c5_complete_resolves pC5 { fingerprint := "aaa1" }
    [{ path := "r", thresh := 1, sub_paths := ["a", "b"] },
     { path := "b", thresh := 1, sub_paths := ["c", "d"] }]
    [("r", [0])] (by decide) (by decide)

/-! ## Nat-map and Nat-set lemmas for the dispatcher -/

theorem nmapInsert_overwrite {α : Type} (k : Nat) (v1 v2 : α) (m : List (Nat × α)) :
    nmapInsert k v2 (nmapInsert k v1 m) = nmapInsert k v2 m := by
  induction m with
  | nil => simp [nmapInsert]
  | cons e rest ih =>
    rcases e with ⟨k2, v⟩
    by_cases h1 : k < k2
    · simp [nmapInsert, h1, lt_irrefl]
    · by_cases h2 : k = k2
      · simp [nmapInsert, h1, h2, lt_irrefl]
      · simp [nmapInsert, h1, h2, ih]

theorem nmapLookup_insert_self {α : Type} (k : Nat) (v : α) (m : List (Nat × α)) :
    nmapLookup k (nmapInsert k v m) = some v := by
  induction m with
  | nil => simp [nmapInsert, nmapLookup]
  | cons e rest ih =>
    rcases e with ⟨k2, v2⟩
    by_cases h1 : k < k2
    · simp [nmapInsert, h1, nmapLookup]
    · by_cases h2 : k = k2
      · simp [nmapInsert, h1, h2, nmapLookup, lt_irrefl]
      · simp [nmapInsert, h1, h2, nmapLookup, ih]

theorem nmapLookup_insert_ne {α : Type} (k k' : Nat) (v : α) (m : List (Nat × α))
    (h : k' ≠ k) : nmapLookup k' (nmapInsert k v m) = nmapLookup k' m := by
  induction m with
  | nil => simp [nmapInsert, nmapLookup, h]
  | cons e rest ih =>
    rcases e with ⟨k2, v2⟩
    by_cases h1 : k < k2
    · simp [nmapInsert, h1, nmapLookup, h]
    · by_cases h2 : k = k2
      · subst h2
        simp [nmapInsert, h1, nmapLookup, h]
      · simp [nmapInsert, h1, h2, nmapLookup, ih]

theorem nmapErase_idem {α : Type} (k : Nat) (m : List (Nat × α)) :
    nmapErase k (nmapErase k m) = nmapErase k m := by
  unfold nmapErase
  rw [List.filter_filter]
  refine List.filter_congr (fun e _ => ?_)
  rw [Bool.and_self]

theorem nsetInsert_idem (k : Nat) (l : List Nat) :
    nsetInsert k (nsetInsert k l) = nsetInsert k l := by
  induction l with
  | nil => simp [nsetInsert]
  | cons k2 rest ih =>
    by_cases h1 : k < k2
    · simp [nsetInsert, h1, lt_irrefl]
    · by_cases h2 : k = k2
      · simp [nsetInsert, h1, h2, lt_irrefl]
      · simp [nsetInsert, h1, h2, ih]

theorem mem_nsetInsert (a k : Nat) (l : List Nat) :
    a ∈ nsetInsert k l → a = k ∨ a ∈ l := by
  induction l with
  | nil =>
    intro h
    simp only [nsetInsert] at h
    exact Or.inl (List.mem_singleton.1 h)
  | cons k2 rest ih =>
    intro h
    by_cases h1 : k < k2
    · simp only [nsetInsert, if_pos h1] at h
      rcases List.mem_cons.1 h with rfl | h
      · exact Or.inl rfl
      · exact Or.inr h
    · by_cases h2 : k = k2
      · simp only [nsetInsert, if_neg h1, if_pos h2] at h
        exact Or.inr h
      · simp only [nsetInsert, if_neg h1, if_neg h2] at h
        rcases List.mem_cons.1 h with rfl | h
        · exact Or.inr (List.mem_cons_self _ _)
        · rcases ih h with h | h
          · exact Or.inl h
          · exact Or.inr (List.mem_cons_of_mem _ h)

theorem pushPending_idem (l : List NEvent) (ev : NEvent) :
    pushPending (pushPending l ev) ev = pushPending l ev := by
  unfold pushPending
  by_cases h : l.any (fun e => e.id == ev.id)
  · rw [if_pos h, if_pos h]
  · rw [if_neg h]
    have h2 : (l ++ [ev]).any (fun e => e.id == ev.id) = true := by
      rw [List.any_append]
      simp
    rw [if_pos h2]

theorem nsetInsert_shape (t : Nat) (l : List Nat) :
    ∃ pre suf, nsetInsert t l = pre ++ t :: suf ∧ ∀ x ∈ pre, x < t := by
  induction l with
  | nil => exact ⟨[], [], rfl, by simp⟩
  | cons k rest ih =>
    by_cases h1 : t < k
    · exact ⟨[], k :: rest, by simp [nsetInsert, h1], by simp⟩
    · by_cases h2 : t = k
      · subst h2
        exact ⟨[], rest, by simp [nsetInsert, h1], by simp⟩
      · rcases ih with ⟨pre, suf, heq, hpre⟩
        refine ⟨k :: pre, suf, by simp [nsetInsert, h1, h2, heq], ?_⟩
        intro x hx
        rcases List.mem_cons.1 hx with rfl | hx
        · omega
        · exact hpre x hx

theorem nsetInsert_shape_preserved (t t' : Nat) :
    ∀ (pre suf : List Nat), (∀ x ∈ pre, x < t) →
    ∃ pre2 suf2, nsetInsert t' (pre ++ t :: suf) = pre2 ++ t :: suf2 ∧ ∀ x ∈ pre2, x < t
  | [], suf => by
    intro _
    by_cases h1 : t' < t
    · exact ⟨[t'], suf, by simp [nsetInsert, h1], by simpa using h1⟩
    · by_cases h2 : t' = t
      · exact ⟨[], suf, by simp [nsetInsert, h1, h2], by simp⟩
      · exact ⟨[], nsetInsert t' suf, by simp [nsetInsert, h1, h2], by simp⟩
  | k :: pre, suf => by
    intro hpre
    have hk : k < t := hpre k (List.mem_cons_self _ _)
    by_cases h1 : t' < k
    · refine ⟨t' :: k :: pre, suf, by simp [nsetInsert, h1], ?_⟩
      intro x hx
      rcases List.mem_cons.1 hx with rfl | hx
      · omega
      · exact hpre x hx
    · by_cases h2 : t' = k
      · exact ⟨k :: pre, suf, by simp [nsetInsert, h1, h2], hpre⟩
      · rcases nsetInsert_shape_preserved t t' pre suf
          (fun x hx => hpre x (List.mem_cons_of_mem _ hx)) with ⟨pre2, suf2, heq, hpre2⟩
        refine ⟨k :: pre2, suf2, by simp [nsetInsert, h1, h2, heq], ?_⟩
        intro x hx
        rcases List.mem_cons.1 hx with rfl | hx
        · exact hk
        · exact hpre2 x hx

theorem nsetInsert_of_shape (t : Nat) :
    ∀ (pre suf : List Nat), (∀ x ∈ pre, x < t) →
    nsetInsert t (pre ++ t :: suf) = pre ++ t :: suf
  | [], suf => by
    intro _
    simp [nsetInsert, lt_irrefl]
  | k :: pre, suf => by
    intro hpre
    have hk : k < t := hpre k (List.mem_cons_self _ _)
    have h1 : ¬ t < k := by omega
    have h2 : ¬ t = k := by omega
    simp only [List.cons_append, nsetInsert, if_neg h1, if_neg h2]
    congr 1
    exact nsetInsert_of_shape t pre suf (fun x hx => hpre x (List.mem_cons_of_mem _ hx))

theorem foldl_nsetInsert_shape (t : Nat) (M : List Nat) :
    ∀ (l : List Nat), (∃ pre suf, l = pre ++ t :: suf ∧ ∀ x ∈ pre, x < t) →
    ∃ pre suf, M.foldl (fun d x => nsetInsert x d) l = pre ++ t :: suf ∧ ∀ x ∈ pre, x < t := by
  induction M with
  | nil => intro l h; simpa using h
  | cons x M ih =>
    intro l h
    rcases h with ⟨pre, suf, rfl, hpre⟩
    exact ih _ (nsetInsert_shape_preserved t x pre suf hpre)

theorem foldl_nsetInsert_inv (M : List Nat) :
    ∀ (d : List Nat) (t : Nat), t ∈ M →
    ∃ pre suf, M.foldl (fun d x => nsetInsert x d) d = pre ++ t :: suf ∧ ∀ x ∈ pre, x < t := by
  induction M with
  | nil => intro d t h; cases h
  | cons x M ih =>
    intro d t h
    rcases List.mem_cons.1 h with rfl | h
    · exact foldl_nsetInsert_shape t M _ (nsetInsert_shape t d)
    · exact ih _ t h

theorem foldl_nsetInsert_idem (M d : List Nat) :
    M.foldl (fun d x => nsetInsert x d) (M.foldl (fun d x => nsetInsert x d) d) =
      M.foldl (fun d x => nsetInsert x d) d := by
  have haux : ∀ (N : List Nat) (l : List Nat),
      (∀ t ∈ N, ∃ pre suf, l = pre ++ t :: suf ∧ ∀ x ∈ pre, x < t) →
      N.foldl (fun d x => nsetInsert x d) l = l := by
    intro N
    induction N with
    | nil => intro l _; rfl
    | cons x N ih =>
      intro l h
      rcases h x (List.mem_cons_self _ _) with ⟨pre, suf, rfl, hpre⟩
      rw [List.foldl_cons, nsetInsert_of_shape x pre suf hpre]
      exact ih _ (fun t ht => h t (List.mem_cons_of_mem _ ht))
  exact haux M _ (fun t ht => foldl_nsetInsert_inv M d t ht)

/-! ## The deletion loop as a fold of `deleteGenericEventId` over the
matched tag ids -/

theorem saveEvent_idem (ev : NEvent) (s : DbState) :
    saveEvent ev (saveEvent ev s) = saveEvent ev s := by
  show ({ s with events := nmapInsert ev.id ev (nmapInsert ev.id ev s.events) } : DbState) =
    { s with events := nmapInsert ev.id ev s.events }
  rw [nmapInsert_overwrite]

theorem dG_events (s : DbState) (id : Nat) :
    (deleteGenericEventId s id).events = s.events := rfl

theorem foldl_dG_events (M : List Nat) :
    ∀ (st : DbState),
    (M.foldl (fun s tid => deleteGenericEventId s tid) st).events = st.events := by
  induction M with
  | nil => intro st; rfl
  | cons t M ih =>
    intro st
    rw [List.foldl_cons, ih, dG_events]

theorem del_fold_eq (ev : NEvent) (tags : List NTag) :
    ∀ (st : DbState),
    tags.foldl (deletionStep ev) st =
      (matchedTids ev st.events tags).foldl (fun s tid => deleteGenericEventId s tid) st := by
  induction tags with
  | nil => intro st; rfl
  | cons t tags ih =>
    intro st
    rw [List.foldl_cons]
    match t with
    | .event tid =>
        rcases hl : nmapLookup tid st.events with _ | orig
        · have hstep : deletionStep ev st (NTag.event tid) = st := by
            simp [deletionStep, hl]
          rw [hstep, ih st]
          have hm : matchedTids ev st.events (NTag.event tid :: tags) =
              matchedTids ev st.events tags := by
            simp [matchedTids, hl]
          rw [hm]
        · by_cases hpk : orig.pubkey = ev.pubkey
          · have hstep : deletionStep ev st (NTag.event tid) = deleteGenericEventId st tid := by
              simp [deletionStep, hl, hpk]
            rw [hstep, ih]
            have hm : matchedTids ev st.events (NTag.event tid :: tags) =
                tid :: matchedTids ev st.events tags := by
              simp [matchedTids, hl, hpk]
            rw [dG_events, hm, List.foldl_cons]
          · have hstep : deletionStep ev st (NTag.event tid) = st := by
              simp [deletionStep, hl, hpk]
            rw [hstep, ih st]
            have hm : matchedTids ev st.events (NTag.event tid :: tags) =
                matchedTids ev st.events tags := by
              simp [matchedTids, hl, hpk]
            rw [hm]
    | .pubKey pk =>
        rw [show deletionStep ev st (NTag.pubKey pk) = st from rfl, ih st]
        rfl
    | .contactEntry pk =>
        rw [show deletionStep ev st (NTag.contactEntry pk) = st from rfl, ih st]
        rfl
    | .other =>
        rw [show deletionStep ev st NTag.other = st from rfl, ih st]
        rfl

theorem foldl_dG_fields (M : List Nat) :
    ∀ (st : DbState),
    M.foldl (fun s tid => deleteGenericEventId s tid) st =
      { st with
        deleted := M.foldl (fun d t => nsetInsert t d) st.deleted
        sharedKeys := M.foldl (fun m t => nmapErase t m) st.sharedKeys
        policies := M.foldl (fun m t => nmapErase t m) st.policies
        proposals := M.foldl (fun m t => nmapErase t m) st.proposals
        approvals := M.foldl (fun m t => nmapErase t m) st.approvals
        completedProposals := M.foldl (fun m t => nmapErase t m) st.completedProposals
        signers := M.foldl (fun m t => nmapErase t m) st.signers
        mySharedSigners := M.foldl (fun m t => nmapErase t m) st.mySharedSigners
        sharedSigners := M.foldl (fun m t => nmapErase t m) st.sharedSigners
        notifications := M.foldl (fun m t => nmapErase t m) st.notifications } := by
  induction M with
  | nil => intro st; rfl
  | cons t M ih =>
    intro st
    rw [List.foldl_cons, ih]
    rfl

theorem foldl_nmapErase_eq_filter {α : Type} (M : List Nat) :
    ∀ (m : List (Nat × α)),
    M.foldl (fun m t => nmapErase t m) m = m.filter (fun e => !(M.contains e.1)) := by
  induction M with
  | nil =>
    intro m
    simp
  | cons t M ih =>
    intro m
    rw [List.foldl_cons, ih, nmapErase, List.filter_filter]
    refine List.filter_congr (fun a _ => ?_)
    cases h1 : a.1 == t <;> cases h2 : M.contains a.1 <;>
      simp [List.contains_cons, h1, h2, bne] <;> simp_all

theorem foldl_nmapErase_idem {α : Type} (M : List Nat) (m : List (Nat × α)) :
    M.foldl (fun m t => nmapErase t m) (M.foldl (fun m t => nmapErase t m) m) =
      M.foldl (fun m t => nmapErase t m) m := by
  rw [foldl_nmapErase_eq_filter, foldl_nmapErase_eq_filter, List.filter_filter]
  exact List.filter_congr (fun a _ => by rw [Bool.and_self])

theorem foldl_dG_idem (M : List Nat) (st : DbState) :
    M.foldl (fun s tid => deleteGenericEventId s tid)
        (M.foldl (fun s tid => deleteGenericEventId s tid) st) =
      M.foldl (fun s tid => deleteGenericEventId s tid) st := by
  rw [foldl_dG_fields, foldl_dG_fields]
  dsimp only
  rw [foldl_nsetInsert_idem, foldl_nmapErase_idem, foldl_nmapErase_idem, foldl_nmapErase_idem,
    foldl_nmapErase_idem, foldl_nmapErase_idem, foldl_nmapErase_idem, foldl_nmapErase_idem,
    foldl_nmapErase_idem, foldl_nmapErase_idem]

theorem mem_foldl_nsetInsert (M : List Nat) :
    ∀ (d : List Nat) (x : Nat),
    x ∈ M.foldl (fun d t => nsetInsert t d) d → x ∈ d ∨ x ∈ M := by
  induction M with
  | nil => intro d x h; exact Or.inl h
  | cons t M ih =>
    intro d x h
    rw [List.foldl_cons] at h
    rcases ih _ x h with h2 | h2
    · rcases mem_nsetInsert x t d h2 with rfl | h3
      · exact Or.inr (List.mem_cons_self _ _)
      · exact Or.inl h3
    · exact Or.inr (List.mem_cons_of_mem _ h2)

theorem mem_matchedTids (ev : NEvent) (E : List (Nat × NEvent)) (tags : List NTag)
    (tid : Nat) (h : tid ∈ matchedTids ev E tags) :
    (NTag.event tid) ∈ tags ∧
      ∃ orig, nmapLookup tid E = some orig ∧ orig.pubkey = ev.pubkey := by
  rcases List.mem_filterMap.1 h with ⟨t, ht, hf⟩
  match t with
  | .event tid2 =>
      dsimp only at hf
      rcases hl : nmapLookup tid2 E with _ | orig
      · rw [hl] at hf
        simp at hf
      · rw [hl] at hf
        dsimp only at hf
        by_cases hpk : orig.pubkey = ev.pubkey
        · rw [if_pos hpk] at hf
          cases hf
          exact ⟨ht, orig, hl, hpk⟩
        · rw [if_neg hpk] at hf
          cases hf
  | .pubKey pk => dsimp only at hf; cases hf
  | .contactEntry pk => dsimp only at hf; cases hf
  | .other => dsimp only at hf; cases hf

theorem matchedTids_nil (ev : NEvent) (E : List (Nat × NEvent)) (tags : List NTag)
    (h : ∀ tid, (NTag.event tid) ∈ tags → ∀ orig, nmapLookup tid E = some orig →
      orig.pubkey ≠ ev.pubkey) :
    matchedTids ev E tags = [] := by
  rw [matchedTids, List.filterMap_eq_nil_iff]
  intro t ht
  match t with
  | .event tid =>
      rcases hl : nmapLookup tid E with _ | orig
      · simp [hl]
      · have := h tid ht orig hl
        simp [hl, this]
  | .pubKey pk => rfl
  | .contactEntry pk => rfl
  | .other => rfl

/-! ## C9: deletion authorship -/

/-- **C9.** An `EventDeletion` event deletes only e-tagged events whose
recorded author equals the deletion's author: when no e-tagged original
has the deletion's author the handler changes nothing beyond the
raw-event log (the store is `saveEvent ev s`, nothing deleted, no
notification), and every id marked deleted by the handler either was
already marked or is an e-tag whose recorded original author equals the
deletion event's author. -/
theorem c9_deletion_authorship (env : Env) (s : DbState) (ev : NEvent)
    (hk : ev.kind = NKind.eventDeletion)
    (hdel : s.deleted.contains ev.id = false) :
    ((∀ tid, (NTag.event tid) ∈ ev.tags →
        ∀ orig, nmapLookup tid (nmapInsert ev.id ev s.events) = some orig →
          orig.pubkey ≠ ev.pubkey) →
      handle_event env s ev = (saveEvent ev s, none)) ∧
    (∀ tid, tid ∈ (handle_event env s ev).1.deleted →
      tid ∈ s.deleted ∨
        ((NTag.event tid) ∈ ev.tags ∧
          ∃ orig, nmapLookup tid (nmapInsert ev.id ev s.events) = some orig ∧
            orig.pubkey = ev.pubkey)) := by
  have hdel2 : ev.id ∉ s.deleted := by simpa using hdel
  have h1 : handle_event env s ev = (ev.tags.foldl (deletionStep ev) (saveEvent ev s), none) := by
    simp [handle_event, hdel2, hk]
  constructor
  · intro hmis
    rw [h1, del_fold_eq]
    have hM : matchedTids ev (saveEvent ev s).events ev.tags = [] :=
      matchedTids_nil ev _ ev.tags (fun tid ht orig hlook => hmis tid ht orig hlook)
    rw [hM]
    rfl
  · intro tid htid
    rw [h1, del_fold_eq, foldl_dG_fields] at htid
    dsimp only at htid
    rcases mem_foldl_nsetInsert _ _ _ htid with h2 | h2
    · exact Or.inl h2
    · rcases mem_matchedTids ev _ ev.tags tid h2 with ⟨ht, orig, hl, hpk⟩
      exact Or.inr ⟨ht, orig, hl, hpk⟩

/-- C9 at a concrete input: a deletion authored by key 2 e-tagging an
original authored by key 9 only appends to the raw-event log. -/
theorem c9_witness :
    evDel.kind = NKind.eventDeletion ∧ sC9.deleted.contains evDel.id = false ∧
    handle_event envC8 sC9 evDel = (saveEvent evDel sC9, none) := by
  refine ⟨rfl, rfl, ?_⟩
  apply (c9_deletion_authorship envC8 sC9 evDel rfl rfl).1
  intro tid ht orig hlook
  have ht2 : tid = 3 := by
    simpa [evDel] using ht
  subst ht2
  have hl3 : nmapLookup 3 (nmapInsert evDel.id evDel sC9.events) = some evOrig := rfl
  rw [hl3] at hlook
  cases hlook
  decide

/-! ## C8: event idempotence -/

theorem saveEvent_events (ev : NEvent) (s : DbState) :
    (saveEvent ev s).events = nmapInsert ev.id ev s.events := rfl

theorem saveEvent_deleted (ev : NEvent) (s : DbState) :
    (saveEvent ev s).deleted = s.deleted := rfl

theorem saveEvent_sharedKeys (ev : NEvent) (s : DbState) :
    (saveEvent ev s).sharedKeys = s.sharedKeys := rfl

theorem saveEvent_policies (ev : NEvent) (s : DbState) :
    (saveEvent ev s).policies = s.policies := rfl

theorem saveEvent_proposals (ev : NEvent) (s : DbState) :
    (saveEvent ev s).proposals = s.proposals := rfl

theorem saveEvent_approvals (ev : NEvent) (s : DbState) :
    (saveEvent ev s).approvals = s.approvals := rfl

theorem saveEvent_completedProposals (ev : NEvent) (s : DbState) :
    (saveEvent ev s).completedProposals = s.completedProposals := rfl

theorem saveEvent_signers (ev : NEvent) (s : DbState) :
    (saveEvent ev s).signers = s.signers := rfl

theorem saveEvent_mySharedSigners (ev : NEvent) (s : DbState) :
    (saveEvent ev s).mySharedSigners = s.mySharedSigners := rfl

theorem saveEvent_sharedSigners (ev : NEvent) (s : DbState) :
    (saveEvent ev s).sharedSigners = s.sharedSigners := rfl

theorem saveEvent_pending (ev : NEvent) (s : DbState) :
    (saveEvent ev s).pending = s.pending := rfl

theorem saveEvent_notifications (ev : NEvent) (s : DbState) :
    (saveEvent ev s).notifications = s.notifications := rfl

theorem saveEvent_contacts (ev : NEvent) (s : DbState) :
    (saveEvent ev s).contacts = s.contacts := rfl

theorem saveEvent_profiles (ev : NEvent) (s : DbState) :
    (saveEvent ev s).profiles = s.profiles := rfl

theorem saveEvent_sessions (ev : NEvent) (s : DbState) :
    (saveEvent ev s).sessions = s.sessions := rfl

theorem saveEvent_ncRequests (ev : NEvent) (s : DbState) :
    (saveEvent ev s).ncRequests = s.ncRequests := rfl

theorem saveEvent_scheduledSync (ev : NEvent) (s : DbState) :
    (saveEvent ev s).scheduledSync = s.scheduledSync := rfl

/-- A state whose raw-event log already absorbs the insertion of `ev` is
a fixed point of `saveEvent ev`. -/
theorem saveEvent_saved (ev : NEvent) (s' : DbState)
    (h : nmapInsert ev.id ev s'.events = s'.events) : saveEvent ev s' = s' := by
  show ({ s' with events := nmapInsert ev.id ev s'.events } : DbState) = s'
  rw [h]

theorem nmapLookup_erase_self {α : Type} (k : Nat) (m : List (Nat × α)) :
    nmapLookup k (nmapErase k m) = none := by
  induction m with
  | nil => rfl
  | cons e rest ih =>
    rcases e with ⟨k2, v⟩
    by_cases h : k2 = k
    · simpa [nmapErase, List.filter_cons, h] using ih
    · have h2 : ¬ k = k2 := fun hh => h hh.symm
      simpa [nmapErase, List.filter_cons, h, h2, nmapLookup] using ih

/-- **C8 counterexample.** The peer shared-signer branch has no
already-seen guard: delivering the same peer-authored shared-signer
event a second time emits the `NewSharedSigner` notification again, so
the second delivery is not notification-free. -/
theorem c8_counterexample :
    (handle_event envC8 (handle_event envC8 dbEmpty evSS).1 evSS).2 =
        some (Notification.NewSharedSigner 5 2) ∧
    (handle_event envC8 dbEmpty evSS).2 = some (Notification.NewSharedSigner 5 2) := by
  exact ⟨rfl, rfl⟩

/-- **C8 (amended).** Feeding the same event twice to the dispatcher
leaves the store in the state reached after one delivery, and the second
delivery produces no notification — except for a peer-authored
shared-signer event, whose branch has no already-seen guard and re-emits
the same `NewSharedSigner` notification on every delivery. -/
theorem c8_amended (env : Env) (s : DbState) (ev : NEvent) :
    (handle_event env (handle_event env s ev).1 ev).1 = (handle_event env s ev).1 ∧
      ((handle_event env (handle_event env s ev).1 ev).2 = none ∨
        (ev.kind = NKind.sharedSigners ∧ ev.pubkey ≠ env.selfPk ∧
          (handle_event env (handle_event env s ev).1 ev).2 = (handle_event env s ev).2)) := by
  by_cases hdel : ev.id ∈ s.deleted
  · have h1 : handle_event env s ev = (s, none) := by
      simp [handle_event, hdel]
    refine ⟨?_, Or.inl ?_⟩ <;> simp [h1]
  · cases hk : ev.kind with
    | sharedKey =>
      rcases he : extract_first_event_id ev with _ | pid
      ·
        have h1 : handle_event env s ev = (saveEvent ev s, none) := by
          simp [handle_event, hdel, hk, he, saveEvent_events, saveEvent_deleted, saveEvent_sharedKeys, saveEvent_policies, saveEvent_proposals, saveEvent_approvals, saveEvent_completedProposals, saveEvent_signers, saveEvent_mySharedSigners, saveEvent_sharedSigners, saveEvent_pending, saveEvent_notifications, saveEvent_contacts, saveEvent_profiles, saveEvent_sessions, saveEvent_ncRequests, saveEvent_scheduledSync]
        have h2 : handle_event env (saveEvent ev s) ev = (saveEvent ev s, none) := by
          simp [handle_event, hdel, hk, he, saveEvent_events, saveEvent_deleted, saveEvent_sharedKeys, saveEvent_policies, saveEvent_proposals, saveEvent_approvals, saveEvent_completedProposals, saveEvent_signers, saveEvent_mySharedSigners, saveEvent_sharedSigners, saveEvent_pending, saveEvent_notifications, saveEvent_contacts, saveEvent_profiles, saveEvent_sessions, saveEvent_ncRequests, saveEvent_scheduledSync, saveEvent_idem, nmapInsert_overwrite, nmapLookup_insert_self, pushPending_idem, nmapErase_idem, nsetInsert_idem, nmapLookup_erase_self]
        refine ⟨?_, Or.inl ?_⟩ <;> simp [h1, h2]
      · by_cases hsk : (nmapLookup pid s.sharedKeys).isSome
        ·
          have h1 : handle_event env s ev = (saveEvent ev s, none) := by
            simp [handle_event, hdel, hk, he, hsk, saveEvent_events, saveEvent_deleted, saveEvent_sharedKeys, saveEvent_policies, saveEvent_proposals, saveEvent_approvals, saveEvent_completedProposals, saveEvent_signers, saveEvent_mySharedSigners, saveEvent_sharedSigners, saveEvent_pending, saveEvent_notifications, saveEvent_contacts, saveEvent_profiles, saveEvent_sessions, saveEvent_ncRequests, saveEvent_scheduledSync]
          have h2 : handle_event env (saveEvent ev s) ev = (saveEvent ev s, none) := by
            simp [handle_event, hdel, hk, he, hsk, saveEvent_events, saveEvent_deleted, saveEvent_sharedKeys, saveEvent_policies, saveEvent_proposals, saveEvent_approvals, saveEvent_completedProposals, saveEvent_signers, saveEvent_mySharedSigners, saveEvent_sharedSigners, saveEvent_pending, saveEvent_notifications, saveEvent_contacts, saveEvent_profiles, saveEvent_sessions, saveEvent_ncRequests, saveEvent_scheduledSync, saveEvent_idem, nmapInsert_overwrite, nmapLookup_insert_self, pushPending_idem, nmapErase_idem, nsetInsert_idem, nmapLookup_erase_self]
          refine ⟨?_, Or.inl ?_⟩ <;> simp [h1, h2]
        · rcases hdk : env.decryptSharedKey ev with _ | sk
          ·
            have h1 : handle_event env s ev = (saveEvent ev s, none) := by
              simp [handle_event, hdel, hk, he, hsk, hdk, saveEvent_events, saveEvent_deleted, saveEvent_sharedKeys, saveEvent_policies, saveEvent_proposals, saveEvent_approvals, saveEvent_completedProposals, saveEvent_signers, saveEvent_mySharedSigners, saveEvent_sharedSigners, saveEvent_pending, saveEvent_notifications, saveEvent_contacts, saveEvent_profiles, saveEvent_sessions, saveEvent_ncRequests, saveEvent_scheduledSync]
            have h2 : handle_event env (saveEvent ev s) ev = (saveEvent ev s, none) := by
              simp [handle_event, hdel, hk, he, hsk, hdk, saveEvent_events, saveEvent_deleted, saveEvent_sharedKeys, saveEvent_policies, saveEvent_proposals, saveEvent_approvals, saveEvent_completedProposals, saveEvent_signers, saveEvent_mySharedSigners, saveEvent_sharedSigners, saveEvent_pending, saveEvent_notifications, saveEvent_contacts, saveEvent_profiles, saveEvent_sessions, saveEvent_ncRequests, saveEvent_scheduledSync, saveEvent_idem, nmapInsert_overwrite, nmapLookup_insert_self, pushPending_idem, nmapErase_idem, nsetInsert_idem, nmapLookup_erase_self]
            refine ⟨?_, Or.inl ?_⟩ <;> simp [h1, h2]
          ·
            have h1 : handle_event env s ev = (({ events := nmapInsert ev.id ev s.events, deleted := s.deleted, sharedKeys := nmapInsert pid sk s.sharedKeys, policies := s.policies, proposals := s.proposals, approvals := s.approvals, completedProposals := s.completedProposals, signers := s.signers, mySharedSigners := s.mySharedSigners, sharedSigners := s.sharedSigners, pending := s.pending, notifications := s.notifications, contacts := s.contacts, profiles := s.profiles, sessions := s.sessions, ncRequests := s.ncRequests, scheduledSync := s.scheduledSync } : DbState), none) := by
              simp [handle_event, hdel, hk, he, hsk, hdk, saveEvent_events, saveEvent_deleted, saveEvent_sharedKeys, saveEvent_policies, saveEvent_proposals, saveEvent_approvals, saveEvent_completedProposals, saveEvent_signers, saveEvent_mySharedSigners, saveEvent_sharedSigners, saveEvent_pending, saveEvent_notifications, saveEvent_contacts, saveEvent_profiles, saveEvent_sessions, saveEvent_ncRequests, saveEvent_scheduledSync]
            have hsv : saveEvent ev ({ events := nmapInsert ev.id ev s.events, deleted := s.deleted, sharedKeys := nmapInsert pid sk s.sharedKeys, policies := s.policies, proposals := s.proposals, approvals := s.approvals, completedProposals := s.completedProposals, signers := s.signers, mySharedSigners := s.mySharedSigners, sharedSigners := s.sharedSigners, pending := s.pending, notifications := s.notifications, contacts := s.contacts, profiles := s.profiles, sessions := s.sessions, ncRequests := s.ncRequests, scheduledSync := s.scheduledSync } : DbState) = ({ events := nmapInsert ev.id ev s.events, deleted := s.deleted, sharedKeys := nmapInsert pid sk s.sharedKeys, policies := s.policies, proposals := s.proposals, approvals := s.approvals, completedProposals := s.completedProposals, signers := s.signers, mySharedSigners := s.mySharedSigners, sharedSigners := s.sharedSigners, pending := s.pending, notifications := s.notifications, contacts := s.contacts, profiles := s.profiles, sessions := s.sessions, ncRequests := s.ncRequests, scheduledSync := s.scheduledSync } : DbState) := by
              apply saveEvent_saved
              simp [nmapInsert_overwrite]
            have h2 : handle_event env ({ events := nmapInsert ev.id ev s.events, deleted := s.deleted, sharedKeys := nmapInsert pid sk s.sharedKeys, policies := s.policies, proposals := s.proposals, approvals := s.approvals, completedProposals := s.completedProposals, signers := s.signers, mySharedSigners := s.mySharedSigners, sharedSigners := s.sharedSigners, pending := s.pending, notifications := s.notifications, contacts := s.contacts, profiles := s.profiles, sessions := s.sessions, ncRequests := s.ncRequests, scheduledSync := s.scheduledSync } : DbState) ev = (({ events := nmapInsert ev.id ev s.events, deleted := s.deleted, sharedKeys := nmapInsert pid sk s.sharedKeys, policies := s.policies, proposals := s.proposals, approvals := s.approvals, completedProposals := s.completedProposals, signers := s.signers, mySharedSigners := s.mySharedSigners, sharedSigners := s.sharedSigners, pending := s.pending, notifications := s.notifications, contacts := s.contacts, profiles := s.profiles, sessions := s.sessions, ncRequests := s.ncRequests, scheduledSync := s.scheduledSync } : DbState), none) := by
              simp [handle_event, hdel, hk, he, hsk, hdk, saveEvent_events, saveEvent_deleted, saveEvent_sharedKeys, saveEvent_policies, saveEvent_proposals, saveEvent_approvals, saveEvent_completedProposals, saveEvent_signers, saveEvent_mySharedSigners, saveEvent_sharedSigners, saveEvent_pending, saveEvent_notifications, saveEvent_contacts, saveEvent_profiles, saveEvent_sessions, saveEvent_ncRequests, saveEvent_scheduledSync, nmapInsert_overwrite, nmapLookup_insert_self, pushPending_idem, nmapErase_idem, nsetInsert_idem, nmapLookup_erase_self, hsv]
            refine ⟨?_, Or.inl ?_⟩ <;> simp [h1, h2]
    | policy =>
      by_cases hlp : (nmapLookup ev.id s.policies).isSome
      ·
        have h1 : handle_event env s ev = (saveEvent ev s, none) := by
          simp [handle_event, hdel, hk, hlp, saveEvent_events, saveEvent_deleted, saveEvent_sharedKeys, saveEvent_policies, saveEvent_proposals, saveEvent_approvals, saveEvent_completedProposals, saveEvent_signers, saveEvent_mySharedSigners, saveEvent_sharedSigners, saveEvent_pending, saveEvent_notifications, saveEvent_contacts, saveEvent_profiles, saveEvent_sessions, saveEvent_ncRequests, saveEvent_scheduledSync]
        have h2 : handle_event env (saveEvent ev s) ev = (saveEvent ev s, none) := by
          simp [handle_event, hdel, hk, hlp, saveEvent_events, saveEvent_deleted, saveEvent_sharedKeys, saveEvent_policies, saveEvent_proposals, saveEvent_approvals, saveEvent_completedProposals, saveEvent_signers, saveEvent_mySharedSigners, saveEvent_sharedSigners, saveEvent_pending, saveEvent_notifications, saveEvent_contacts, saveEvent_profiles, saveEvent_sessions, saveEvent_ncRequests, saveEvent_scheduledSync, saveEvent_idem, nmapInsert_overwrite, nmapLookup_insert_self, pushPending_idem, nmapErase_idem, nsetInsert_idem, nmapLookup_erase_self]
        refine ⟨?_, Or.inl ?_⟩ <;> simp [h1, h2]
      · rcases hsk : nmapLookup ev.id s.sharedKeys with _ | sk
        ·
          have h1 : handle_event env s ev = (({ events := nmapInsert ev.id ev s.events, deleted := s.deleted, sharedKeys := s.sharedKeys, policies := s.policies, proposals := s.proposals, approvals := s.approvals, completedProposals := s.completedProposals, signers := s.signers, mySharedSigners := s.mySharedSigners, sharedSigners := s.sharedSigners, pending := pushPending s.pending ev, notifications := s.notifications, contacts := s.contacts, profiles := s.profiles, sessions := s.sessions, ncRequests := s.ncRequests, scheduledSync := s.scheduledSync } : DbState), none) := by
            simp [handle_event, hdel, hk, hlp, hsk, saveEvent_events, saveEvent_deleted, saveEvent_sharedKeys, saveEvent_policies, saveEvent_proposals, saveEvent_approvals, saveEvent_completedProposals, saveEvent_signers, saveEvent_mySharedSigners, saveEvent_sharedSigners, saveEvent_pending, saveEvent_notifications, saveEvent_contacts, saveEvent_profiles, saveEvent_sessions, saveEvent_ncRequests, saveEvent_scheduledSync]
          have hsv : saveEvent ev ({ events := nmapInsert ev.id ev s.events, deleted := s.deleted, sharedKeys := s.sharedKeys, policies := s.policies, proposals := s.proposals, approvals := s.approvals, completedProposals := s.completedProposals, signers := s.signers, mySharedSigners := s.mySharedSigners, sharedSigners := s.sharedSigners, pending := pushPending s.pending ev, notifications := s.notifications, contacts := s.contacts, profiles := s.profiles, sessions := s.sessions, ncRequests := s.ncRequests, scheduledSync := s.scheduledSync } : DbState) = ({ events := nmapInsert ev.id ev s.events, deleted := s.deleted, sharedKeys := s.sharedKeys, policies := s.policies, proposals := s.proposals, approvals := s.approvals, completedProposals := s.completedProposals, signers := s.signers, mySharedSigners := s.mySharedSigners, sharedSigners := s.sharedSigners, pending := pushPending s.pending ev, notifications := s.notifications, contacts := s.contacts, profiles := s.profiles, sessions := s.sessions, ncRequests := s.ncRequests, scheduledSync := s.scheduledSync } : DbState) := by
            apply saveEvent_saved
            simp [nmapInsert_overwrite]
          have h2 : handle_event env ({ events := nmapInsert ev.id ev s.events, deleted := s.deleted, sharedKeys := s.sharedKeys, policies := s.policies, proposals := s.proposals, approvals := s.approvals, completedProposals := s.completedProposals, signers := s.signers, mySharedSigners := s.mySharedSigners, sharedSigners := s.sharedSigners, pending := pushPending s.pending ev, notifications := s.notifications, contacts := s.contacts, profiles := s.profiles, sessions := s.sessions, ncRequests := s.ncRequests, scheduledSync := s.scheduledSync } : DbState) ev = (({ events := nmapInsert ev.id ev s.events, deleted := s.deleted, sharedKeys := s.sharedKeys, policies := s.policies, proposals := s.proposals, approvals := s.approvals, completedProposals := s.completedProposals, signers := s.signers, mySharedSigners := s.mySharedSigners, sharedSigners := s.sharedSigners, pending := pushPending s.pending ev, notifications := s.notifications, contacts := s.contacts, profiles := s.profiles, sessions := s.sessions, ncRequests := s.ncRequests, scheduledSync := s.scheduledSync } : DbState), none) := by
            simp [handle_event, hdel, hk, hlp, hsk, saveEvent_events, saveEvent_deleted, saveEvent_sharedKeys, saveEvent_policies, saveEvent_proposals, saveEvent_approvals, saveEvent_completedProposals, saveEvent_signers, saveEvent_mySharedSigners, saveEvent_sharedSigners, saveEvent_pending, saveEvent_notifications, saveEvent_contacts, saveEvent_profiles, saveEvent_sessions, saveEvent_ncRequests, saveEvent_scheduledSync, nmapInsert_overwrite, nmapLookup_insert_self, pushPending_idem, nmapErase_idem, nsetInsert_idem, nmapLookup_erase_self, hsv]
          refine ⟨?_, Or.inl ?_⟩ <;> simp [h1, h2]
        · rcases hdk : env.decryptPolicy sk ev.content with _ | pol
          ·
            have h1 : handle_event env s ev = (saveEvent ev s, none) := by
              simp [handle_event, hdel, hk, hlp, hsk, hdk, saveEvent_events, saveEvent_deleted, saveEvent_sharedKeys, saveEvent_policies, saveEvent_proposals, saveEvent_approvals, saveEvent_completedProposals, saveEvent_signers, saveEvent_mySharedSigners, saveEvent_sharedSigners, saveEvent_pending, saveEvent_notifications, saveEvent_contacts, saveEvent_profiles, saveEvent_sessions, saveEvent_ncRequests, saveEvent_scheduledSync]
            have h2 : handle_event env (saveEvent ev s) ev = (saveEvent ev s, none) := by
              simp [handle_event, hdel, hk, hlp, hsk, hdk, saveEvent_events, saveEvent_deleted, saveEvent_sharedKeys, saveEvent_policies, saveEvent_proposals, saveEvent_approvals, saveEvent_completedProposals, saveEvent_signers, saveEvent_mySharedSigners, saveEvent_sharedSigners, saveEvent_pending, saveEvent_notifications, saveEvent_contacts, saveEvent_profiles, saveEvent_sessions, saveEvent_ncRequests, saveEvent_scheduledSync, saveEvent_idem, nmapInsert_overwrite, nmapLookup_insert_self, pushPending_idem, nmapErase_idem, nsetInsert_idem, nmapLookup_erase_self]
            refine ⟨?_, Or.inl ?_⟩ <;> simp [h1, h2]
          · cases hpks : (ev.tags.filterMap (fun t => match t with | NTag.pubKey pk => some pk | _ => none)).isEmpty with
            | false =>
              have h1 : handle_event env s ev = (({ events := nmapInsert ev.id ev s.events, deleted := s.deleted, sharedKeys := s.sharedKeys, policies := nmapInsert ev.id (pol, (ev.tags.filterMap (fun t => match t with | NTag.pubKey pk => some pk | _ => none))) s.policies, proposals := s.proposals, approvals := s.approvals, completedProposals := s.completedProposals, signers := s.signers, mySharedSigners := s.mySharedSigners, sharedSigners := s.sharedSigners, pending := s.pending, notifications := nmapInsert ev.id (Notification.NewPolicy ev.id) s.notifications, contacts := s.contacts, profiles := s.profiles, sessions := s.sessions, ncRequests := s.ncRequests, scheduledSync := s.scheduledSync } : DbState), some (Notification.NewPolicy ev.id)) := by
                simp [handle_event, hdel, hk, hlp, hsk, hdk, hpks, saveEvent_events, saveEvent_deleted, saveEvent_sharedKeys, saveEvent_policies, saveEvent_proposals, saveEvent_approvals, saveEvent_completedProposals, saveEvent_signers, saveEvent_mySharedSigners, saveEvent_sharedSigners, saveEvent_pending, saveEvent_notifications, saveEvent_contacts, saveEvent_profiles, saveEvent_sessions, saveEvent_ncRequests, saveEvent_scheduledSync]
              have hsv : saveEvent ev ({ events := nmapInsert ev.id ev s.events, deleted := s.deleted, sharedKeys := s.sharedKeys, policies := nmapInsert ev.id (pol, (ev.tags.filterMap (fun t => match t with | NTag.pubKey pk => some pk | _ => none))) s.policies, proposals := s.proposals, approvals := s.approvals, completedProposals := s.completedProposals, signers := s.signers, mySharedSigners := s.mySharedSigners, sharedSigners := s.sharedSigners, pending := s.pending, notifications := nmapInsert ev.id (Notification.NewPolicy ev.id) s.notifications, contacts := s.contacts, profiles := s.profiles, sessions := s.sessions, ncRequests := s.ncRequests, scheduledSync := s.scheduledSync } : DbState) = ({ events := nmapInsert ev.id ev s.events, deleted := s.deleted, sharedKeys := s.sharedKeys, policies := nmapInsert ev.id (pol, (ev.tags.filterMap (fun t => match t with | NTag.pubKey pk => some pk | _ => none))) s.policies, proposals := s.proposals, approvals := s.approvals, completedProposals := s.completedProposals, signers := s.signers, mySharedSigners := s.mySharedSigners, sharedSigners := s.sharedSigners, pending := s.pending, notifications := nmapInsert ev.id (Notification.NewPolicy ev.id) s.notifications, contacts := s.contacts, profiles := s.profiles, sessions := s.sessions, ncRequests := s.ncRequests, scheduledSync := s.scheduledSync } : DbState) := by
                apply saveEvent_saved
                simp [nmapInsert_overwrite]
              have h2 : handle_event env ({ events := nmapInsert ev.id ev s.events, deleted := s.deleted, sharedKeys := s.sharedKeys, policies := nmapInsert ev.id (pol, (ev.tags.filterMap (fun t => match t with | NTag.pubKey pk => some pk | _ => none))) s.policies, proposals := s.proposals, approvals := s.approvals, completedProposals := s.completedProposals, signers := s.signers, mySharedSigners := s.mySharedSigners, sharedSigners := s.sharedSigners, pending := s.pending, notifications := nmapInsert ev.id (Notification.NewPolicy ev.id) s.notifications, contacts := s.contacts, profiles := s.profiles, sessions := s.sessions, ncRequests := s.ncRequests, scheduledSync := s.scheduledSync } : DbState) ev = (({ events := nmapInsert ev.id ev s.events, deleted := s.deleted, sharedKeys := s.sharedKeys, policies := nmapInsert ev.id (pol, (ev.tags.filterMap (fun t => match t with | NTag.pubKey pk => some pk | _ => none))) s.policies, proposals := s.proposals, approvals := s.approvals, completedProposals := s.completedProposals, signers := s.signers, mySharedSigners := s.mySharedSigners, sharedSigners := s.sharedSigners, pending := s.pending, notifications := nmapInsert ev.id (Notification.NewPolicy ev.id) s.notifications, contacts := s.contacts, profiles := s.profiles, sessions := s.sessions, ncRequests := s.ncRequests, scheduledSync := s.scheduledSync } : DbState), none) := by
                simp [handle_event, hdel, hk, hlp, hsk, hdk, hpks, saveEvent_events, saveEvent_deleted, saveEvent_sharedKeys, saveEvent_policies, saveEvent_proposals, saveEvent_approvals, saveEvent_completedProposals, saveEvent_signers, saveEvent_mySharedSigners, saveEvent_sharedSigners, saveEvent_pending, saveEvent_notifications, saveEvent_contacts, saveEvent_profiles, saveEvent_sessions, saveEvent_ncRequests, saveEvent_scheduledSync, nmapInsert_overwrite, nmapLookup_insert_self, pushPending_idem, nmapErase_idem, nsetInsert_idem, nmapLookup_erase_self, hsv]
              refine ⟨?_, Or.inl ?_⟩ <;> simp [h1, h2]
            | true =>
              have h1 : handle_event env s ev = (saveEvent ev s, none) := by
                simp [handle_event, hdel, hk, hlp, hsk, hdk, hpks, saveEvent_events, saveEvent_deleted, saveEvent_sharedKeys, saveEvent_policies, saveEvent_proposals, saveEvent_approvals, saveEvent_completedProposals, saveEvent_signers, saveEvent_mySharedSigners, saveEvent_sharedSigners, saveEvent_pending, saveEvent_notifications, saveEvent_contacts, saveEvent_profiles, saveEvent_sessions, saveEvent_ncRequests, saveEvent_scheduledSync]
              have h2 : handle_event env (saveEvent ev s) ev = (saveEvent ev s, none) := by
                simp [handle_event, hdel, hk, hlp, hsk, hdk, hpks, saveEvent_events, saveEvent_deleted, saveEvent_sharedKeys, saveEvent_policies, saveEvent_proposals, saveEvent_approvals, saveEvent_completedProposals, saveEvent_signers, saveEvent_mySharedSigners, saveEvent_sharedSigners, saveEvent_pending, saveEvent_notifications, saveEvent_contacts, saveEvent_profiles, saveEvent_sessions, saveEvent_ncRequests, saveEvent_scheduledSync, saveEvent_idem, nmapInsert_overwrite, nmapLookup_insert_self, pushPending_idem, nmapErase_idem, nsetInsert_idem, nmapLookup_erase_self]
              refine ⟨?_, Or.inl ?_⟩ <;> simp [h1, h2]
    | proposal =>
      by_cases hlp : (nmapLookup ev.id s.proposals).isSome
      ·
        have h1 : handle_event env s ev = (saveEvent ev s, none) := by
          simp [handle_event, hdel, hk, hlp, saveEvent_events, saveEvent_deleted, saveEvent_sharedKeys, saveEvent_policies, saveEvent_proposals, saveEvent_approvals, saveEvent_completedProposals, saveEvent_signers, saveEvent_mySharedSigners, saveEvent_sharedSigners, saveEvent_pending, saveEvent_notifications, saveEvent_contacts, saveEvent_profiles, saveEvent_sessions, saveEvent_ncRequests, saveEvent_scheduledSync]
        have h2 : handle_event env (saveEvent ev s) ev = (saveEvent ev s, none) := by
          simp [handle_event, hdel, hk, hlp, saveEvent_events, saveEvent_deleted, saveEvent_sharedKeys, saveEvent_policies, saveEvent_proposals, saveEvent_approvals, saveEvent_completedProposals, saveEvent_signers, saveEvent_mySharedSigners, saveEvent_sharedSigners, saveEvent_pending, saveEvent_notifications, saveEvent_contacts, saveEvent_profiles, saveEvent_sessions, saveEvent_ncRequests, saveEvent_scheduledSync, saveEvent_idem, nmapInsert_overwrite, nmapLookup_insert_self, pushPending_idem, nmapErase_idem, nsetInsert_idem, nmapLookup_erase_self]
        refine ⟨?_, Or.inl ?_⟩ <;> simp [h1, h2]
      · rcases he : extract_first_event_id ev with _ | pid
        ·
          have h1 : handle_event env s ev = (saveEvent ev s, none) := by
            simp [handle_event, hdel, hk, hlp, he, saveEvent_events, saveEvent_deleted, saveEvent_sharedKeys, saveEvent_policies, saveEvent_proposals, saveEvent_approvals, saveEvent_completedProposals, saveEvent_signers, saveEvent_mySharedSigners, saveEvent_sharedSigners, saveEvent_pending, saveEvent_notifications, saveEvent_contacts, saveEvent_profiles, saveEvent_sessions, saveEvent_ncRequests, saveEvent_scheduledSync]
          have h2 : handle_event env (saveEvent ev s) ev = (saveEvent ev s, none) := by
            simp [handle_event, hdel, hk, hlp, he, saveEvent_events, saveEvent_deleted, saveEvent_sharedKeys, saveEvent_policies, saveEvent_proposals, saveEvent_approvals, saveEvent_completedProposals, saveEvent_signers, saveEvent_mySharedSigners, saveEvent_sharedSigners, saveEvent_pending, saveEvent_notifications, saveEvent_contacts, saveEvent_profiles, saveEvent_sessions, saveEvent_ncRequests, saveEvent_scheduledSync, saveEvent_idem, nmapInsert_overwrite, nmapLookup_insert_self, pushPending_idem, nmapErase_idem, nsetInsert_idem, nmapLookup_erase_self]
          refine ⟨?_, Or.inl ?_⟩ <;> simp [h1, h2]
        · rcases hsk : nmapLookup pid s.sharedKeys with _ | sk
          ·
            have h1 : handle_event env s ev = (({ events := nmapInsert ev.id ev s.events, deleted := s.deleted, sharedKeys := s.sharedKeys, policies := s.policies, proposals := s.proposals, approvals := s.approvals, completedProposals := s.completedProposals, signers := s.signers, mySharedSigners := s.mySharedSigners, sharedSigners := s.sharedSigners, pending := pushPending s.pending ev, notifications := s.notifications, contacts := s.contacts, profiles := s.profiles, sessions := s.sessions, ncRequests := s.ncRequests, scheduledSync := s.scheduledSync } : DbState), none) := by
              simp [handle_event, hdel, hk, hlp, he, hsk, saveEvent_events, saveEvent_deleted, saveEvent_sharedKeys, saveEvent_policies, saveEvent_proposals, saveEvent_approvals, saveEvent_completedProposals, saveEvent_signers, saveEvent_mySharedSigners, saveEvent_sharedSigners, saveEvent_pending, saveEvent_notifications, saveEvent_contacts, saveEvent_profiles, saveEvent_sessions, saveEvent_ncRequests, saveEvent_scheduledSync]
            have hsv : saveEvent ev ({ events := nmapInsert ev.id ev s.events, deleted := s.deleted, sharedKeys := s.sharedKeys, policies := s.policies, proposals := s.proposals, approvals := s.approvals, completedProposals := s.completedProposals, signers := s.signers, mySharedSigners := s.mySharedSigners, sharedSigners := s.sharedSigners, pending := pushPending s.pending ev, notifications := s.notifications, contacts := s.contacts, profiles := s.profiles, sessions := s.sessions, ncRequests := s.ncRequests, scheduledSync := s.scheduledSync } : DbState) = ({ events := nmapInsert ev.id ev s.events, deleted := s.deleted, sharedKeys := s.sharedKeys, policies := s.policies, proposals := s.proposals, approvals := s.approvals, completedProposals := s.completedProposals, signers := s.signers, mySharedSigners := s.mySharedSigners, sharedSigners := s.sharedSigners, pending := pushPending s.pending ev, notifications := s.notifications, contacts := s.contacts, profiles := s.profiles, sessions := s.sessions, ncRequests := s.ncRequests, scheduledSync := s.scheduledSync } : DbState) := by
              apply saveEvent_saved
              simp [nmapInsert_overwrite]
            have h2 : handle_event env ({ events := nmapInsert ev.id ev s.events, deleted := s.deleted, sharedKeys := s.sharedKeys, policies := s.policies, proposals := s.proposals, approvals := s.approvals, completedProposals := s.completedProposals, signers := s.signers, mySharedSigners := s.mySharedSigners, sharedSigners := s.sharedSigners, pending := pushPending s.pending ev, notifications := s.notifications, contacts := s.contacts, profiles := s.profiles, sessions := s.sessions, ncRequests := s.ncRequests, scheduledSync := s.scheduledSync } : DbState) ev = (({ events := nmapInsert ev.id ev s.events, deleted := s.deleted, sharedKeys := s.sharedKeys, policies := s.policies, proposals := s.proposals, approvals := s.approvals, completedProposals := s.completedProposals, signers := s.signers, mySharedSigners := s.mySharedSigners, sharedSigners := s.sharedSigners, pending := pushPending s.pending ev, notifications := s.notifications, contacts := s.contacts, profiles := s.profiles, sessions := s.sessions, ncRequests := s.ncRequests, scheduledSync := s.scheduledSync } : DbState), none) := by
              simp [handle_event, hdel, hk, hlp, he, hsk, saveEvent_events, saveEvent_deleted, saveEvent_sharedKeys, saveEvent_policies, saveEvent_proposals, saveEvent_approvals, saveEvent_completedProposals, saveEvent_signers, saveEvent_mySharedSigners, saveEvent_sharedSigners, saveEvent_pending, saveEvent_notifications, saveEvent_contacts, saveEvent_profiles, saveEvent_sessions, saveEvent_ncRequests, saveEvent_scheduledSync, nmapInsert_overwrite, nmapLookup_insert_self, pushPending_idem, nmapErase_idem, nsetInsert_idem, nmapLookup_erase_self, hsv]
            refine ⟨?_, Or.inl ?_⟩ <;> simp [h1, h2]
          · rcases hdk : env.decryptProposal sk ev.content with _ | prop
            ·
              have h1 : handle_event env s ev = (saveEvent ev s, none) := by
                simp [handle_event, hdel, hk, hlp, he, hsk, hdk, saveEvent_events, saveEvent_deleted, saveEvent_sharedKeys, saveEvent_policies, saveEvent_proposals, saveEvent_approvals, saveEvent_completedProposals, saveEvent_signers, saveEvent_mySharedSigners, saveEvent_sharedSigners, saveEvent_pending, saveEvent_notifications, saveEvent_contacts, saveEvent_profiles, saveEvent_sessions, saveEvent_ncRequests, saveEvent_scheduledSync]
              have h2 : handle_event env (saveEvent ev s) ev = (saveEvent ev s, none) := by
                simp [handle_event, hdel, hk, hlp, he, hsk, hdk, saveEvent_events, saveEvent_deleted, saveEvent_sharedKeys, saveEvent_policies, saveEvent_proposals, saveEvent_approvals, saveEvent_completedProposals, saveEvent_signers, saveEvent_mySharedSigners, saveEvent_sharedSigners, saveEvent_pending, saveEvent_notifications, saveEvent_contacts, saveEvent_profiles, saveEvent_sessions, saveEvent_ncRequests, saveEvent_scheduledSync, saveEvent_idem, nmapInsert_overwrite, nmapLookup_insert_self, pushPending_idem, nmapErase_idem, nsetInsert_idem, nmapLookup_erase_self]
              refine ⟨?_, Or.inl ?_⟩ <;> simp [h1, h2]
            ·
              have h1 : handle_event env s ev = (({ events := nmapInsert ev.id ev s.events, deleted := s.deleted, sharedKeys := s.sharedKeys, policies := s.policies, proposals := nmapInsert ev.id (pid, prop) s.proposals, approvals := s.approvals, completedProposals := s.completedProposals, signers := s.signers, mySharedSigners := s.mySharedSigners, sharedSigners := s.sharedSigners, pending := s.pending, notifications := nmapInsert ev.id (Notification.NewProposal ev.id) s.notifications, contacts := s.contacts, profiles := s.profiles, sessions := s.sessions, ncRequests := s.ncRequests, scheduledSync := s.scheduledSync } : DbState), some (Notification.NewProposal ev.id)) := by
                simp [handle_event, hdel, hk, hlp, he, hsk, hdk, saveEvent_events, saveEvent_deleted, saveEvent_sharedKeys, saveEvent_policies, saveEvent_proposals, saveEvent_approvals, saveEvent_completedProposals, saveEvent_signers, saveEvent_mySharedSigners, saveEvent_sharedSigners, saveEvent_pending, saveEvent_notifications, saveEvent_contacts, saveEvent_profiles, saveEvent_sessions, saveEvent_ncRequests, saveEvent_scheduledSync]
              have hsv : saveEvent ev ({ events := nmapInsert ev.id ev s.events, deleted := s.deleted, sharedKeys := s.sharedKeys, policies := s.policies, proposals := nmapInsert ev.id (pid, prop) s.proposals, approvals := s.approvals, completedProposals := s.completedProposals, signers := s.signers, mySharedSigners := s.mySharedSigners, sharedSigners := s.sharedSigners, pending := s.pending, notifications := nmapInsert ev.id (Notification.NewProposal ev.id) s.notifications, contacts := s.contacts, profiles := s.profiles, sessions := s.sessions, ncRequests := s.ncRequests, scheduledSync := s.scheduledSync } : DbState) = ({ events := nmapInsert ev.id ev s.events, deleted := s.deleted, sharedKeys := s.sharedKeys, policies := s.policies, proposals := nmapInsert ev.id (pid, prop) s.proposals, approvals := s.approvals, completedProposals := s.completedProposals, signers := s.signers, mySharedSigners := s.mySharedSigners, sharedSigners := s.sharedSigners, pending := s.pending, notifications := nmapInsert ev.id (Notification.NewProposal ev.id) s.notifications, contacts := s.contacts, profiles := s.profiles, sessions := s.sessions, ncRequests := s.ncRequests, scheduledSync := s.scheduledSync } : DbState) := by
                apply saveEvent_saved
                simp [nmapInsert_overwrite]
              have h2 : handle_event env ({ events := nmapInsert ev.id ev s.events, deleted := s.deleted, sharedKeys := s.sharedKeys, policies := s.policies, proposals := nmapInsert ev.id (pid, prop) s.proposals, approvals := s.approvals, completedProposals := s.completedProposals, signers := s.signers, mySharedSigners := s.mySharedSigners, sharedSigners := s.sharedSigners, pending := s.pending, notifications := nmapInsert ev.id (Notification.NewProposal ev.id) s.notifications, contacts := s.contacts, profiles := s.profiles, sessions := s.sessions, ncRequests := s.ncRequests, scheduledSync := s.scheduledSync } : DbState) ev = (({ events := nmapInsert ev.id ev s.events, deleted := s.deleted, sharedKeys := s.sharedKeys, policies := s.policies, proposals := nmapInsert ev.id (pid, prop) s.proposals, approvals := s.approvals, completedProposals := s.completedProposals, signers := s.signers, mySharedSigners := s.mySharedSigners, sharedSigners := s.sharedSigners, pending := s.pending, notifications := nmapInsert ev.id (Notification.NewProposal ev.id) s.notifications, contacts := s.contacts, profiles := s.profiles, sessions := s.sessions, ncRequests := s.ncRequests, scheduledSync := s.scheduledSync } : DbState), none) := by
                simp [handle_event, hdel, hk, hlp, he, hsk, hdk, saveEvent_events, saveEvent_deleted, saveEvent_sharedKeys, saveEvent_policies, saveEvent_proposals, saveEvent_approvals, saveEvent_completedProposals, saveEvent_signers, saveEvent_mySharedSigners, saveEvent_sharedSigners, saveEvent_pending, saveEvent_notifications, saveEvent_contacts, saveEvent_profiles, saveEvent_sessions, saveEvent_ncRequests, saveEvent_scheduledSync, nmapInsert_overwrite, nmapLookup_insert_self, pushPending_idem, nmapErase_idem, nsetInsert_idem, nmapLookup_erase_self, hsv]
              refine ⟨?_, Or.inl ?_⟩ <;> simp [h1, h2]
    | approvedProposal =>
      by_cases hla : (nmapLookup ev.id s.approvals).isSome
      ·
        have h1 : handle_event env s ev = (saveEvent ev s, none) := by
          simp [handle_event, hdel, hk, hla, saveEvent_events, saveEvent_deleted, saveEvent_sharedKeys, saveEvent_policies, saveEvent_proposals, saveEvent_approvals, saveEvent_completedProposals, saveEvent_signers, saveEvent_mySharedSigners, saveEvent_sharedSigners, saveEvent_pending, saveEvent_notifications, saveEvent_contacts, saveEvent_profiles, saveEvent_sessions, saveEvent_ncRequests, saveEvent_scheduledSync]
        have h2 : handle_event env (saveEvent ev s) ev = (saveEvent ev s, none) := by
          simp [handle_event, hdel, hk, hla, saveEvent_events, saveEvent_deleted, saveEvent_sharedKeys, saveEvent_policies, saveEvent_proposals, saveEvent_approvals, saveEvent_completedProposals, saveEvent_signers, saveEvent_mySharedSigners, saveEvent_sharedSigners, saveEvent_pending, saveEvent_notifications, saveEvent_contacts, saveEvent_profiles, saveEvent_sessions, saveEvent_ncRequests, saveEvent_scheduledSync, saveEvent_idem, nmapInsert_overwrite, nmapLookup_insert_self, pushPending_idem, nmapErase_idem, nsetInsert_idem, nmapLookup_erase_self]
        refine ⟨?_, Or.inl ?_⟩ <;> simp [h1, h2]
      · rcases he : extract_first_event_id ev with _ | prid
        ·
          have h1 : handle_event env s ev = (saveEvent ev s, none) := by
            simp [handle_event, hdel, hk, hla, he, saveEvent_events, saveEvent_deleted, saveEvent_sharedKeys, saveEvent_policies, saveEvent_proposals, saveEvent_approvals, saveEvent_completedProposals, saveEvent_signers, saveEvent_mySharedSigners, saveEvent_sharedSigners, saveEvent_pending, saveEvent_notifications, saveEvent_contacts, saveEvent_profiles, saveEvent_sessions, saveEvent_ncRequests, saveEvent_scheduledSync]
          have h2 : handle_event env (saveEvent ev s) ev = (saveEvent ev s, none) := by
            simp [handle_event, hdel, hk, hla, he, saveEvent_events, saveEvent_deleted, saveEvent_sharedKeys, saveEvent_policies, saveEvent_proposals, saveEvent_approvals, saveEvent_completedProposals, saveEvent_signers, saveEvent_mySharedSigners, saveEvent_sharedSigners, saveEvent_pending, saveEvent_notifications, saveEvent_contacts, saveEvent_profiles, saveEvent_sessions, saveEvent_ncRequests, saveEvent_scheduledSync, saveEvent_idem, nmapInsert_overwrite, nmapLookup_insert_self, pushPending_idem, nmapErase_idem, nsetInsert_idem, nmapLookup_erase_self]
          refine ⟨?_, Or.inl ?_⟩ <;> simp [h1, h2]
        · rcases hg : (eventTagIds ev)[1]? with _ | polid
          ·
            have h1 : handle_event env s ev = (saveEvent ev s, none) := by
              simp [handle_event, hdel, hk, hla, he, hg, saveEvent_events, saveEvent_deleted, saveEvent_sharedKeys, saveEvent_policies, saveEvent_proposals, saveEvent_approvals, saveEvent_completedProposals, saveEvent_signers, saveEvent_mySharedSigners, saveEvent_sharedSigners, saveEvent_pending, saveEvent_notifications, saveEvent_contacts, saveEvent_profiles, saveEvent_sessions, saveEvent_ncRequests, saveEvent_scheduledSync]
            have h2 : handle_event env (saveEvent ev s) ev = (saveEvent ev s, none) := by
              simp [handle_event, hdel, hk, hla, he, hg, saveEvent_events, saveEvent_deleted, saveEvent_sharedKeys, saveEvent_policies, saveEvent_proposals, saveEvent_approvals, saveEvent_completedProposals, saveEvent_signers, saveEvent_mySharedSigners, saveEvent_sharedSigners, saveEvent_pending, saveEvent_notifications, saveEvent_contacts, saveEvent_profiles, saveEvent_sessions, saveEvent_ncRequests, saveEvent_scheduledSync, saveEvent_idem, nmapInsert_overwrite, nmapLookup_insert_self, pushPending_idem, nmapErase_idem, nsetInsert_idem, nmapLookup_erase_self]
            refine ⟨?_, Or.inl ?_⟩ <;> simp [h1, h2]
          · rcases hsk : nmapLookup polid s.sharedKeys with _ | sk
            ·
              have h1 : handle_event env s ev = (({ events := nmapInsert ev.id ev s.events, deleted := s.deleted, sharedKeys := s.sharedKeys, policies := s.policies, proposals := s.proposals, approvals := s.approvals, completedProposals := s.completedProposals, signers := s.signers, mySharedSigners := s.mySharedSigners, sharedSigners := s.sharedSigners, pending := pushPending s.pending ev, notifications := s.notifications, contacts := s.contacts, profiles := s.profiles, sessions := s.sessions, ncRequests := s.ncRequests, scheduledSync := s.scheduledSync } : DbState), none) := by
                simp [handle_event, hdel, hk, hla, he, hg, hsk, saveEvent_events, saveEvent_deleted, saveEvent_sharedKeys, saveEvent_policies, saveEvent_proposals, saveEvent_approvals, saveEvent_completedProposals, saveEvent_signers, saveEvent_mySharedSigners, saveEvent_sharedSigners, saveEvent_pending, saveEvent_notifications, saveEvent_contacts, saveEvent_profiles, saveEvent_sessions, saveEvent_ncRequests, saveEvent_scheduledSync]
              have hsv : saveEvent ev ({ events := nmapInsert ev.id ev s.events, deleted := s.deleted, sharedKeys := s.sharedKeys, policies := s.policies, proposals := s.proposals, approvals := s.approvals, completedProposals := s.completedProposals, signers := s.signers, mySharedSigners := s.mySharedSigners, sharedSigners := s.sharedSigners, pending := pushPending s.pending ev, notifications := s.notifications, contacts := s.contacts, profiles := s.profiles, sessions := s.sessions, ncRequests := s.ncRequests, scheduledSync := s.scheduledSync } : DbState) = ({ events := nmapInsert ev.id ev s.events, deleted := s.deleted, sharedKeys := s.sharedKeys, policies := s.policies, proposals := s.proposals, approvals := s.approvals, completedProposals := s.completedProposals, signers := s.signers, mySharedSigners := s.mySharedSigners, sharedSigners := s.sharedSigners, pending := pushPending s.pending ev, notifications := s.notifications, contacts := s.contacts, profiles := s.profiles, sessions := s.sessions, ncRequests := s.ncRequests, scheduledSync := s.scheduledSync } : DbState) := by
                apply saveEvent_saved
                simp [nmapInsert_overwrite]
              have h2 : handle_event env ({ events := nmapInsert ev.id ev s.events, deleted := s.deleted, sharedKeys := s.sharedKeys, policies := s.policies, proposals := s.proposals, approvals := s.approvals, completedProposals := s.completedProposals, signers := s.signers, mySharedSigners := s.mySharedSigners, sharedSigners := s.sharedSigners, pending := pushPending s.pending ev, notifications := s.notifications, contacts := s.contacts, profiles := s.profiles, sessions := s.sessions, ncRequests := s.ncRequests, scheduledSync := s.scheduledSync } : DbState) ev = (({ events := nmapInsert ev.id ev s.events, deleted := s.deleted, sharedKeys := s.sharedKeys, policies := s.policies, proposals := s.proposals, approvals := s.approvals, completedProposals := s.completedProposals, signers := s.signers, mySharedSigners := s.mySharedSigners, sharedSigners := s.sharedSigners, pending := pushPending s.pending ev, notifications := s.notifications, contacts := s.contacts, profiles := s.profiles, sessions := s.sessions, ncRequests := s.ncRequests, scheduledSync := s.scheduledSync } : DbState), none) := by
                simp [handle_event, hdel, hk, hla, he, hg, hsk, saveEvent_events, saveEvent_deleted, saveEvent_sharedKeys, saveEvent_policies, saveEvent_proposals, saveEvent_approvals, saveEvent_completedProposals, saveEvent_signers, saveEvent_mySharedSigners, saveEvent_sharedSigners, saveEvent_pending, saveEvent_notifications, saveEvent_contacts, saveEvent_profiles, saveEvent_sessions, saveEvent_ncRequests, saveEvent_scheduledSync, nmapInsert_overwrite, nmapLookup_insert_self, pushPending_idem, nmapErase_idem, nsetInsert_idem, nmapLookup_erase_self, hsv]
              refine ⟨?_, Or.inl ?_⟩ <;> simp [h1, h2]
            · rcases hdk : env.decryptApproved sk ev.content with _ | ap
              ·
                have h1 : handle_event env s ev = (saveEvent ev s, none) := by
                  simp [handle_event, hdel, hk, hla, he, hg, hsk, hdk, saveEvent_events, saveEvent_deleted, saveEvent_sharedKeys, saveEvent_policies, saveEvent_proposals, saveEvent_approvals, saveEvent_completedProposals, saveEvent_signers, saveEvent_mySharedSigners, saveEvent_sharedSigners, saveEvent_pending, saveEvent_notifications, saveEvent_contacts, saveEvent_profiles, saveEvent_sessions, saveEvent_ncRequests, saveEvent_scheduledSync]
                have h2 : handle_event env (saveEvent ev s) ev = (saveEvent ev s, none) := by
                  simp [handle_event, hdel, hk, hla, he, hg, hsk, hdk, saveEvent_events, saveEvent_deleted, saveEvent_sharedKeys, saveEvent_policies, saveEvent_proposals, saveEvent_approvals, saveEvent_completedProposals, saveEvent_signers, saveEvent_mySharedSigners, saveEvent_sharedSigners, saveEvent_pending, saveEvent_notifications, saveEvent_contacts, saveEvent_profiles, saveEvent_sessions, saveEvent_ncRequests, saveEvent_scheduledSync, saveEvent_idem, nmapInsert_overwrite, nmapLookup_insert_self, pushPending_idem, nmapErase_idem, nsetInsert_idem, nmapLookup_erase_self]
                refine ⟨?_, Or.inl ?_⟩ <;> simp [h1, h2]
              ·
                have h1 : handle_event env s ev = (({ events := nmapInsert ev.id ev s.events, deleted := s.deleted, sharedKeys := s.sharedKeys, policies := s.policies, proposals := s.proposals, approvals := nmapInsert ev.id (prid, ev.pubkey, ap, ev.created_at) s.approvals, completedProposals := s.completedProposals, signers := s.signers, mySharedSigners := s.mySharedSigners, sharedSigners := s.sharedSigners, pending := s.pending, notifications := nmapInsert ev.id (Notification.NewApproval prid ev.pubkey) s.notifications, contacts := s.contacts, profiles := s.profiles, sessions := s.sessions, ncRequests := s.ncRequests, scheduledSync := s.scheduledSync } : DbState), some (Notification.NewApproval prid ev.pubkey)) := by
                  simp [handle_event, hdel, hk, hla, he, hg, hsk, hdk, saveEvent_events, saveEvent_deleted, saveEvent_sharedKeys, saveEvent_policies, saveEvent_proposals, saveEvent_approvals, saveEvent_completedProposals, saveEvent_signers, saveEvent_mySharedSigners, saveEvent_sharedSigners, saveEvent_pending, saveEvent_notifications, saveEvent_contacts, saveEvent_profiles, saveEvent_sessions, saveEvent_ncRequests, saveEvent_scheduledSync]
                have hsv : saveEvent ev ({ events := nmapInsert ev.id ev s.events, deleted := s.deleted, sharedKeys := s.sharedKeys, policies := s.policies, proposals := s.proposals, approvals := nmapInsert ev.id (prid, ev.pubkey, ap, ev.created_at) s.approvals, completedProposals := s.completedProposals, signers := s.signers, mySharedSigners := s.mySharedSigners, sharedSigners := s.sharedSigners, pending := s.pending, notifications := nmapInsert ev.id (Notification.NewApproval prid ev.pubkey) s.notifications, contacts := s.contacts, profiles := s.profiles, sessions := s.sessions, ncRequests := s.ncRequests, scheduledSync := s.scheduledSync } : DbState) = ({ events := nmapInsert ev.id ev s.events, deleted := s.deleted, sharedKeys := s.sharedKeys, policies := s.policies, proposals := s.proposals, approvals := nmapInsert ev.id (prid, ev.pubkey, ap, ev.created_at) s.approvals, completedProposals := s.completedProposals, signers := s.signers, mySharedSigners := s.mySharedSigners, sharedSigners := s.sharedSigners, pending := s.pending, notifications := nmapInsert ev.id (Notification.NewApproval prid ev.pubkey) s.notifications, contacts := s.contacts, profiles := s.profiles, sessions := s.sessions, ncRequests := s.ncRequests, scheduledSync := s.scheduledSync } : DbState) := by
                  apply saveEvent_saved
                  simp [nmapInsert_overwrite]
                have h2 : handle_event env ({ events := nmapInsert ev.id ev s.events, deleted := s.deleted, sharedKeys := s.sharedKeys, policies := s.policies, proposals := s.proposals, approvals := nmapInsert ev.id (prid, ev.pubkey, ap, ev.created_at) s.approvals, completedProposals := s.completedProposals, signers := s.signers, mySharedSigners := s.mySharedSigners, sharedSigners := s.sharedSigners, pending := s.pending, notifications := nmapInsert ev.id (Notification.NewApproval prid ev.pubkey) s.notifications, contacts := s.contacts, profiles := s.profiles, sessions := s.sessions, ncRequests := s.ncRequests, scheduledSync := s.scheduledSync } : DbState) ev = (({ events := nmapInsert ev.id ev s.events, deleted := s.deleted, sharedKeys := s.sharedKeys, policies := s.policies, proposals := s.proposals, approvals := nmapInsert ev.id (prid, ev.pubkey, ap, ev.created_at) s.approvals, completedProposals := s.completedProposals, signers := s.signers, mySharedSigners := s.mySharedSigners, sharedSigners := s.sharedSigners, pending := s.pending, notifications := nmapInsert ev.id (Notification.NewApproval prid ev.pubkey) s.notifications, contacts := s.contacts, profiles := s.profiles, sessions := s.sessions, ncRequests := s.ncRequests, scheduledSync := s.scheduledSync } : DbState), none) := by
                  simp [handle_event, hdel, hk, hla, he, hg, hsk, hdk, saveEvent_events, saveEvent_deleted, saveEvent_sharedKeys, saveEvent_policies, saveEvent_proposals, saveEvent_approvals, saveEvent_completedProposals, saveEvent_signers, saveEvent_mySharedSigners, saveEvent_sharedSigners, saveEvent_pending, saveEvent_notifications, saveEvent_contacts, saveEvent_profiles, saveEvent_sessions, saveEvent_ncRequests, saveEvent_scheduledSync, nmapInsert_overwrite, nmapLookup_insert_self, pushPending_idem, nmapErase_idem, nsetInsert_idem, nmapLookup_erase_self, hsv]
                refine ⟨?_, Or.inl ?_⟩ <;> simp [h1, h2]
    | completedProposal =>
      by_cases hlc : (nmapLookup ev.id s.completedProposals).isSome
      ·
        have h1 : handle_event env s ev = (saveEvent ev s, none) := by
          simp [handle_event, hdel, hk, hlc, saveEvent_events, saveEvent_deleted, saveEvent_sharedKeys, saveEvent_policies, saveEvent_proposals, saveEvent_approvals, saveEvent_completedProposals, saveEvent_signers, saveEvent_mySharedSigners, saveEvent_sharedSigners, saveEvent_pending, saveEvent_notifications, saveEvent_contacts, saveEvent_profiles, saveEvent_sessions, saveEvent_ncRequests, saveEvent_scheduledSync]
        have h2 : handle_event env (saveEvent ev s) ev = (saveEvent ev s, none) := by
          simp [handle_event, hdel, hk, hlc, saveEvent_events, saveEvent_deleted, saveEvent_sharedKeys, saveEvent_policies, saveEvent_proposals, saveEvent_approvals, saveEvent_completedProposals, saveEvent_signers, saveEvent_mySharedSigners, saveEvent_sharedSigners, saveEvent_pending, saveEvent_notifications, saveEvent_contacts, saveEvent_profiles, saveEvent_sessions, saveEvent_ncRequests, saveEvent_scheduledSync, saveEvent_idem, nmapInsert_overwrite, nmapLookup_insert_self, pushPending_idem, nmapErase_idem, nsetInsert_idem, nmapLookup_erase_self]
        refine ⟨?_, Or.inl ?_⟩ <;> simp [h1, h2]
      · rcases he : extract_first_event_id ev with _ | prid
        ·
          have h1 : handle_event env s ev = (saveEvent ev s, none) := by
            simp [handle_event, hdel, hk, hlc, he, saveEvent_events, saveEvent_deleted, saveEvent_sharedKeys, saveEvent_policies, saveEvent_proposals, saveEvent_approvals, saveEvent_completedProposals, saveEvent_signers, saveEvent_mySharedSigners, saveEvent_sharedSigners, saveEvent_pending, saveEvent_notifications, saveEvent_contacts, saveEvent_profiles, saveEvent_sessions, saveEvent_ncRequests, saveEvent_scheduledSync]
          have h2 : handle_event env (saveEvent ev s) ev = (saveEvent ev s, none) := by
            simp [handle_event, hdel, hk, hlc, he, saveEvent_events, saveEvent_deleted, saveEvent_sharedKeys, saveEvent_policies, saveEvent_proposals, saveEvent_approvals, saveEvent_completedProposals, saveEvent_signers, saveEvent_mySharedSigners, saveEvent_sharedSigners, saveEvent_pending, saveEvent_notifications, saveEvent_contacts, saveEvent_profiles, saveEvent_sessions, saveEvent_ncRequests, saveEvent_scheduledSync, saveEvent_idem, nmapInsert_overwrite, nmapLookup_insert_self, pushPending_idem, nmapErase_idem, nsetInsert_idem, nmapLookup_erase_self]
          refine ⟨?_, Or.inl ?_⟩ <;> simp [h1, h2]
        · rcases hg : (eventTagIds ev)[1]? with _ | polid
          ·
            have h1 : handle_event env s ev = (({ events := nmapInsert ev.id ev s.events, deleted := s.deleted, sharedKeys := s.sharedKeys, policies := s.policies, proposals := nmapErase prid s.proposals, approvals := s.approvals, completedProposals := s.completedProposals, signers := s.signers, mySharedSigners := s.mySharedSigners, sharedSigners := s.sharedSigners, pending := s.pending, notifications := s.notifications, contacts := s.contacts, profiles := s.profiles, sessions := s.sessions, ncRequests := s.ncRequests, scheduledSync := s.scheduledSync } : DbState), none) := by
              simp [handle_event, hdel, hk, hlc, he, hg, saveEvent_events, saveEvent_deleted, saveEvent_sharedKeys, saveEvent_policies, saveEvent_proposals, saveEvent_approvals, saveEvent_completedProposals, saveEvent_signers, saveEvent_mySharedSigners, saveEvent_sharedSigners, saveEvent_pending, saveEvent_notifications, saveEvent_contacts, saveEvent_profiles, saveEvent_sessions, saveEvent_ncRequests, saveEvent_scheduledSync]
            have hsv : saveEvent ev ({ events := nmapInsert ev.id ev s.events, deleted := s.deleted, sharedKeys := s.sharedKeys, policies := s.policies, proposals := nmapErase prid s.proposals, approvals := s.approvals, completedProposals := s.completedProposals, signers := s.signers, mySharedSigners := s.mySharedSigners, sharedSigners := s.sharedSigners, pending := s.pending, notifications := s.notifications, contacts := s.contacts, profiles := s.profiles, sessions := s.sessions, ncRequests := s.ncRequests, scheduledSync := s.scheduledSync } : DbState) = ({ events := nmapInsert ev.id ev s.events, deleted := s.deleted, sharedKeys := s.sharedKeys, policies := s.policies, proposals := nmapErase prid s.proposals, approvals := s.approvals, completedProposals := s.completedProposals, signers := s.signers, mySharedSigners := s.mySharedSigners, sharedSigners := s.sharedSigners, pending := s.pending, notifications := s.notifications, contacts := s.contacts, profiles := s.profiles, sessions := s.sessions, ncRequests := s.ncRequests, scheduledSync := s.scheduledSync } : DbState) := by
              apply saveEvent_saved
              simp [nmapInsert_overwrite]
            have h2 : handle_event env ({ events := nmapInsert ev.id ev s.events, deleted := s.deleted, sharedKeys := s.sharedKeys, policies := s.policies, proposals := nmapErase prid s.proposals, approvals := s.approvals, completedProposals := s.completedProposals, signers := s.signers, mySharedSigners := s.mySharedSigners, sharedSigners := s.sharedSigners, pending := s.pending, notifications := s.notifications, contacts := s.contacts, profiles := s.profiles, sessions := s.sessions, ncRequests := s.ncRequests, scheduledSync := s.scheduledSync } : DbState) ev = (({ events := nmapInsert ev.id ev s.events, deleted := s.deleted, sharedKeys := s.sharedKeys, policies := s.policies, proposals := nmapErase prid s.proposals, approvals := s.approvals, completedProposals := s.completedProposals, signers := s.signers, mySharedSigners := s.mySharedSigners, sharedSigners := s.sharedSigners, pending := s.pending, notifications := s.notifications, contacts := s.contacts, profiles := s.profiles, sessions := s.sessions, ncRequests := s.ncRequests, scheduledSync := s.scheduledSync } : DbState), none) := by
              simp [handle_event, hdel, hk, hlc, he, hg, saveEvent_events, saveEvent_deleted, saveEvent_sharedKeys, saveEvent_policies, saveEvent_proposals, saveEvent_approvals, saveEvent_completedProposals, saveEvent_signers, saveEvent_mySharedSigners, saveEvent_sharedSigners, saveEvent_pending, saveEvent_notifications, saveEvent_contacts, saveEvent_profiles, saveEvent_sessions, saveEvent_ncRequests, saveEvent_scheduledSync, nmapInsert_overwrite, nmapLookup_insert_self, pushPending_idem, nmapErase_idem, nsetInsert_idem, nmapLookup_erase_self, hsv]
            refine ⟨?_, Or.inl ?_⟩ <;> simp [h1, h2]
          · by_cases ht : env.now ≤ ev.created_at + 600
            · rcases hsk : nmapLookup polid s.sharedKeys with _ | sk
              ·
                have h1 : handle_event env s ev = (({ events := nmapInsert ev.id ev s.events, deleted := s.deleted, sharedKeys := s.sharedKeys, policies := s.policies, proposals := nmapErase prid s.proposals, approvals := s.approvals, completedProposals := s.completedProposals, signers := s.signers, mySharedSigners := s.mySharedSigners, sharedSigners := s.sharedSigners, pending := pushPending s.pending ev, notifications := s.notifications, contacts := s.contacts, profiles := s.profiles, sessions := s.sessions, ncRequests := s.ncRequests, scheduledSync := nsetInsert polid s.scheduledSync } : DbState), none) := by
                  simp [handle_event, hdel, hk, hlc, he, hg, ht, hsk, saveEvent_events, saveEvent_deleted, saveEvent_sharedKeys, saveEvent_policies, saveEvent_proposals, saveEvent_approvals, saveEvent_completedProposals, saveEvent_signers, saveEvent_mySharedSigners, saveEvent_sharedSigners, saveEvent_pending, saveEvent_notifications, saveEvent_contacts, saveEvent_profiles, saveEvent_sessions, saveEvent_ncRequests, saveEvent_scheduledSync]
                have hsv : saveEvent ev ({ events := nmapInsert ev.id ev s.events, deleted := s.deleted, sharedKeys := s.sharedKeys, policies := s.policies, proposals := nmapErase prid s.proposals, approvals := s.approvals, completedProposals := s.completedProposals, signers := s.signers, mySharedSigners := s.mySharedSigners, sharedSigners := s.sharedSigners, pending := pushPending s.pending ev, notifications := s.notifications, contacts := s.contacts, profiles := s.profiles, sessions := s.sessions, ncRequests := s.ncRequests, scheduledSync := nsetInsert polid s.scheduledSync } : DbState) = ({ events := nmapInsert ev.id ev s.events, deleted := s.deleted, sharedKeys := s.sharedKeys, policies := s.policies, proposals := nmapErase prid s.proposals, approvals := s.approvals, completedProposals := s.completedProposals, signers := s.signers, mySharedSigners := s.mySharedSigners, sharedSigners := s.sharedSigners, pending := pushPending s.pending ev, notifications := s.notifications, contacts := s.contacts, profiles := s.profiles, sessions := s.sessions, ncRequests := s.ncRequests, scheduledSync := nsetInsert polid s.scheduledSync } : DbState) := by
                  apply saveEvent_saved
                  simp [nmapInsert_overwrite]
                have h2 : handle_event env ({ events := nmapInsert ev.id ev s.events, deleted := s.deleted, sharedKeys := s.sharedKeys, policies := s.policies, proposals := nmapErase prid s.proposals, approvals := s.approvals, completedProposals := s.completedProposals, signers := s.signers, mySharedSigners := s.mySharedSigners, sharedSigners := s.sharedSigners, pending := pushPending s.pending ev, notifications := s.notifications, contacts := s.contacts, profiles := s.profiles, sessions := s.sessions, ncRequests := s.ncRequests, scheduledSync := nsetInsert polid s.scheduledSync } : DbState) ev = (({ events := nmapInsert ev.id ev s.events, deleted := s.deleted, sharedKeys := s.sharedKeys, policies := s.policies, proposals := nmapErase prid s.proposals, approvals := s.approvals, completedProposals := s.completedProposals, signers := s.signers, mySharedSigners := s.mySharedSigners, sharedSigners := s.sharedSigners, pending := pushPending s.pending ev, notifications := s.notifications, contacts := s.contacts, profiles := s.profiles, sessions := s.sessions, ncRequests := s.ncRequests, scheduledSync := nsetInsert polid s.scheduledSync } : DbState), none) := by
                  simp [handle_event, hdel, hk, hlc, he, hg, ht, hsk, saveEvent_events, saveEvent_deleted, saveEvent_sharedKeys, saveEvent_policies, saveEvent_proposals, saveEvent_approvals, saveEvent_completedProposals, saveEvent_signers, saveEvent_mySharedSigners, saveEvent_sharedSigners, saveEvent_pending, saveEvent_notifications, saveEvent_contacts, saveEvent_profiles, saveEvent_sessions, saveEvent_ncRequests, saveEvent_scheduledSync, nmapInsert_overwrite, nmapLookup_insert_self, pushPending_idem, nmapErase_idem, nsetInsert_idem, nmapLookup_erase_self, hsv]
                refine ⟨?_, Or.inl ?_⟩ <;> simp [h1, h2]
              · rcases hdk : env.decryptCompleted sk ev.content with _ | cp
                ·
                  have h1 : handle_event env s ev = (({ events := nmapInsert ev.id ev s.events, deleted := s.deleted, sharedKeys := s.sharedKeys, policies := s.policies, proposals := nmapErase prid s.proposals, approvals := s.approvals, completedProposals := s.completedProposals, signers := s.signers, mySharedSigners := s.mySharedSigners, sharedSigners := s.sharedSigners, pending := s.pending, notifications := s.notifications, contacts := s.contacts, profiles := s.profiles, sessions := s.sessions, ncRequests := s.ncRequests, scheduledSync := nsetInsert polid s.scheduledSync } : DbState), none) := by
                    simp [handle_event, hdel, hk, hlc, he, hg, ht, hsk, hdk, saveEvent_events, saveEvent_deleted, saveEvent_sharedKeys, saveEvent_policies, saveEvent_proposals, saveEvent_approvals, saveEvent_completedProposals, saveEvent_signers, saveEvent_mySharedSigners, saveEvent_sharedSigners, saveEvent_pending, saveEvent_notifications, saveEvent_contacts, saveEvent_profiles, saveEvent_sessions, saveEvent_ncRequests, saveEvent_scheduledSync]
                  have hsv : saveEvent ev ({ events := nmapInsert ev.id ev s.events, deleted := s.deleted, sharedKeys := s.sharedKeys, policies := s.policies, proposals := nmapErase prid s.proposals, approvals := s.approvals, completedProposals := s.completedProposals, signers := s.signers, mySharedSigners := s.mySharedSigners, sharedSigners := s.sharedSigners, pending := s.pending, notifications := s.notifications, contacts := s.contacts, profiles := s.profiles, sessions := s.sessions, ncRequests := s.ncRequests, scheduledSync := nsetInsert polid s.scheduledSync } : DbState) = ({ events := nmapInsert ev.id ev s.events, deleted := s.deleted, sharedKeys := s.sharedKeys, policies := s.policies, proposals := nmapErase prid s.proposals, approvals := s.approvals, completedProposals := s.completedProposals, signers := s.signers, mySharedSigners := s.mySharedSigners, sharedSigners := s.sharedSigners, pending := s.pending, notifications := s.notifications, contacts := s.contacts, profiles := s.profiles, sessions := s.sessions, ncRequests := s.ncRequests, scheduledSync := nsetInsert polid s.scheduledSync } : DbState) := by
                    apply saveEvent_saved
                    simp [nmapInsert_overwrite]
                  have h2 : handle_event env ({ events := nmapInsert ev.id ev s.events, deleted := s.deleted, sharedKeys := s.sharedKeys, policies := s.policies, proposals := nmapErase prid s.proposals, approvals := s.approvals, completedProposals := s.completedProposals, signers := s.signers, mySharedSigners := s.mySharedSigners, sharedSigners := s.sharedSigners, pending := s.pending, notifications := s.notifications, contacts := s.contacts, profiles := s.profiles, sessions := s.sessions, ncRequests := s.ncRequests, scheduledSync := nsetInsert polid s.scheduledSync } : DbState) ev = (({ events := nmapInsert ev.id ev s.events, deleted := s.deleted, sharedKeys := s.sharedKeys, policies := s.policies, proposals := nmapErase prid s.proposals, approvals := s.approvals, completedProposals := s.completedProposals, signers := s.signers, mySharedSigners := s.mySharedSigners, sharedSigners := s.sharedSigners, pending := s.pending, notifications := s.notifications, contacts := s.contacts, profiles := s.profiles, sessions := s.sessions, ncRequests := s.ncRequests, scheduledSync := nsetInsert polid s.scheduledSync } : DbState), none) := by
                    simp [handle_event, hdel, hk, hlc, he, hg, ht, hsk, hdk, saveEvent_events, saveEvent_deleted, saveEvent_sharedKeys, saveEvent_policies, saveEvent_proposals, saveEvent_approvals, saveEvent_completedProposals, saveEvent_signers, saveEvent_mySharedSigners, saveEvent_sharedSigners, saveEvent_pending, saveEvent_notifications, saveEvent_contacts, saveEvent_profiles, saveEvent_sessions, saveEvent_ncRequests, saveEvent_scheduledSync, nmapInsert_overwrite, nmapLookup_insert_self, pushPending_idem, nmapErase_idem, nsetInsert_idem, nmapLookup_erase_self, hsv]
                  refine ⟨?_, Or.inl ?_⟩ <;> simp [h1, h2]
                ·
                  have h1 : handle_event env s ev = (({ events := nmapInsert ev.id ev s.events, deleted := s.deleted, sharedKeys := s.sharedKeys, policies := s.policies, proposals := nmapErase prid s.proposals, approvals := s.approvals, completedProposals := nmapInsert ev.id (polid, cp) s.completedProposals, signers := s.signers, mySharedSigners := s.mySharedSigners, sharedSigners := s.sharedSigners, pending := s.pending, notifications := nmapInsert ev.id (Notification.NewCompletedProposal ev.id) s.notifications, contacts := s.contacts, profiles := s.profiles, sessions := s.sessions, ncRequests := s.ncRequests, scheduledSync := nsetInsert polid s.scheduledSync } : DbState), some (Notification.NewCompletedProposal ev.id)) := by
                    simp [handle_event, hdel, hk, hlc, he, hg, ht, hsk, hdk, saveEvent_events, saveEvent_deleted, saveEvent_sharedKeys, saveEvent_policies, saveEvent_proposals, saveEvent_approvals, saveEvent_completedProposals, saveEvent_signers, saveEvent_mySharedSigners, saveEvent_sharedSigners, saveEvent_pending, saveEvent_notifications, saveEvent_contacts, saveEvent_profiles, saveEvent_sessions, saveEvent_ncRequests, saveEvent_scheduledSync]
                  have hsv : saveEvent ev ({ events := nmapInsert ev.id ev s.events, deleted := s.deleted, sharedKeys := s.sharedKeys, policies := s.policies, proposals := nmapErase prid s.proposals, approvals := s.approvals, completedProposals := nmapInsert ev.id (polid, cp) s.completedProposals, signers := s.signers, mySharedSigners := s.mySharedSigners, sharedSigners := s.sharedSigners, pending := s.pending, notifications := nmapInsert ev.id (Notification.NewCompletedProposal ev.id) s.notifications, contacts := s.contacts, profiles := s.profiles, sessions := s.sessions, ncRequests := s.ncRequests, scheduledSync := nsetInsert polid s.scheduledSync } : DbState) = ({ events := nmapInsert ev.id ev s.events, deleted := s.deleted, sharedKeys := s.sharedKeys, policies := s.policies, proposals := nmapErase prid s.proposals, approvals := s.approvals, completedProposals := nmapInsert ev.id (polid, cp) s.completedProposals, signers := s.signers, mySharedSigners := s.mySharedSigners, sharedSigners := s.sharedSigners, pending := s.pending, notifications := nmapInsert ev.id (Notification.NewCompletedProposal ev.id) s.notifications, contacts := s.contacts, profiles := s.profiles, sessions := s.sessions, ncRequests := s.ncRequests, scheduledSync := nsetInsert polid s.scheduledSync } : DbState) := by
                    apply saveEvent_saved
                    simp [nmapInsert_overwrite]
                  have h2 : handle_event env ({ events := nmapInsert ev.id ev s.events, deleted := s.deleted, sharedKeys := s.sharedKeys, policies := s.policies, proposals := nmapErase prid s.proposals, approvals := s.approvals, completedProposals := nmapInsert ev.id (polid, cp) s.completedProposals, signers := s.signers, mySharedSigners := s.mySharedSigners, sharedSigners := s.sharedSigners, pending := s.pending, notifications := nmapInsert ev.id (Notification.NewCompletedProposal ev.id) s.notifications, contacts := s.contacts, profiles := s.profiles, sessions := s.sessions, ncRequests := s.ncRequests, scheduledSync := nsetInsert polid s.scheduledSync } : DbState) ev = (({ events := nmapInsert ev.id ev s.events, deleted := s.deleted, sharedKeys := s.sharedKeys, policies := s.policies, proposals := nmapErase prid s.proposals, approvals := s.approvals, completedProposals := nmapInsert ev.id (polid, cp) s.completedProposals, signers := s.signers, mySharedSigners := s.mySharedSigners, sharedSigners := s.sharedSigners, pending := s.pending, notifications := nmapInsert ev.id (Notification.NewCompletedProposal ev.id) s.notifications, contacts := s.contacts, profiles := s.profiles, sessions := s.sessions, ncRequests := s.ncRequests, scheduledSync := nsetInsert polid s.scheduledSync } : DbState), none) := by
                    simp [handle_event, hdel, hk, hlc, he, hg, ht, hsk, hdk, saveEvent_events, saveEvent_deleted, saveEvent_sharedKeys, saveEvent_policies, saveEvent_proposals, saveEvent_approvals, saveEvent_completedProposals, saveEvent_signers, saveEvent_mySharedSigners, saveEvent_sharedSigners, saveEvent_pending, saveEvent_notifications, saveEvent_contacts, saveEvent_profiles, saveEvent_sessions, saveEvent_ncRequests, saveEvent_scheduledSync, nmapInsert_overwrite, nmapLookup_insert_self, pushPending_idem, nmapErase_idem, nsetInsert_idem, nmapLookup_erase_self, hsv]
                  refine ⟨?_, Or.inl ?_⟩ <;> simp [h1, h2]
            · rcases hsk : nmapLookup polid s.sharedKeys with _ | sk
              ·
                have h1 : handle_event env s ev = (({ events := nmapInsert ev.id ev s.events, deleted := s.deleted, sharedKeys := s.sharedKeys, policies := s.policies, proposals := nmapErase prid s.proposals, approvals := s.approvals, completedProposals := s.completedProposals, signers := s.signers, mySharedSigners := s.mySharedSigners, sharedSigners := s.sharedSigners, pending := pushPending s.pending ev, notifications := s.notifications, contacts := s.contacts, profiles := s.profiles, sessions := s.sessions, ncRequests := s.ncRequests, scheduledSync := s.scheduledSync } : DbState), none) := by
                  simp [handle_event, hdel, hk, hlc, he, hg, ht, hsk, saveEvent_events, saveEvent_deleted, saveEvent_sharedKeys, saveEvent_policies, saveEvent_proposals, saveEvent_approvals, saveEvent_completedProposals, saveEvent_signers, saveEvent_mySharedSigners, saveEvent_sharedSigners, saveEvent_pending, saveEvent_notifications, saveEvent_contacts, saveEvent_profiles, saveEvent_sessions, saveEvent_ncRequests, saveEvent_scheduledSync]
                have hsv : saveEvent ev ({ events := nmapInsert ev.id ev s.events, deleted := s.deleted, sharedKeys := s.sharedKeys, policies := s.policies, proposals := nmapErase prid s.proposals, approvals := s.approvals, completedProposals := s.completedProposals, signers := s.signers, mySharedSigners := s.mySharedSigners, sharedSigners := s.sharedSigners, pending := pushPending s.pending ev, notifications := s.notifications, contacts := s.contacts, profiles := s.profiles, sessions := s.sessions, ncRequests := s.ncRequests, scheduledSync := s.scheduledSync } : DbState) = ({ events := nmapInsert ev.id ev s.events, deleted := s.deleted, sharedKeys := s.sharedKeys, policies := s.policies, proposals := nmapErase prid s.proposals, approvals := s.approvals, completedProposals := s.completedProposals, signers := s.signers, mySharedSigners := s.mySharedSigners, sharedSigners := s.sharedSigners, pending := pushPending s.pending ev, notifications := s.notifications, contacts := s.contacts, profiles := s.profiles, sessions := s.sessions, ncRequests := s.ncRequests, scheduledSync := s.scheduledSync } : DbState) := by
                  apply saveEvent_saved
                  simp [nmapInsert_overwrite]
                have h2 : handle_event env ({ events := nmapInsert ev.id ev s.events, deleted := s.deleted, sharedKeys := s.sharedKeys, policies := s.policies, proposals := nmapErase prid s.proposals, approvals := s.approvals, completedProposals := s.completedProposals, signers := s.signers, mySharedSigners := s.mySharedSigners, sharedSigners := s.sharedSigners, pending := pushPending s.pending ev, notifications := s.notifications, contacts := s.contacts, profiles := s.profiles, sessions := s.sessions, ncRequests := s.ncRequests, scheduledSync := s.scheduledSync } : DbState) ev = (({ events := nmapInsert ev.id ev s.events, deleted := s.deleted, sharedKeys := s.sharedKeys, policies := s.policies, proposals := nmapErase prid s.proposals, approvals := s.approvals, completedProposals := s.completedProposals, signers := s.signers, mySharedSigners := s.mySharedSigners, sharedSigners := s.sharedSigners, pending := pushPending s.pending ev, notifications := s.notifications, contacts := s.contacts, profiles := s.profiles, sessions := s.sessions, ncRequests := s.ncRequests, scheduledSync := s.scheduledSync } : DbState), none) := by
                  simp [handle_event, hdel, hk, hlc, he, hg, ht, hsk, saveEvent_events, saveEvent_deleted, saveEvent_sharedKeys, saveEvent_policies, saveEvent_proposals, saveEvent_approvals, saveEvent_completedProposals, saveEvent_signers, saveEvent_mySharedSigners, saveEvent_sharedSigners, saveEvent_pending, saveEvent_notifications, saveEvent_contacts, saveEvent_profiles, saveEvent_sessions, saveEvent_ncRequests, saveEvent_scheduledSync, nmapInsert_overwrite, nmapLookup_insert_self, pushPending_idem, nmapErase_idem, nsetInsert_idem, nmapLookup_erase_self, hsv]
                refine ⟨?_, Or.inl ?_⟩ <;> simp [h1, h2]
              · rcases hdk : env.decryptCompleted sk ev.content with _ | cp
                ·
                  have h1 : handle_event env s ev = (({ events := nmapInsert ev.id ev s.events, deleted := s.deleted, sharedKeys := s.sharedKeys, policies := s.policies, proposals := nmapErase prid s.proposals, approvals := s.approvals, completedProposals := s.completedProposals, signers := s.signers, mySharedSigners := s.mySharedSigners, sharedSigners := s.sharedSigners, pending := s.pending, notifications := s.notifications, contacts := s.contacts, profiles := s.profiles, sessions := s.sessions, ncRequests := s.ncRequests, scheduledSync := s.scheduledSync } : DbState), none) := by
                    simp [handle_event, hdel, hk, hlc, he, hg, ht, hsk, hdk, saveEvent_events, saveEvent_deleted, saveEvent_sharedKeys, saveEvent_policies, saveEvent_proposals, saveEvent_approvals, saveEvent_completedProposals, saveEvent_signers, saveEvent_mySharedSigners, saveEvent_sharedSigners, saveEvent_pending, saveEvent_notifications, saveEvent_contacts, saveEvent_profiles, saveEvent_sessions, saveEvent_ncRequests, saveEvent_scheduledSync]
                  have hsv : saveEvent ev ({ events := nmapInsert ev.id ev s.events, deleted := s.deleted, sharedKeys := s.sharedKeys, policies := s.policies, proposals := nmapErase prid s.proposals, approvals := s.approvals, completedProposals := s.completedProposals, signers := s.signers, mySharedSigners := s.mySharedSigners, sharedSigners := s.sharedSigners, pending := s.pending, notifications := s.notifications, contacts := s.contacts, profiles := s.profiles, sessions := s.sessions, ncRequests := s.ncRequests, scheduledSync := s.scheduledSync } : DbState) = ({ events := nmapInsert ev.id ev s.events, deleted := s.deleted, sharedKeys := s.sharedKeys, policies := s.policies, proposals := nmapErase prid s.proposals, approvals := s.approvals, completedProposals := s.completedProposals, signers := s.signers, mySharedSigners := s.mySharedSigners, sharedSigners := s.sharedSigners, pending := s.pending, notifications := s.notifications, contacts := s.contacts, profiles := s.profiles, sessions := s.sessions, ncRequests := s.ncRequests, scheduledSync := s.scheduledSync } : DbState) := by
                    apply saveEvent_saved
                    simp [nmapInsert_overwrite]
                  have h2 : handle_event env ({ events := nmapInsert ev.id ev s.events, deleted := s.deleted, sharedKeys := s.sharedKeys, policies := s.policies, proposals := nmapErase prid s.proposals, approvals := s.approvals, completedProposals := s.completedProposals, signers := s.signers, mySharedSigners := s.mySharedSigners, sharedSigners := s.sharedSigners, pending := s.pending, notifications := s.notifications, contacts := s.contacts, profiles := s.profiles, sessions := s.sessions, ncRequests := s.ncRequests, scheduledSync := s.scheduledSync } : DbState) ev = (({ events := nmapInsert ev.id ev s.events, deleted := s.deleted, sharedKeys := s.sharedKeys, policies := s.policies, proposals := nmapErase prid s.proposals, approvals := s.approvals, completedProposals := s.completedProposals, signers := s.signers, mySharedSigners := s.mySharedSigners, sharedSigners := s.sharedSigners, pending := s.pending, notifications := s.notifications, contacts := s.contacts, profiles := s.profiles, sessions := s.sessions, ncRequests := s.ncRequests, scheduledSync := s.scheduledSync } : DbState), none) := by
                    simp [handle_event, hdel, hk, hlc, he, hg, ht, hsk, hdk, saveEvent_events, saveEvent_deleted, saveEvent_sharedKeys, saveEvent_policies, saveEvent_proposals, saveEvent_approvals, saveEvent_completedProposals, saveEvent_signers, saveEvent_mySharedSigners, saveEvent_sharedSigners, saveEvent_pending, saveEvent_notifications, saveEvent_contacts, saveEvent_profiles, saveEvent_sessions, saveEvent_ncRequests, saveEvent_scheduledSync, nmapInsert_overwrite, nmapLookup_insert_self, pushPending_idem, nmapErase_idem, nsetInsert_idem, nmapLookup_erase_self, hsv]
                  refine ⟨?_, Or.inl ?_⟩ <;> simp [h1, h2]
                ·
                  have h1 : handle_event env s ev = (({ events := nmapInsert ev.id ev s.events, deleted := s.deleted, sharedKeys := s.sharedKeys, policies := s.policies, proposals := nmapErase prid s.proposals, approvals := s.approvals, completedProposals := nmapInsert ev.id (polid, cp) s.completedProposals, signers := s.signers, mySharedSigners := s.mySharedSigners, sharedSigners := s.sharedSigners, pending := s.pending, notifications := nmapInsert ev.id (Notification.NewCompletedProposal ev.id) s.notifications, contacts := s.contacts, profiles := s.profiles, sessions := s.sessions, ncRequests := s.ncRequests, scheduledSync := s.scheduledSync } : DbState), some (Notification.NewCompletedProposal ev.id)) := by
                    simp [handle_event, hdel, hk, hlc, he, hg, ht, hsk, hdk, saveEvent_events, saveEvent_deleted, saveEvent_sharedKeys, saveEvent_policies, saveEvent_proposals, saveEvent_approvals, saveEvent_completedProposals, saveEvent_signers, saveEvent_mySharedSigners, saveEvent_sharedSigners, saveEvent_pending, saveEvent_notifications, saveEvent_contacts, saveEvent_profiles, saveEvent_sessions, saveEvent_ncRequests, saveEvent_scheduledSync]
                  have hsv : saveEvent ev ({ events := nmapInsert ev.id ev s.events, deleted := s.deleted, sharedKeys := s.sharedKeys, policies := s.policies, proposals := nmapErase prid s.proposals, approvals := s.approvals, completedProposals := nmapInsert ev.id (polid, cp) s.completedProposals, signers := s.signers, mySharedSigners := s.mySharedSigners, sharedSigners := s.sharedSigners, pending := s.pending, notifications := nmapInsert ev.id (Notification.NewCompletedProposal ev.id) s.notifications, contacts := s.contacts, profiles := s.profiles, sessions := s.sessions, ncRequests := s.ncRequests, scheduledSync := s.scheduledSync } : DbState) = ({ events := nmapInsert ev.id ev s.events, deleted := s.deleted, sharedKeys := s.sharedKeys, policies := s.policies, proposals := nmapErase prid s.proposals, approvals := s.approvals, completedProposals := nmapInsert ev.id (polid, cp) s.completedProposals, signers := s.signers, mySharedSigners := s.mySharedSigners, sharedSigners := s.sharedSigners, pending := s.pending, notifications := nmapInsert ev.id (Notification.NewCompletedProposal ev.id) s.notifications, contacts := s.contacts, profiles := s.profiles, sessions := s.sessions, ncRequests := s.ncRequests, scheduledSync := s.scheduledSync } : DbState) := by
                    apply saveEvent_saved
                    simp [nmapInsert_overwrite]
                  have h2 : handle_event env ({ events := nmapInsert ev.id ev s.events, deleted := s.deleted, sharedKeys := s.sharedKeys, policies := s.policies, proposals := nmapErase prid s.proposals, approvals := s.approvals, completedProposals := nmapInsert ev.id (polid, cp) s.completedProposals, signers := s.signers, mySharedSigners := s.mySharedSigners, sharedSigners := s.sharedSigners, pending := s.pending, notifications := nmapInsert ev.id (Notification.NewCompletedProposal ev.id) s.notifications, contacts := s.contacts, profiles := s.profiles, sessions := s.sessions, ncRequests := s.ncRequests, scheduledSync := s.scheduledSync } : DbState) ev = (({ events := nmapInsert ev.id ev s.events, deleted := s.deleted, sharedKeys := s.sharedKeys, policies := s.policies, proposals := nmapErase prid s.proposals, approvals := s.approvals, completedProposals := nmapInsert ev.id (polid, cp) s.completedProposals, signers := s.signers, mySharedSigners := s.mySharedSigners, sharedSigners := s.sharedSigners, pending := s.pending, notifications := nmapInsert ev.id (Notification.NewCompletedProposal ev.id) s.notifications, contacts := s.contacts, profiles := s.profiles, sessions := s.sessions, ncRequests := s.ncRequests, scheduledSync := s.scheduledSync } : DbState), none) := by
                    simp [handle_event, hdel, hk, hlc, he, hg, ht, hsk, hdk, saveEvent_events, saveEvent_deleted, saveEvent_sharedKeys, saveEvent_policies, saveEvent_proposals, saveEvent_approvals, saveEvent_completedProposals, saveEvent_signers, saveEvent_mySharedSigners, saveEvent_sharedSigners, saveEvent_pending, saveEvent_notifications, saveEvent_contacts, saveEvent_profiles, saveEvent_sessions, saveEvent_ncRequests, saveEvent_scheduledSync, nmapInsert_overwrite, nmapLookup_insert_self, pushPending_idem, nmapErase_idem, nsetInsert_idem, nmapLookup_erase_self, hsv]
                  refine ⟨?_, Or.inl ?_⟩ <;> simp [h1, h2]
    | signers =>
      rcases hsg : env.decryptSigner ev.content with _ | sg
      ·
        have h1 : handle_event env s ev = (saveEvent ev s, none) := by
          simp [handle_event, hdel, hk, hsg, saveEvent_events, saveEvent_deleted, saveEvent_sharedKeys, saveEvent_policies, saveEvent_proposals, saveEvent_approvals, saveEvent_completedProposals, saveEvent_signers, saveEvent_mySharedSigners, saveEvent_sharedSigners, saveEvent_pending, saveEvent_notifications, saveEvent_contacts, saveEvent_profiles, saveEvent_sessions, saveEvent_ncRequests, saveEvent_scheduledSync]
        have h2 : handle_event env (saveEvent ev s) ev = (saveEvent ev s, none) := by
          simp [handle_event, hdel, hk, hsg, saveEvent_events, saveEvent_deleted, saveEvent_sharedKeys, saveEvent_policies, saveEvent_proposals, saveEvent_approvals, saveEvent_completedProposals, saveEvent_signers, saveEvent_mySharedSigners, saveEvent_sharedSigners, saveEvent_pending, saveEvent_notifications, saveEvent_contacts, saveEvent_profiles, saveEvent_sessions, saveEvent_ncRequests, saveEvent_scheduledSync, saveEvent_idem, nmapInsert_overwrite, nmapLookup_insert_self, pushPending_idem, nmapErase_idem, nsetInsert_idem, nmapLookup_erase_self]
        refine ⟨?_, Or.inl ?_⟩ <;> simp [h1, h2]
      ·
        have h1 : handle_event env s ev = (({ events := nmapInsert ev.id ev s.events, deleted := s.deleted, sharedKeys := s.sharedKeys, policies := s.policies, proposals := s.proposals, approvals := s.approvals, completedProposals := s.completedProposals, signers := nmapInsert ev.id sg s.signers, mySharedSigners := s.mySharedSigners, sharedSigners := s.sharedSigners, pending := s.pending, notifications := s.notifications, contacts := s.contacts, profiles := s.profiles, sessions := s.sessions, ncRequests := s.ncRequests, scheduledSync := s.scheduledSync } : DbState), none) := by
          simp [handle_event, hdel, hk, hsg, saveEvent_events, saveEvent_deleted, saveEvent_sharedKeys, saveEvent_policies, saveEvent_proposals, saveEvent_approvals, saveEvent_completedProposals, saveEvent_signers, saveEvent_mySharedSigners, saveEvent_sharedSigners, saveEvent_pending, saveEvent_notifications, saveEvent_contacts, saveEvent_profiles, saveEvent_sessions, saveEvent_ncRequests, saveEvent_scheduledSync]
        have hsv : saveEvent ev ({ events := nmapInsert ev.id ev s.events, deleted := s.deleted, sharedKeys := s.sharedKeys, policies := s.policies, proposals := s.proposals, approvals := s.approvals, completedProposals := s.completedProposals, signers := nmapInsert ev.id sg s.signers, mySharedSigners := s.mySharedSigners, sharedSigners := s.sharedSigners, pending := s.pending, notifications := s.notifications, contacts := s.contacts, profiles := s.profiles, sessions := s.sessions, ncRequests := s.ncRequests, scheduledSync := s.scheduledSync } : DbState) = ({ events := nmapInsert ev.id ev s.events, deleted := s.deleted, sharedKeys := s.sharedKeys, policies := s.policies, proposals := s.proposals, approvals := s.approvals, completedProposals := s.completedProposals, signers := nmapInsert ev.id sg s.signers, mySharedSigners := s.mySharedSigners, sharedSigners := s.sharedSigners, pending := s.pending, notifications := s.notifications, contacts := s.contacts, profiles := s.profiles, sessions := s.sessions, ncRequests := s.ncRequests, scheduledSync := s.scheduledSync } : DbState) := by
          apply saveEvent_saved
          simp [nmapInsert_overwrite]
        have h2 : handle_event env ({ events := nmapInsert ev.id ev s.events, deleted := s.deleted, sharedKeys := s.sharedKeys, policies := s.policies, proposals := s.proposals, approvals := s.approvals, completedProposals := s.completedProposals, signers := nmapInsert ev.id sg s.signers, mySharedSigners := s.mySharedSigners, sharedSigners := s.sharedSigners, pending := s.pending, notifications := s.notifications, contacts := s.contacts, profiles := s.profiles, sessions := s.sessions, ncRequests := s.ncRequests, scheduledSync := s.scheduledSync } : DbState) ev = (({ events := nmapInsert ev.id ev s.events, deleted := s.deleted, sharedKeys := s.sharedKeys, policies := s.policies, proposals := s.proposals, approvals := s.approvals, completedProposals := s.completedProposals, signers := nmapInsert ev.id sg s.signers, mySharedSigners := s.mySharedSigners, sharedSigners := s.sharedSigners, pending := s.pending, notifications := s.notifications, contacts := s.contacts, profiles := s.profiles, sessions := s.sessions, ncRequests := s.ncRequests, scheduledSync := s.scheduledSync } : DbState), none) := by
          simp [handle_event, hdel, hk, hsg, saveEvent_events, saveEvent_deleted, saveEvent_sharedKeys, saveEvent_policies, saveEvent_proposals, saveEvent_approvals, saveEvent_completedProposals, saveEvent_signers, saveEvent_mySharedSigners, saveEvent_sharedSigners, saveEvent_pending, saveEvent_notifications, saveEvent_contacts, saveEvent_profiles, saveEvent_sessions, saveEvent_ncRequests, saveEvent_scheduledSync, nmapInsert_overwrite, nmapLookup_insert_self, pushPending_idem, nmapErase_idem, nsetInsert_idem, nmapLookup_erase_self, hsv]
        refine ⟨?_, Or.inl ?_⟩ <;> simp [h1, h2]
    | sharedSigners =>
      rcases hp : extract_first_public_key ev with _ | pubk
      ·
        have h1 : handle_event env s ev = (saveEvent ev s, none) := by
          simp [handle_event, hdel, hk, hp, saveEvent_events, saveEvent_deleted, saveEvent_sharedKeys, saveEvent_policies, saveEvent_proposals, saveEvent_approvals, saveEvent_completedProposals, saveEvent_signers, saveEvent_mySharedSigners, saveEvent_sharedSigners, saveEvent_pending, saveEvent_notifications, saveEvent_contacts, saveEvent_profiles, saveEvent_sessions, saveEvent_ncRequests, saveEvent_scheduledSync]
        have h2 : handle_event env (saveEvent ev s) ev = (saveEvent ev s, none) := by
          simp [handle_event, hdel, hk, hp, saveEvent_events, saveEvent_deleted, saveEvent_sharedKeys, saveEvent_policies, saveEvent_proposals, saveEvent_approvals, saveEvent_completedProposals, saveEvent_signers, saveEvent_mySharedSigners, saveEvent_sharedSigners, saveEvent_pending, saveEvent_notifications, saveEvent_contacts, saveEvent_profiles, saveEvent_sessions, saveEvent_ncRequests, saveEvent_scheduledSync, saveEvent_idem, nmapInsert_overwrite, nmapLookup_insert_self, pushPending_idem, nmapErase_idem, nsetInsert_idem, nmapLookup_erase_self]
        refine ⟨?_, Or.inl ?_⟩ <;> simp [h1, h2]
      · by_cases hself : ev.pubkey = env.selfPk
        · rcases he : extract_first_event_id ev with _ | sid
          ·
            have h1 : handle_event env s ev = (saveEvent ev s, none) := by
              simp [handle_event, hdel, hk, hp, hself, he, saveEvent_events, saveEvent_deleted, saveEvent_sharedKeys, saveEvent_policies, saveEvent_proposals, saveEvent_approvals, saveEvent_completedProposals, saveEvent_signers, saveEvent_mySharedSigners, saveEvent_sharedSigners, saveEvent_pending, saveEvent_notifications, saveEvent_contacts, saveEvent_profiles, saveEvent_sessions, saveEvent_ncRequests, saveEvent_scheduledSync]
            have h2 : handle_event env (saveEvent ev s) ev = (saveEvent ev s, none) := by
              simp [handle_event, hdel, hk, hp, hself, he, saveEvent_events, saveEvent_deleted, saveEvent_sharedKeys, saveEvent_policies, saveEvent_proposals, saveEvent_approvals, saveEvent_completedProposals, saveEvent_signers, saveEvent_mySharedSigners, saveEvent_sharedSigners, saveEvent_pending, saveEvent_notifications, saveEvent_contacts, saveEvent_profiles, saveEvent_sessions, saveEvent_ncRequests, saveEvent_scheduledSync, saveEvent_idem, nmapInsert_overwrite, nmapLookup_insert_self, pushPending_idem, nmapErase_idem, nsetInsert_idem, nmapLookup_erase_self]
            refine ⟨?_, Or.inl ?_⟩ <;> simp [h1, h2]
          ·
            have h1 : handle_event env s ev = (({ events := nmapInsert ev.id ev s.events, deleted := s.deleted, sharedKeys := s.sharedKeys, policies := s.policies, proposals := s.proposals, approvals := s.approvals, completedProposals := s.completedProposals, signers := s.signers, mySharedSigners := nmapInsert ev.id (sid, pubk) s.mySharedSigners, sharedSigners := s.sharedSigners, pending := s.pending, notifications := s.notifications, contacts := s.contacts, profiles := s.profiles, sessions := s.sessions, ncRequests := s.ncRequests, scheduledSync := s.scheduledSync } : DbState), none) := by
              simp [handle_event, hdel, hk, hp, hself, he, saveEvent_events, saveEvent_deleted, saveEvent_sharedKeys, saveEvent_policies, saveEvent_proposals, saveEvent_approvals, saveEvent_completedProposals, saveEvent_signers, saveEvent_mySharedSigners, saveEvent_sharedSigners, saveEvent_pending, saveEvent_notifications, saveEvent_contacts, saveEvent_profiles, saveEvent_sessions, saveEvent_ncRequests, saveEvent_scheduledSync]
            have hsv : saveEvent ev ({ events := nmapInsert ev.id ev s.events, deleted := s.deleted, sharedKeys := s.sharedKeys, policies := s.policies, proposals := s.proposals, approvals := s.approvals, completedProposals := s.completedProposals, signers := s.signers, mySharedSigners := nmapInsert ev.id (sid, pubk) s.mySharedSigners, sharedSigners := s.sharedSigners, pending := s.pending, notifications := s.notifications, contacts := s.contacts, profiles := s.profiles, sessions := s.sessions, ncRequests := s.ncRequests, scheduledSync := s.scheduledSync } : DbState) = ({ events := nmapInsert ev.id ev s.events, deleted := s.deleted, sharedKeys := s.sharedKeys, policies := s.policies, proposals := s.proposals, approvals := s.approvals, completedProposals := s.completedProposals, signers := s.signers, mySharedSigners := nmapInsert ev.id (sid, pubk) s.mySharedSigners, sharedSigners := s.sharedSigners, pending := s.pending, notifications := s.notifications, contacts := s.contacts, profiles := s.profiles, sessions := s.sessions, ncRequests := s.ncRequests, scheduledSync := s.scheduledSync } : DbState) := by
              apply saveEvent_saved
              simp [nmapInsert_overwrite]
            have h2 : handle_event env ({ events := nmapInsert ev.id ev s.events, deleted := s.deleted, sharedKeys := s.sharedKeys, policies := s.policies, proposals := s.proposals, approvals := s.approvals, completedProposals := s.completedProposals, signers := s.signers, mySharedSigners := nmapInsert ev.id (sid, pubk) s.mySharedSigners, sharedSigners := s.sharedSigners, pending := s.pending, notifications := s.notifications, contacts := s.contacts, profiles := s.profiles, sessions := s.sessions, ncRequests := s.ncRequests, scheduledSync := s.scheduledSync } : DbState) ev = (({ events := nmapInsert ev.id ev s.events, deleted := s.deleted, sharedKeys := s.sharedKeys, policies := s.policies, proposals := s.proposals, approvals := s.approvals, completedProposals := s.completedProposals, signers := s.signers, mySharedSigners := nmapInsert ev.id (sid, pubk) s.mySharedSigners, sharedSigners := s.sharedSigners, pending := s.pending, notifications := s.notifications, contacts := s.contacts, profiles := s.profiles, sessions := s.sessions, ncRequests := s.ncRequests, scheduledSync := s.scheduledSync } : DbState), none) := by
              simp [handle_event, hdel, hk, hp, hself, he, saveEvent_events, saveEvent_deleted, saveEvent_sharedKeys, saveEvent_policies, saveEvent_proposals, saveEvent_approvals, saveEvent_completedProposals, saveEvent_signers, saveEvent_mySharedSigners, saveEvent_sharedSigners, saveEvent_pending, saveEvent_notifications, saveEvent_contacts, saveEvent_profiles, saveEvent_sessions, saveEvent_ncRequests, saveEvent_scheduledSync, nmapInsert_overwrite, nmapLookup_insert_self, pushPending_idem, nmapErase_idem, nsetInsert_idem, nmapLookup_erase_self, hsv]
            refine ⟨?_, Or.inl ?_⟩ <;> simp [h1, h2]
        · rcases hss : env.decryptSharedSigner ev.pubkey ev.content with _ | ssv
          ·
            have h1 : handle_event env s ev = (saveEvent ev s, none) := by
              simp [handle_event, hdel, hk, hp, hself, hss, saveEvent_events, saveEvent_deleted, saveEvent_sharedKeys, saveEvent_policies, saveEvent_proposals, saveEvent_approvals, saveEvent_completedProposals, saveEvent_signers, saveEvent_mySharedSigners, saveEvent_sharedSigners, saveEvent_pending, saveEvent_notifications, saveEvent_contacts, saveEvent_profiles, saveEvent_sessions, saveEvent_ncRequests, saveEvent_scheduledSync]
            have h2 : handle_event env (saveEvent ev s) ev = (saveEvent ev s, none) := by
              simp [handle_event, hdel, hk, hp, hself, hss, saveEvent_events, saveEvent_deleted, saveEvent_sharedKeys, saveEvent_policies, saveEvent_proposals, saveEvent_approvals, saveEvent_completedProposals, saveEvent_signers, saveEvent_mySharedSigners, saveEvent_sharedSigners, saveEvent_pending, saveEvent_notifications, saveEvent_contacts, saveEvent_profiles, saveEvent_sessions, saveEvent_ncRequests, saveEvent_scheduledSync, saveEvent_idem, nmapInsert_overwrite, nmapLookup_insert_self, pushPending_idem, nmapErase_idem, nsetInsert_idem, nmapLookup_erase_self]
            refine ⟨?_, Or.inl ?_⟩ <;> simp [h1, h2]
          ·
            have h1 : handle_event env s ev = (({ events := nmapInsert ev.id ev s.events, deleted := s.deleted, sharedKeys := s.sharedKeys, policies := s.policies, proposals := s.proposals, approvals := s.approvals, completedProposals := s.completedProposals, signers := s.signers, mySharedSigners := s.mySharedSigners, sharedSigners := nmapInsert ev.id (ev.pubkey, ssv) s.sharedSigners, pending := s.pending, notifications := nmapInsert ev.id (Notification.NewSharedSigner ev.id ev.pubkey) s.notifications, contacts := s.contacts, profiles := s.profiles, sessions := s.sessions, ncRequests := s.ncRequests, scheduledSync := s.scheduledSync } : DbState), some (Notification.NewSharedSigner ev.id ev.pubkey)) := by
              simp [handle_event, hdel, hk, hp, hself, hss, saveEvent_events, saveEvent_deleted, saveEvent_sharedKeys, saveEvent_policies, saveEvent_proposals, saveEvent_approvals, saveEvent_completedProposals, saveEvent_signers, saveEvent_mySharedSigners, saveEvent_sharedSigners, saveEvent_pending, saveEvent_notifications, saveEvent_contacts, saveEvent_profiles, saveEvent_sessions, saveEvent_ncRequests, saveEvent_scheduledSync]
            have hsv : saveEvent ev ({ events := nmapInsert ev.id ev s.events, deleted := s.deleted, sharedKeys := s.sharedKeys, policies := s.policies, proposals := s.proposals, approvals := s.approvals, completedProposals := s.completedProposals, signers := s.signers, mySharedSigners := s.mySharedSigners, sharedSigners := nmapInsert ev.id (ev.pubkey, ssv) s.sharedSigners, pending := s.pending, notifications := nmapInsert ev.id (Notification.NewSharedSigner ev.id ev.pubkey) s.notifications, contacts := s.contacts, profiles := s.profiles, sessions := s.sessions, ncRequests := s.ncRequests, scheduledSync := s.scheduledSync } : DbState) = ({ events := nmapInsert ev.id ev s.events, deleted := s.deleted, sharedKeys := s.sharedKeys, policies := s.policies, proposals := s.proposals, approvals := s.approvals, completedProposals := s.completedProposals, signers := s.signers, mySharedSigners := s.mySharedSigners, sharedSigners := nmapInsert ev.id (ev.pubkey, ssv) s.sharedSigners, pending := s.pending, notifications := nmapInsert ev.id (Notification.NewSharedSigner ev.id ev.pubkey) s.notifications, contacts := s.contacts, profiles := s.profiles, sessions := s.sessions, ncRequests := s.ncRequests, scheduledSync := s.scheduledSync } : DbState) := by
              apply saveEvent_saved
              simp [nmapInsert_overwrite]
            have h2 : handle_event env ({ events := nmapInsert ev.id ev s.events, deleted := s.deleted, sharedKeys := s.sharedKeys, policies := s.policies, proposals := s.proposals, approvals := s.approvals, completedProposals := s.completedProposals, signers := s.signers, mySharedSigners := s.mySharedSigners, sharedSigners := nmapInsert ev.id (ev.pubkey, ssv) s.sharedSigners, pending := s.pending, notifications := nmapInsert ev.id (Notification.NewSharedSigner ev.id ev.pubkey) s.notifications, contacts := s.contacts, profiles := s.profiles, sessions := s.sessions, ncRequests := s.ncRequests, scheduledSync := s.scheduledSync } : DbState) ev = (({ events := nmapInsert ev.id ev s.events, deleted := s.deleted, sharedKeys := s.sharedKeys, policies := s.policies, proposals := s.proposals, approvals := s.approvals, completedProposals := s.completedProposals, signers := s.signers, mySharedSigners := s.mySharedSigners, sharedSigners := nmapInsert ev.id (ev.pubkey, ssv) s.sharedSigners, pending := s.pending, notifications := nmapInsert ev.id (Notification.NewSharedSigner ev.id ev.pubkey) s.notifications, contacts := s.contacts, profiles := s.profiles, sessions := s.sessions, ncRequests := s.ncRequests, scheduledSync := s.scheduledSync } : DbState), some (Notification.NewSharedSigner ev.id ev.pubkey)) := by
              simp [handle_event, hdel, hk, hp, hself, hss, saveEvent_events, saveEvent_deleted, saveEvent_sharedKeys, saveEvent_policies, saveEvent_proposals, saveEvent_approvals, saveEvent_completedProposals, saveEvent_signers, saveEvent_mySharedSigners, saveEvent_sharedSigners, saveEvent_pending, saveEvent_notifications, saveEvent_contacts, saveEvent_profiles, saveEvent_sessions, saveEvent_ncRequests, saveEvent_scheduledSync, nmapInsert_overwrite, nmapLookup_insert_self, pushPending_idem, nmapErase_idem, nsetInsert_idem, nmapLookup_erase_self, hsv]
            refine ⟨?_, Or.inr ⟨rfl, hself, ?_⟩⟩ <;> simp [h1, h2]
    | eventDeletion =>
      have h1 : handle_event env s ev
          = (ev.tags.foldl (deletionStep ev) (saveEvent ev s), none) := by
        simp [handle_event, hdel, hk]
      have hDev : (ev.tags.foldl (deletionStep ev) (saveEvent ev s)).events
          = nmapInsert ev.id ev s.events := by
        rw [del_fold_eq, foldl_dG_events]
        rfl
      by_cases hdel2 : ev.id ∈ (ev.tags.foldl (deletionStep ev) (saveEvent ev s)).deleted
      · have h2 : handle_event env (ev.tags.foldl (deletionStep ev) (saveEvent ev s)) ev
            = (ev.tags.foldl (deletionStep ev) (saveEvent ev s), none) := by
          simp [handle_event, hdel2]
        refine ⟨?_, Or.inl ?_⟩ <;> simp [h1, h2]
      · have hsv : saveEvent ev (ev.tags.foldl (deletionStep ev) (saveEvent ev s))
            = ev.tags.foldl (deletionStep ev) (saveEvent ev s) := by
          apply saveEvent_saved
          rw [hDev, nmapInsert_overwrite]
        have e1 : ev.tags.foldl (deletionStep ev) (saveEvent ev s)
            = (matchedTids ev (nmapInsert ev.id ev s.events) ev.tags).foldl
                (fun s tid => deleteGenericEventId s tid) (saveEvent ev s) :=
          del_fold_eq ev ev.tags (saveEvent ev s)
        have e2 : ev.tags.foldl (deletionStep ev)
              (ev.tags.foldl (deletionStep ev) (saveEvent ev s))
            = (matchedTids ev (nmapInsert ev.id ev s.events) ev.tags).foldl
                (fun s tid => deleteGenericEventId s tid)
                (ev.tags.foldl (deletionStep ev) (saveEvent ev s)) := by
          have h := del_fold_eq ev ev.tags (ev.tags.foldl (deletionStep ev) (saveEvent ev s))
          rw [hDev] at h
          exact h
        have hfold : ev.tags.foldl (deletionStep ev)
              (ev.tags.foldl (deletionStep ev) (saveEvent ev s))
            = ev.tags.foldl (deletionStep ev) (saveEvent ev s) := by
          rw [e2, e1, foldl_dG_idem]
        have h2 : handle_event env (ev.tags.foldl (deletionStep ev) (saveEvent ev s)) ev
            = (ev.tags.foldl (deletionStep ev) (saveEvent ev s), none) := by
          simp [handle_event, hdel2, hk, hsv, hfold]
        refine ⟨?_, Or.inl ?_⟩ <;> simp [h1, h2]
    | contactList =>
      have h1 : handle_event env s ev = (({ events := nmapInsert ev.id ev s.events, deleted := s.deleted, sharedKeys := s.sharedKeys, policies := s.policies, proposals := s.proposals, approvals := s.approvals, completedProposals := s.completedProposals, signers := s.signers, mySharedSigners := s.mySharedSigners, sharedSigners := s.sharedSigners, pending := s.pending, notifications := s.notifications, contacts := (ev.tags.filterMap (fun t => match t with | NTag.contactEntry pk => some pk | _ => none)).foldl (fun acc pk => nsetInsert pk acc) [], profiles := s.profiles, sessions := s.sessions, ncRequests := s.ncRequests, scheduledSync := s.scheduledSync } : DbState), none) := by
        simp [handle_event, hdel, hk, saveEvent_events, saveEvent_deleted, saveEvent_sharedKeys, saveEvent_policies, saveEvent_proposals, saveEvent_approvals, saveEvent_completedProposals, saveEvent_signers, saveEvent_mySharedSigners, saveEvent_sharedSigners, saveEvent_pending, saveEvent_notifications, saveEvent_contacts, saveEvent_profiles, saveEvent_sessions, saveEvent_ncRequests, saveEvent_scheduledSync]
      have hsv : saveEvent ev ({ events := nmapInsert ev.id ev s.events, deleted := s.deleted, sharedKeys := s.sharedKeys, policies := s.policies, proposals := s.proposals, approvals := s.approvals, completedProposals := s.completedProposals, signers := s.signers, mySharedSigners := s.mySharedSigners, sharedSigners := s.sharedSigners, pending := s.pending, notifications := s.notifications, contacts := (ev.tags.filterMap (fun t => match t with | NTag.contactEntry pk => some pk | _ => none)).foldl (fun acc pk => nsetInsert pk acc) [], profiles := s.profiles, sessions := s.sessions, ncRequests := s.ncRequests, scheduledSync := s.scheduledSync } : DbState) = ({ events := nmapInsert ev.id ev s.events, deleted := s.deleted, sharedKeys := s.sharedKeys, policies := s.policies, proposals := s.proposals, approvals := s.approvals, completedProposals := s.completedProposals, signers := s.signers, mySharedSigners := s.mySharedSigners, sharedSigners := s.sharedSigners, pending := s.pending, notifications := s.notifications, contacts := (ev.tags.filterMap (fun t => match t with | NTag.contactEntry pk => some pk | _ => none)).foldl (fun acc pk => nsetInsert pk acc) [], profiles := s.profiles, sessions := s.sessions, ncRequests := s.ncRequests, scheduledSync := s.scheduledSync } : DbState) := by
        apply saveEvent_saved
        simp [nmapInsert_overwrite]
      have h2 : handle_event env ({ events := nmapInsert ev.id ev s.events, deleted := s.deleted, sharedKeys := s.sharedKeys, policies := s.policies, proposals := s.proposals, approvals := s.approvals, completedProposals := s.completedProposals, signers := s.signers, mySharedSigners := s.mySharedSigners, sharedSigners := s.sharedSigners, pending := s.pending, notifications := s.notifications, contacts := (ev.tags.filterMap (fun t => match t with | NTag.contactEntry pk => some pk | _ => none)).foldl (fun acc pk => nsetInsert pk acc) [], profiles := s.profiles, sessions := s.sessions, ncRequests := s.ncRequests, scheduledSync := s.scheduledSync } : DbState) ev = (({ events := nmapInsert ev.id ev s.events, deleted := s.deleted, sharedKeys := s.sharedKeys, policies := s.policies, proposals := s.proposals, approvals := s.approvals, completedProposals := s.completedProposals, signers := s.signers, mySharedSigners := s.mySharedSigners, sharedSigners := s.sharedSigners, pending := s.pending, notifications := s.notifications, contacts := (ev.tags.filterMap (fun t => match t with | NTag.contactEntry pk => some pk | _ => none)).foldl (fun acc pk => nsetInsert pk acc) [], profiles := s.profiles, sessions := s.sessions, ncRequests := s.ncRequests, scheduledSync := s.scheduledSync } : DbState), none) := by
        simp [handle_event, hdel, hk, saveEvent_events, saveEvent_deleted, saveEvent_sharedKeys, saveEvent_policies, saveEvent_proposals, saveEvent_approvals, saveEvent_completedProposals, saveEvent_signers, saveEvent_mySharedSigners, saveEvent_sharedSigners, saveEvent_pending, saveEvent_notifications, saveEvent_contacts, saveEvent_profiles, saveEvent_sessions, saveEvent_ncRequests, saveEvent_scheduledSync, nmapInsert_overwrite, nmapLookup_insert_self, pushPending_idem, nmapErase_idem, nsetInsert_idem, nmapLookup_erase_self, hsv]
      refine ⟨?_, Or.inl ?_⟩ <;> simp [h1, h2]
    | metadata =>
      rcases hpr : env.parseProfile ev.content with _ | pr
      ·
        have h1 : handle_event env s ev = (saveEvent ev s, none) := by
          simp [handle_event, hdel, hk, hpr, saveEvent_events, saveEvent_deleted, saveEvent_sharedKeys, saveEvent_policies, saveEvent_proposals, saveEvent_approvals, saveEvent_completedProposals, saveEvent_signers, saveEvent_mySharedSigners, saveEvent_sharedSigners, saveEvent_pending, saveEvent_notifications, saveEvent_contacts, saveEvent_profiles, saveEvent_sessions, saveEvent_ncRequests, saveEvent_scheduledSync]
        have h2 : handle_event env (saveEvent ev s) ev = (saveEvent ev s, none) := by
          simp [handle_event, hdel, hk, hpr, saveEvent_events, saveEvent_deleted, saveEvent_sharedKeys, saveEvent_policies, saveEvent_proposals, saveEvent_approvals, saveEvent_completedProposals, saveEvent_signers, saveEvent_mySharedSigners, saveEvent_sharedSigners, saveEvent_pending, saveEvent_notifications, saveEvent_contacts, saveEvent_profiles, saveEvent_sessions, saveEvent_ncRequests, saveEvent_scheduledSync, saveEvent_idem, nmapInsert_overwrite, nmapLookup_insert_self, pushPending_idem, nmapErase_idem, nsetInsert_idem, nmapLookup_erase_self]
        refine ⟨?_, Or.inl ?_⟩ <;> simp [h1, h2]
      ·
        have h1 : handle_event env s ev = (({ events := nmapInsert ev.id ev s.events, deleted := s.deleted, sharedKeys := s.sharedKeys, policies := s.policies, proposals := s.proposals, approvals := s.approvals, completedProposals := s.completedProposals, signers := s.signers, mySharedSigners := s.mySharedSigners, sharedSigners := s.sharedSigners, pending := s.pending, notifications := s.notifications, contacts := s.contacts, profiles := nmapInsert ev.pubkey pr s.profiles, sessions := s.sessions, ncRequests := s.ncRequests, scheduledSync := s.scheduledSync } : DbState), none) := by
          simp [handle_event, hdel, hk, hpr, saveEvent_events, saveEvent_deleted, saveEvent_sharedKeys, saveEvent_policies, saveEvent_proposals, saveEvent_approvals, saveEvent_completedProposals, saveEvent_signers, saveEvent_mySharedSigners, saveEvent_sharedSigners, saveEvent_pending, saveEvent_notifications, saveEvent_contacts, saveEvent_profiles, saveEvent_sessions, saveEvent_ncRequests, saveEvent_scheduledSync]
        have hsv : saveEvent ev ({ events := nmapInsert ev.id ev s.events, deleted := s.deleted, sharedKeys := s.sharedKeys, policies := s.policies, proposals := s.proposals, approvals := s.approvals, completedProposals := s.completedProposals, signers := s.signers, mySharedSigners := s.mySharedSigners, sharedSigners := s.sharedSigners, pending := s.pending, notifications := s.notifications, contacts := s.contacts, profiles := nmapInsert ev.pubkey pr s.profiles, sessions := s.sessions, ncRequests := s.ncRequests, scheduledSync := s.scheduledSync } : DbState) = ({ events := nmapInsert ev.id ev s.events, deleted := s.deleted, sharedKeys := s.sharedKeys, policies := s.policies, proposals := s.proposals, approvals := s.approvals, completedProposals := s.completedProposals, signers := s.signers, mySharedSigners := s.mySharedSigners, sharedSigners := s.sharedSigners, pending := s.pending, notifications := s.notifications, contacts := s.contacts, profiles := nmapInsert ev.pubkey pr s.profiles, sessions := s.sessions, ncRequests := s.ncRequests, scheduledSync := s.scheduledSync } : DbState) := by
          apply saveEvent_saved
          simp [nmapInsert_overwrite]
        have h2 : handle_event env ({ events := nmapInsert ev.id ev s.events, deleted := s.deleted, sharedKeys := s.sharedKeys, policies := s.policies, proposals := s.proposals, approvals := s.approvals, completedProposals := s.completedProposals, signers := s.signers, mySharedSigners := s.mySharedSigners, sharedSigners := s.sharedSigners, pending := s.pending, notifications := s.notifications, contacts := s.contacts, profiles := nmapInsert ev.pubkey pr s.profiles, sessions := s.sessions, ncRequests := s.ncRequests, scheduledSync := s.scheduledSync } : DbState) ev = (({ events := nmapInsert ev.id ev s.events, deleted := s.deleted, sharedKeys := s.sharedKeys, policies := s.policies, proposals := s.proposals, approvals := s.approvals, completedProposals := s.completedProposals, signers := s.signers, mySharedSigners := s.mySharedSigners, sharedSigners := s.sharedSigners, pending := s.pending, notifications := s.notifications, contacts := s.contacts, profiles := nmapInsert ev.pubkey pr s.profiles, sessions := s.sessions, ncRequests := s.ncRequests, scheduledSync := s.scheduledSync } : DbState), none) := by
          simp [handle_event, hdel, hk, hpr, saveEvent_events, saveEvent_deleted, saveEvent_sharedKeys, saveEvent_policies, saveEvent_proposals, saveEvent_approvals, saveEvent_completedProposals, saveEvent_signers, saveEvent_mySharedSigners, saveEvent_sharedSigners, saveEvent_pending, saveEvent_notifications, saveEvent_contacts, saveEvent_profiles, saveEvent_sessions, saveEvent_ncRequests, saveEvent_scheduledSync, nmapInsert_overwrite, nmapLookup_insert_self, pushPending_idem, nmapErase_idem, nsetInsert_idem, nmapLookup_erase_self, hsv]
        refine ⟨?_, Or.inl ?_⟩ <;> simp [h1, h2]
    | nostrConnect =>
      rcases hsess : nmapLookup ev.pubkey s.sessions with _ | preAuth
      ·
        have h1 : handle_event env s ev = (s, none) := by
          simp [handle_event, hdel, hk, hsess]
        refine ⟨?_, Or.inl ?_⟩ <;> simp [h1]
      · rcases hrq : env.decryptNip46 ev.pubkey ev.content with _ | req
        ·
          have h1 : handle_event env s ev = (s, none) := by
            simp [handle_event, hdel, hk, hsess, hrq]
          refine ⟨?_, Or.inl ?_⟩ <;> simp [h1]
        · cases req with
          | disconnect =>
            have h1 : handle_event env s ev = (({ events := s.events, deleted := s.deleted, sharedKeys := s.sharedKeys, policies := s.policies, proposals := s.proposals, approvals := s.approvals, completedProposals := s.completedProposals, signers := s.signers, mySharedSigners := s.mySharedSigners, sharedSigners := s.sharedSigners, pending := s.pending, notifications := s.notifications, contacts := s.contacts, profiles := s.profiles, sessions := nmapErase ev.pubkey s.sessions, ncRequests := s.ncRequests, scheduledSync := s.scheduledSync } : DbState), none) := by
              simp [handle_event, hdel, hk, hsess, hrq]
            have h2 : handle_event env ({ events := s.events, deleted := s.deleted, sharedKeys := s.sharedKeys, policies := s.policies, proposals := s.proposals, approvals := s.approvals, completedProposals := s.completedProposals, signers := s.signers, mySharedSigners := s.mySharedSigners, sharedSigners := s.sharedSigners, pending := s.pending, notifications := s.notifications, contacts := s.contacts, profiles := s.profiles, sessions := nmapErase ev.pubkey s.sessions, ncRequests := s.ncRequests, scheduledSync := s.scheduledSync } : DbState) ev = (({ events := s.events, deleted := s.deleted, sharedKeys := s.sharedKeys, policies := s.policies, proposals := s.proposals, approvals := s.approvals, completedProposals := s.completedProposals, signers := s.signers, mySharedSigners := s.mySharedSigners, sharedSigners := s.sharedSigners, pending := s.pending, notifications := s.notifications, contacts := s.contacts, profiles := s.profiles, sessions := nmapErase ev.pubkey s.sessions, ncRequests := s.ncRequests, scheduledSync := s.scheduledSync } : DbState), none) := by
              simp [handle_event, hdel, hk, hsess, hrq, nmapInsert_overwrite, nmapLookup_insert_self, pushPending_idem, nmapErase_idem, nsetInsert_idem, nmapLookup_erase_self]
            refine ⟨?_, Or.inl ?_⟩ <;> simp [h1, h2]
          | getPublicKey =>
            have h1 : handle_event env s ev = (s, none) := by
              simp [handle_event, hdel, hk, hsess, hrq]
            refine ⟨?_, Or.inl ?_⟩ <;> simp [h1]
          | otherRequest payload =>
            have h1 : handle_event env s ev = (({ events := s.events, deleted := s.deleted, sharedKeys := s.sharedKeys, policies := s.policies, proposals := s.proposals, approvals := s.approvals, completedProposals := s.completedProposals, signers := s.signers, mySharedSigners := s.mySharedSigners, sharedSigners := s.sharedSigners, pending := s.pending, notifications := s.notifications, contacts := s.contacts, profiles := s.profiles, sessions := s.sessions, ncRequests := nmapInsert ev.id (ev.pubkey, payload, preAuth) s.ncRequests, scheduledSync := s.scheduledSync } : DbState), none) := by
              simp [handle_event, hdel, hk, hsess, hrq]
            have h2 : handle_event env ({ events := s.events, deleted := s.deleted, sharedKeys := s.sharedKeys, policies := s.policies, proposals := s.proposals, approvals := s.approvals, completedProposals := s.completedProposals, signers := s.signers, mySharedSigners := s.mySharedSigners, sharedSigners := s.sharedSigners, pending := s.pending, notifications := s.notifications, contacts := s.contacts, profiles := s.profiles, sessions := s.sessions, ncRequests := nmapInsert ev.id (ev.pubkey, payload, preAuth) s.ncRequests, scheduledSync := s.scheduledSync } : DbState) ev = (({ events := s.events, deleted := s.deleted, sharedKeys := s.sharedKeys, policies := s.policies, proposals := s.proposals, approvals := s.approvals, completedProposals := s.completedProposals, signers := s.signers, mySharedSigners := s.mySharedSigners, sharedSigners := s.sharedSigners, pending := s.pending, notifications := s.notifications, contacts := s.contacts, profiles := s.profiles, sessions := s.sessions, ncRequests := nmapInsert ev.id (ev.pubkey, payload, preAuth) s.ncRequests, scheduledSync := s.scheduledSync } : DbState), none) := by
              simp [handle_event, hdel, hk, hsess, hrq, nmapInsert_overwrite, nmapLookup_insert_self, pushPending_idem, nmapErase_idem, nsetInsert_idem, nmapLookup_erase_self]
            refine ⟨?_, Or.inl ?_⟩ <;> simp [h1, h2]
    | other =>
      have h1 : handle_event env s ev = (saveEvent ev s, none) := by
        simp [handle_event, hdel, hk, saveEvent_events, saveEvent_deleted, saveEvent_sharedKeys, saveEvent_policies, saveEvent_proposals, saveEvent_approvals, saveEvent_completedProposals, saveEvent_signers, saveEvent_mySharedSigners, saveEvent_sharedSigners, saveEvent_pending, saveEvent_notifications, saveEvent_contacts, saveEvent_profiles, saveEvent_sessions, saveEvent_ncRequests, saveEvent_scheduledSync]
      have h2 : handle_event env (saveEvent ev s) ev = (saveEvent ev s, none) := by
        simp [handle_event, hdel, hk, saveEvent_events, saveEvent_deleted, saveEvent_sharedKeys, saveEvent_policies, saveEvent_proposals, saveEvent_approvals, saveEvent_completedProposals, saveEvent_signers, saveEvent_mySharedSigners, saveEvent_sharedSigners, saveEvent_pending, saveEvent_notifications, saveEvent_contacts, saveEvent_profiles, saveEvent_sessions, saveEvent_ncRequests, saveEvent_scheduledSync, saveEvent_idem, nmapInsert_overwrite, nmapLookup_insert_self, pushPending_idem, nmapErase_idem, nsetInsert_idem, nmapLookup_erase_self]
      refine ⟨?_, Or.inl ?_⟩ <;> simp [h1, h2]

end Coinstr
